import Mathlib

/-! The dlib `gpu_data` object: the host/device coherence engine.

A shallow embedding of `dlib/dnn/gpu_data.cpp` (the CUDA build of `gpu_data`), together with
the accessors that `dlib/dnn/tensor_abstract.h` documents.

* An object is a record of the member variables the `.cpp` file reads and writes.
* A memory block is `Option (List α)`: `none` is the null pointer, `some xs` is a block whose
  floats are `xs`.  The element type `α` stands for `float`; the code only ever moves floats.
* Every call into the CUDA runtime is recorded, in program order, in a list of `cuda_call`.
  The status each call returns is chosen by a `cuda_runtime`, which sees all the calls made so
  far; `CHECK_CUDA` turns a failure status into an exception.
* A member function maps an object and the calls made so far to an `outcome`: it returns, it
  leaves by an exception, or the process is aborted.  Each outcome carries the object as the
  function left it and the calls made up to that point.
* `size_t` arithmetic is 64 bit and `sizeof(float)` is 4.
-/

namespace dlib

/-! ## The CUDA runtime as seen from `gpu_data.cpp` -/

/-- The `cudaMemcpyKind` argument of `cudaMemcpy` and `cudaMemcpyAsync`. -/
inductive cudaMemcpyKind where
  | cudaMemcpyHostToHost
  | cudaMemcpyHostToDevice
  | cudaMemcpyDeviceToHost
  | cudaMemcpyDeviceToDevice
  deriving DecidableEq, Repr

/-- A call into the CUDA runtime.  A stream argument is `none` for the null stream `0` (the
default stream) and `some h` for a created stream with handle `h`.  Byte counts are the
`size_t` values passed.  `cudaFreeHost` and `cudaFree` are the calls made by the deleters of
`data_host` and `data_device`. -/
inductive cuda_call where
  | cudaStreamSynchronize (stream : Option Nat)
  | cudaGetLastError
  | cudaMemcpy (count : Nat) (kind : cudaMemcpyKind)
  | cudaMemcpyAsync (count : Nat) (kind : cudaMemcpyKind) (stream : Option Nat)
  | cudaGetDevice
  | cudaMallocHost (size : Nat)
  | cudaMalloc (size : Nat)
  | cudaStreamCreateWithFlags
  | cudaFreeHost
  | cudaFree
  deriving DecidableEq, Repr

/-- The environment: what the CUDA runtime answers.
* `status calls` is `true` when the latest call, the last entry of `calls`, returns
  `cudaSuccess`; it may depend on every call made before it.
* `device_id` is what `cudaGetDevice` stores.
* `host_block i` and `device_block i` are the floats found at index `i` of a block freshly
  obtained from `cudaMallocHost` and `cudaMalloc`: CUDA does not initialise them.
* `stream` is the handle `cudaStreamCreateWithFlags` hands out. -/
structure cuda_runtime (α : Type) where
  status : List cuda_call → Bool
  device_id : Int
  host_block : Nat → α
  device_block : Nat → α
  stream : Nat

/-- A runtime in which every call returns `cudaSuccess`. -/
def cuda_runtime.succeeds {α : Type} (rt : cuda_runtime α) : Prop :=
  ∀ calls, rt.status calls = true

/-- The value of `sizeof(float)`. -/
def sizeof_float : Nat := 4

/-- The product `n*sizeof(float)` as the code computes it, in `size_t`. -/
def byte_count (n : Nat) : Nat := (n * sizeof_float) % 2 ^ 64

/-- The block a successful allocation of `count` bytes yields: `count / sizeof(float)` floats
with the contents the runtime happens to provide. -/
def fresh_block {α : Type} (contents : Nat → α) (count : Nat) : List α :=
  (List.range (count / sizeof_float)).map contents

/-- The effect of a successful `cudaMemcpy(dst, src, count, kind)` on the destination block:
the first `count / sizeof(float)` floats of `dst` are replaced by those of `src`.  With a
null pointer on either side nothing is moved. -/
def copy_floats {α : Type} (count : Nat) (dst src : Option (List α)) : Option (List α) :=
  match dst, src with
  | some d, some s => some (s.take (count / sizeof_float) ++ d.drop (count / sizeof_float))
  | _, _ => dst

/-! ## Outcomes -/

/-- How a function leaves.  `returned`: normal return.  `thrown`: an exception raised by
`CHECK_CUDA` propagates to the caller.  `aborted`: `abort()` ended the process.
`check_failed`: a `DLIB_CASSERT` did not hold.  In each case `s` is the object state at that
point and `calls` the CUDA calls made so far. -/
inductive outcome (σ : Type) where
  | returned (s : σ) (calls : List cuda_call)
  | thrown (s : σ) (calls : List cuda_call)
  | aborted (s : σ) (calls : List cuda_call)
  | check_failed (s : σ) (calls : List cuda_call)
  deriving DecidableEq, Repr

/-- Sequencing: the next statement runs only after a normal return. -/
def outcome.andThen {σ : Type} (o : outcome σ) (f : σ → List cuda_call → outcome σ) :
    outcome σ :=
  match o with
  | .returned s calls => f s calls
  | .thrown s calls => .thrown s calls
  | .aborted s calls => .aborted s calls
  | .check_failed s calls => .check_failed s calls

/-- Transport of the state carried by an outcome. -/
def outcome.map {σ τ : Type} (g : σ → τ) (o : outcome σ) : outcome τ :=
  match o with
  | .returned s calls => .returned (g s) calls
  | .thrown s calls => .thrown (g s) calls
  | .aborted s calls => .aborted (g s) calls
  | .check_failed s calls => .check_failed (g s) calls

/-- The object state an outcome carries. -/
def outcome.state {σ : Type} : outcome σ → σ
  | .returned s _ => s
  | .thrown s _ => s
  | .aborted s _ => s
  | .check_failed s _ => s

/-- The CUDA calls an outcome carries. -/
def outcome.calls {σ : Type} : outcome σ → List cuda_call
  | .returned _ calls => calls
  | .thrown _ calls => calls
  | .aborted _ calls => calls
  | .check_failed _ calls => calls

/-- Modelled from the spec: the macro `CHECK_CUDA` of `cuda_utils.h`, which is not among the
sources.  The call is made; a status other than `cudaSuccess` is fatal for the calling
function, which `set_size` observes as an exception in its `try` block. -/
def CHECK_CUDA {α σ : Type} (rt : cuda_runtime α) (c : cuda_call) (s : σ)
    (calls : List cuda_call) : outcome σ :=
  if rt.status (calls ++ [c]) then .returned s (calls ++ [c]) else .thrown s (calls ++ [c])

/-! ## The object -/

/-- The member variables of `gpu_data` that `gpu_data.cpp` uses.  `cuda_stream` is `none`
while the shared pointer is empty, which as a `cudaStream_t` is the null stream. -/
structure gpu_data (α : Type) where
  data_size : Nat
  host_current : Bool
  device_current : Bool
  have_active_transfer : Bool
  device_in_use : Bool
  the_device_id : Int
  data_host : Option (List α)
  data_device : Option (List α)
  cuda_stream : Option Nat
  deriving DecidableEq, Repr

/-- Modelled from the spec: the default constructor of `gpu_data.h`, which is not among the
sources.  A freshly constructed instance is empty with both freshness flags true. -/
def gpu_data.new {α : Type} : gpu_data α :=
  { data_size := 0, host_current := true, device_current := true,
    have_active_transfer := false, device_in_use := false, the_device_id := 0,
    data_host := none, data_device := none, cuda_stream := none }

/-- Modelled from the spec: `gpu_data::size()` of `gpu_data.h`, the current element count. -/
def gpu_data.size {α : Type} (s : gpu_data α) : Nat := s.data_size

/-! ## `gpu_data.cpp` -/

/-- The function `gpu_data::wait_for_transfer_to_finish`. -/
def wait_for_transfer_to_finish {α : Type} (rt : cuda_runtime α) (s : gpu_data α)
    (calls : List cuda_call) : outcome (gpu_data α) :=
  if s.have_active_transfer then
    (CHECK_CUDA rt (.cudaStreamSynchronize s.cuda_stream) s calls).andThen fun s calls =>
    let s := { s with have_active_transfer := false }
    CHECK_CUDA rt .cudaGetLastError s calls
  else
    .returned s calls

/-- The function `gpu_data::copy_to_host`. -/
def copy_to_host {α : Type} (rt : cuda_runtime α) (s : gpu_data α)
    (calls : List cuda_call) : outcome (gpu_data α) :=
  if !s.host_current then
    (wait_for_transfer_to_finish rt s calls).andThen fun s calls =>
    (CHECK_CUDA rt (.cudaMemcpy (byte_count s.data_size) .cudaMemcpyDeviceToHost)
      s calls).andThen fun s calls =>
    let s := { s with
      data_host := copy_floats (byte_count s.data_size) s.data_host s.data_device }
    let s := { s with host_current := true }
    let s := { s with device_in_use := false }
    CHECK_CUDA rt .cudaGetLastError s calls
  else
    .returned s calls

/-- The function `gpu_data::async_copy_to_device`.  The floats the queued copy moves are
recorded in `data_device` at the time the copy is queued; `have_active_transfer` says that
the stream has not been synchronised since. -/
def async_copy_to_device {α : Type} (rt : cuda_runtime α) (s : gpu_data α)
    (calls : List cuda_call) : outcome (gpu_data α) :=
  if !s.device_current then
    (if s.device_in_use then
      (CHECK_CUDA rt (.cudaStreamSynchronize none) s calls).andThen fun s calls =>
      .returned { s with device_in_use := false } calls
    else
      .returned s calls).andThen fun s calls =>
    (CHECK_CUDA rt (.cudaMemcpyAsync (byte_count s.data_size) .cudaMemcpyHostToDevice
      s.cuda_stream) s calls).andThen fun s calls =>
    let s := { s with
      data_device := copy_floats (byte_count s.data_size) s.data_device s.data_host }
    let s := { s with have_active_transfer := true }
    let s := { s with device_current := true }
    .returned s calls
  else
    .returned s calls

/-- The function `gpu_data::copy_to_device`. -/
def copy_to_device {α : Type} (rt : cuda_runtime α) (s : gpu_data α)
    (calls : List cuda_call) : outcome (gpu_data α) :=
  (async_copy_to_device rt s calls).andThen fun s calls =>
  wait_for_transfer_to_finish rt s calls

/-- The calls a `reset` of a shared pointer makes: the deleter runs when a block is held. -/
def reset_calls {β : Type} (held : Option β) (free : cuda_call) : List cuda_call :=
  if held.isSome then [free] else []

/-- The branch `new_size == 0` of `gpu_data::set_size`; it is also what the call
`set_size(0)` in the `catch` block executes. -/
def set_size_zero {α : Type} (rt : cuda_runtime α) (s : gpu_data α)
    (calls : List cuda_call) : outcome (gpu_data α) :=
  (if s.device_in_use then
    (CHECK_CUDA rt (.cudaStreamSynchronize none) s calls).andThen fun s calls =>
    .returned { s with device_in_use := false } calls
  else
    .returned s calls).andThen fun s calls =>
  (wait_for_transfer_to_finish rt s calls).andThen fun s calls =>
  let s := { s with data_size := 0 }
  let s := { s with host_current := true }
  let s := { s with device_current := true }
  let s := { s with device_in_use := false }
  let calls := calls ++ reset_calls s.data_host .cudaFreeHost
  let s := { s with data_host := none }
  let calls := calls ++ reset_calls s.data_device .cudaFree
  let s := { s with data_device := none }
  .returned s calls

/-- The `try` block of `gpu_data::set_size`. -/
def set_size_try {α : Type} (rt : cuda_runtime α) (new_size : Nat) (s : gpu_data α)
    (calls : List cuda_call) : outcome (gpu_data α) :=
  (CHECK_CUDA rt .cudaGetDevice s calls).andThen fun s calls =>
  let s := { s with the_device_id := rt.device_id }
  (CHECK_CUDA rt (.cudaMallocHost (byte_count new_size)) s calls).andThen fun s calls =>
  let calls := calls ++ reset_calls s.data_host .cudaFreeHost
  let s := { s with data_host := some (fresh_block rt.host_block (byte_count new_size)) }
  (CHECK_CUDA rt (.cudaMalloc (byte_count new_size)) s calls).andThen fun s calls =>
  let calls := calls ++ reset_calls s.data_device .cudaFree
  let s := { s with
    data_device := some (fresh_block rt.device_block (byte_count new_size)) }
  if s.cuda_stream.isNone then
    (CHECK_CUDA rt .cudaStreamCreateWithFlags s calls).andThen fun s calls =>
    .returned { s with cuda_stream := some rt.stream } calls
  else
    .returned s calls

/-- The handler `catch(...) { set_size(0); abort(); }` of `gpu_data::set_size`, applied to
the outcome of the `try` block: an exception leaving the block is caught, the instance is
shrunk to empty and the process aborted; any other outcome passes through. -/
def set_size_catch {α : Type} (rt : cuda_runtime α) (o : outcome (gpu_data α)) :
    outcome (gpu_data α) :=
  match o with
  | .thrown s calls =>
    (set_size_zero rt s calls).andThen fun s calls => .aborted s calls
  | .returned s calls => .returned s calls
  | .aborted s calls => .aborted s calls
  | .check_failed s calls => .check_failed s calls

/-- The function `gpu_data::set_size`. -/
def set_size {α : Type} (rt : cuda_runtime α) (new_size : Nat) (s : gpu_data α)
    (calls : List cuda_call) : outcome (gpu_data α) :=
  if new_size = 0 then
    set_size_zero rt s calls
  else if new_size ≠ s.data_size then
    (if s.device_in_use then
      (CHECK_CUDA rt (.cudaStreamSynchronize none) s calls).andThen fun s calls =>
      .returned { s with device_in_use := false } calls
    else
      .returned s calls).andThen fun s calls =>
    (wait_for_transfer_to_finish rt s calls).andThen fun s calls =>
    let s := { s with data_size := new_size }
    let s := { s with host_current := true }
    let s := { s with device_current := true }
    let s := { s with device_in_use := false }
    set_size_catch rt (set_size_try rt new_size s calls)
  else
    .returned s calls

/-! ## The accessors of `gpu_data.h`

The header is not among the sources.  `tensor_abstract.h` documents the four pointer
accessors, and the spec gives their synchronisation steps.  An accessor returns the pointer
held by `data_host` or `data_device`: in an outcome `returned s calls` of `host` that is
`s.data_host`, and likewise `s.data_device` for `device`. -/

/-- Modelled from the spec: `gpu_data::host() const` of `gpu_data.h`.  "host() [read]": the
synchronisation of `copy_to_host`, then the host pointer is returned. -/
def host {α : Type} (rt : cuda_runtime α) (s : gpu_data α) (calls : List cuda_call) :
    outcome (gpu_data α) :=
  copy_to_host rt s calls

/-- Modelled from the spec: the non-const `gpu_data::host()` of `gpu_data.h`.
"host() [read-write]": performs the same synchronization as the read form, then sets
`device_current=false`. -/
def host_mut {α : Type} (rt : cuda_runtime α) (s : gpu_data α) (calls : List cuda_call) :
    outcome (gpu_data α) :=
  (copy_to_host rt s calls).andThen fun s calls =>
  .returned { s with device_current := false } calls

/-- Modelled from the spec: `gpu_data::device() const` of `gpu_data.h`.  "device() [read]":
`copy_to_device`, which starts the copy when the device copy is stale and then waits for the
transfer, before the device pointer is returned. -/
def device {α : Type} (rt : cuda_runtime α) (s : gpu_data α) (calls : List cuda_call) :
    outcome (gpu_data α) :=
  copy_to_device rt s calls

/-- Modelled from the spec: the non-const `gpu_data::device()` of `gpu_data.h`.
"device() [read-write]": same as read, then sets `host_current=false`. -/
def device_mut {α : Type} (rt : cuda_runtime α) (s : gpu_data α) (calls : List cuda_call) :
    outcome (gpu_data α) :=
  (copy_to_device rt s calls).andThen fun s calls =>
  .returned { s with host_current := false } calls

/-- Modelled from the spec: `gpu_data::device_ready()` of `gpu_data.h`.  The spec calls an
operand of the cross-instance copy "device-fresh": its freshness flag `device_current` is
true. -/
def gpu_data.device_ready {α : Type} (s : gpu_data α) : Bool := s.device_current

/-- Modelled from the spec: `gpu_data::host_write_only()` of `gpu_data.h`.  The spec has no
sentence of its own for it.  It hands out the host pointer to a caller that overwrites the
whole block: nothing is synchronised, the host copy becomes the current one and, as for
every mutable host access, the device copy is marked stale. -/
def host_write_only {α : Type} (s : gpu_data α) : gpu_data α :=
  { s with host_current := true, device_current := false }

/-- The function `memcpy(gpu_data& dest, const gpu_data& src)`.  The state is the pair
`(dest, src)`.  The two pointer arguments of each `cudaMemcpy` are evaluated `dest` first;
C++ leaves the order open, and the two objects are distinct. -/
def memcpy {α : Type} (rt : cuda_runtime α) (dest src : gpu_data α)
    (calls : List cuda_call) : outcome (gpu_data α × gpu_data α) :=
  if dest.size ≠ src.size then
    .check_failed (dest, src) calls
  else if src.size = 0 then
    .returned (dest, src) calls
  else if dest.device_ready && src.device_ready then
    ((device_mut rt dest calls).map fun d => (d, src)).andThen fun p calls =>
    ((device rt p.2 calls).map fun s => (p.1, s)).andThen fun p calls =>
    (CHECK_CUDA rt (.cudaMemcpy (byte_count p.2.size) .cudaMemcpyDeviceToDevice)
      p calls).andThen fun p calls =>
    let block := copy_floats (byte_count p.2.size) p.1.data_device p.2.data_device
    .returned ({ p.1 with data_device := block }, p.2) calls
  else if !dest.device_ready && src.device_ready then
    let p := (host_write_only dest, src)
    ((device rt p.2 calls).map fun s => (p.1, s)).andThen fun p calls =>
    (CHECK_CUDA rt (.cudaMemcpy (byte_count p.2.size) .cudaMemcpyDeviceToHost)
      p calls).andThen fun p calls =>
    let block := copy_floats (byte_count p.2.size) p.1.data_host p.2.data_device
    .returned ({ p.1 with data_host := block }, p.2) calls
  else if dest.device_ready && !src.device_ready then
    ((device_mut rt dest calls).map fun d => (d, src)).andThen fun p calls =>
    ((host rt p.2 calls).map fun s => (p.1, s)).andThen fun p calls =>
    (CHECK_CUDA rt (.cudaMemcpy (byte_count p.2.size) .cudaMemcpyHostToDevice)
      p calls).andThen fun p calls =>
    let block := copy_floats (byte_count p.2.size) p.1.data_device p.2.data_host
    .returned ({ p.1 with data_device := block }, p.2) calls
  else
    let p := (host_write_only dest, src)
    ((host rt p.2 calls).map fun s => (p.1, s)).andThen fun p calls =>
    (CHECK_CUDA rt (.cudaMemcpy (byte_count p.2.size) .cudaMemcpyHostToHost)
      p calls).andThen fun p calls =>
    let block := copy_floats (byte_count p.2.size) p.1.data_host p.2.data_host
    .returned ({ p.1 with data_host := block }, p.2) calls

/-! ## Sequences of operations -/

/-- The operations a client applies to one instance. -/
inductive gpu_op where
  | host
  | host_mut
  | device
  | device_mut
  | async_copy_to_device
  | wait_for_transfer_to_finish
  | copy_to_device
  | set_size (n : Nat)
  deriving DecidableEq, Repr

/-- One operation, run against a runtime, starting from an empty record of calls. -/
def run_op {α : Type} (rt : cuda_runtime α) (o : gpu_op) (s : gpu_data α) :
    outcome (gpu_data α) :=
  match o with
  | .host => host rt s []
  | .host_mut => host_mut rt s []
  | .device => device rt s []
  | .device_mut => device_mut rt s []
  | .async_copy_to_device => async_copy_to_device rt s []
  | .wait_for_transfer_to_finish => wait_for_transfer_to_finish rt s []
  | .copy_to_device => copy_to_device rt s []
  | .set_size n => set_size rt n s []

/-- The state after a finite sequence of operations, each against a runtime of its own.  An
operation that leaves by an exception leaves the object to its caller, which may go on using
it; after `abort()` there is no state any more. -/
def run_ops {α : Type} : List (cuda_runtime α × gpu_op) → gpu_data α → Option (gpu_data α)
  | [], s => some s
  | (rt, o) :: rest, s =>
    match run_op rt o s with
    | .returned s' _ => run_ops rest s'
    | .thrown s' _ => run_ops rest s'
    | .aborted _ _ => none
    | .check_failed _ _ => none

/-- The freshness invariant: at least one of the two copies is marked current. -/
def gpu_data.fresh {α : Type} (s : gpu_data α) : Prop :=
  s.host_current = true ∨ s.device_current = true

/-! ## Concrete instances -/

/-- A runtime over `Nat` floats in which every call succeeds.  Fresh pinned host memory
happens to hold `7` everywhere and fresh device memory `9`. -/
def cuda_ok : cuda_runtime Nat :=
  { status := fun _ => true, device_id := 0, host_block := fun _ => 7,
    device_block := fun _ => 9, stream := 1 }

/-- A runtime like `cuda_ok` in which every call fails. -/
def cuda_failing : cuda_runtime Nat :=
  { status := fun _ => false, device_id := 0, host_block := fun _ => 7,
    device_block := fun _ => 9, stream := 1 }

/-- An instance of two floats as `set_size(2)` under `cuda_ok` leaves a fresh instance. -/
def resized2 : gpu_data Nat :=
  { data_size := 2, host_current := true, device_current := true,
    have_active_transfer := false, device_in_use := false, the_device_id := 0,
    data_host := some [7, 7], data_device := some [9, 9], cuda_stream := some 1 }

/-- The instance `resized2` after a mutable host access followed by a mutable device access
under `cuda_ok`: the device copy is the authoritative one. -/
def device_written2 : gpu_data Nat :=
  { resized2 with host_current := false, data_device := some [7, 7] }

/-- The buffers are in step with `data_size`: an empty instance holds two null pointers, and
a non-empty one holds a host block and a device block of `data_size*sizeof(float)` bytes
each, the byte count being the `size_t` product that `set_size` passes to the allocators. -/
def gpu_data.allocated {α : Type} (s : gpu_data α) : Prop :=
  match s.data_host, s.data_device with
  | none, none => s.data_size = 0
  | some h, some d =>
    s.data_size ≠ 0 ∧ h.length = byte_count s.data_size / sizeof_float ∧
      d.length = byte_count s.data_size / sizeof_float
  | _, _ => False

/-- The instance `resized2` after a mutable host access and `async_copy_to_device` under
`cuda_ok`: the transfer is still pending. -/
def transfer_pending2 : gpu_data Nat :=
  { resized2 with have_active_transfer := true, data_device := some [7, 7] }

/-- The instance `resized2` after a mutable host access under `cuda_ok`: the host copy is
the authoritative one. -/
def host_written2 : gpu_data Nat :=
  { resized2 with device_current := false }

/-- An empty instance with unusual flags: the host copy is marked stale and the device block
in use. -/
def empty_stale : gpu_data Nat :=
  { (gpu_data.new : gpu_data Nat) with host_current := false, device_in_use := true }

/-- The copy kind as the spec words it, from the answers of `dest.device_ready()` and
`src.device_ready()`: device to device when both are true, device to host when only `src`
is device-ready, host to device when only `dest` is, host to host when neither is. -/
def memcpy_kind (dest_ready src_ready : Bool) : cudaMemcpyKind :=
  match dest_ready, src_ready with
  | true, true => .cudaMemcpyDeviceToDevice
  | false, true => .cudaMemcpyDeviceToHost
  | true, false => .cudaMemcpyHostToDevice
  | false, false => .cudaMemcpyHostToHost

/-- Whether a CUDA call is a copy, `cudaMemcpy` or `cudaMemcpyAsync`. -/
def cuda_call.is_copy : cuda_call → Bool
  | .cudaMemcpy _ _ => true
  | .cudaMemcpyAsync _ _ _ => true
  | _ => false

/-- The two copies agree whenever both are marked current: a Synced instance holds the same
floats on the host and on the device. -/
def gpu_data.coherent {α : Type} (s : gpu_data α) : Prop :=
  s.host_current = true → s.device_current = true → s.data_host = s.data_device

/-- An instance of two floats whose host copy is the authoritative one and holds `1, 2`,
the device block still holding `0, 0`. -/
def host_holds12 : gpu_data Nat :=
  { resized2 with device_current := false, data_host := some [1, 2],
                  data_device := some [0, 0] }

/-- A property of the object with which a caller can go on: the state after a normal
return or after an exception.  Nothing is asked of a process that has ended. -/
def outcome.alive {σ : Type} (P : σ → Prop) : outcome σ → Prop
  | .returned s _ => P s
  | .thrown s _ => P s
  | .aborted _ _ => True
  | .check_failed _ _ => True

/-- A runtime like `cuda_ok` in which an earlier kernel launch has failed: every call
succeeds except `cudaGetLastError`, which reports the error. -/
def cuda_async_error : cuda_runtime Nat :=
  { status := fun calls => !(calls.getLast? == some cuda_call.cudaGetLastError),
    device_id := 0, host_block := fun _ => 7, device_block := fun _ => 9, stream := 1 }

/-- The instance `host_written2` with the device block still marked in use by kernels on
the default stream. -/
def host_written_in_use2 : gpu_data Nat :=
  { host_written2 with device_in_use := true }

/-- The instance `transfer_pending2` with the device block also marked in use. -/
def busy2 : gpu_data Nat :=
  { transfer_pending2 with device_in_use := true }

/-- An empty instance after a mutable host access: the device copy is marked stale. -/
def empty_host_written : gpu_data Nat :=
  { (gpu_data.new : gpu_data Nat) with device_current := false }

/-- What `set_size(2^62 + 1)` under `cuda_ok` leaves of a fresh instance: the byte count
`(2^62 + 1)*sizeof(float)` wraps to 4 in `size_t`, so each block holds one float. -/
def wrapped_size : gpu_data Nat :=
  { data_size := 2 ^ 62 + 1, host_current := true, device_current := true,
    have_active_transfer := false, device_in_use := false, the_device_id := 0,
    data_host := some [7], data_device := some [9], cuda_stream := some 1 }

/-- Modelled from the spec: the client statement `host()[i] = v` through the non-const
`host()` of `gpu_data.h`, the "host_mut() write of value V" of the spec.  The mutable host
access is made, then the float at index `i` of the block it hands out is overwritten.  An
index outside the block is outside the contract of `host()`; there the block is left
alone. -/
def host_write {α : Type} (rt : cuda_runtime α) (i : Nat) (v : α) (s : gpu_data α)
    (calls : List cuda_call) : outcome (gpu_data α) :=
  (host_mut rt s calls).andThen fun s calls =>
  .returned { s with data_host := s.data_host.map fun xs => xs.set i v } calls

/-! ## `tensor`: shape and element index (`tensor_abstract.h`) -/

/-- The shape of a `tensor` as `tensor_abstract.h` declares it: the four `long` values
returned by `num_samples()`, `k()`, `nr()` and `nc()`. -/
structure tensor where
  num_samples : Int
  k : Int
  nr : Int
  nc : Int
  deriving DecidableEq, Repr

/-- The member `tensor::size()`: "returns num_samples()*k()*nr()*nc()". -/
def tensor.size (t : tensor) : Int := t.num_samples * t.k * t.nr * t.nc

/-- Modelled from the spec: `have_same_dimensions(a, b)`, of which `tensor_abstract.h` holds
the declaration only.  "true iff all four shape components match pairwise." -/
def have_same_dimensions (a b : tensor) : Bool :=
  a.num_samples == b.num_samples && a.k == b.k && a.nr == b.nr && a.nc == b.nc

/-- The element index of the documented layout convention of `tensor`:
`host()[((sample*t.k() + k)*t.nr() + nr)*t.nc() + nc]`, for a tensor with `k` channels,
`nr` rows and `nc` columns. -/
def tensor_index (k nr nc : Nat) (sample ch r c : Nat) : Nat :=
  ((sample * k + ch) * nr + r) * nc + c

/-! ## `get_numpy_ndarray_shape` (`python/numpy.h`) -/

/-- The fields of `Py_buffer` the function reads: `ndim`, an `int`, and the array `shape`,
given by its entry at each index (the entries below `ndim` are the extents). -/
structure Py_buffer where
  ndim : Int
  shape : Nat → Int

/-- The function `get_numpy_ndarray_shape<dims>`.  The argument is what
`PyObject_GetBuffer` yields: `none` when it reports failure, else the buffer filled in.  The
result is the array `shape` of `dims` entries as the loop leaves it, or `none` when the
function calls `abort()`.  `long` and `Py_ssize_t` are both 64 bit. -/
def get_numpy_ndarray_shape (dims : Nat) (obj : Option Py_buffer) : Option (List Int) :=
  match obj with
  | none => none
  | some pybuf =>
    if pybuf.ndim > (dims : Int) then none
    else
      some ((List.range dims).map fun (i : Nat) =>
        if (i : Int) < pybuf.ndim then pybuf.shape i else 1)

/-! ## `dlibRectangleToOpenCV` (`examples/webcam_face_pose_ex.cpp`) -/

/-- The four `long` coordinates of a `dlib::rectangle`. -/
structure rectangle where
  left : Int
  top : Int
  right : Int
  bottom : Int
  deriving DecidableEq, Repr

/-- The conversion of a `long` to the `int` coordinate of a `cv::Point2i`: the value is
kept when it fits 32 bits and wraps otherwise. -/
def to_int (v : Int) : Int := (v + 2 ^ 31) % 2 ^ 32 - 2 ^ 31

/-- The function `dlibRectangleToOpenCV(width, height, r)`.  The result is the four
coordinates handed to the constructor of `cv::Rect`: the corner
`Point2i(r.left(), r.top())` and the corner `Point2i(r.right(), r.bottom())`, each
coordinate converted to `int`.  The four lines printed to `cout` are left out. -/
def dlibRectangleToOpenCV (width height : Int) (r : rectangle) : rectangle :=
  let r := if r.left < 0 then { r with left := 0 }
    else if r.left > width - 1 then { r with left := width - 1 } else r
  let r := if r.bottom < 0 then { r with bottom := 0 }
    else if r.bottom > height - 1 then { r with bottom := height - 1 } else r
  let r := if r.top < 0 then { r with top := 0 }
    else if r.top > height - 1 then { r with top := height - 1 } else r
  let r := if r.right < 0 then { r with right := 0 }
    else if r.right > width - 1 then { r with right := width - 1 } else r
  { left := to_int r.left, top := to_int r.top, right := to_int r.right,
    bottom := to_int r.bottom }

/-! ## `load_bmp`: the header (`image_loader/image_loader.h`) -/

/-- The call `in.sgetn(buf, n)` on a stream that still holds the bytes `input`: the bytes
stored in `buf`, at most `n` of them, each an `unsigned char`, and what is left of the
stream. -/
def sgetn (input : List Nat) (n : Nat) : List Nat × List Nat :=
  ((input.take n).map fun x => x % 256, input.drop n)

/-- The value `a | (b<<8) | (c<<16) | (d<<24)` read from `buf` at offset `i`. -/
def read_le32 (buf : List Nat) (i : Nat) : Nat :=
  buf.getD i 0 ||| (buf.getD (i + 1) 0 <<< 8) ||| (buf.getD (i + 2) 0 <<< 16) |||
    (buf.getD (i + 3) 0 <<< 24)

/-- The locals of `load_bmp` when the header has been read, with what is left of the
stream and the byte counts requested from `sgetn`, in order. -/
structure bmp_header where
  bytes_read_so_far : Nat
  bfSize : Nat
  bfOffBits : Nat
  bfReserved : Nat
  biSize : Nat
  biWidth : Nat
  biHeight : Nat
  biBitCount : Nat
  biCompression : Nat
  rest : List Nat
  reads : List Nat
  deriving DecidableEq, Repr

/-- The branch `if (biSize > 40)` of `load_bmp`, which reads and discards the extra header
bytes; `none` when it calls `abort()`. -/
def load_bmp_extra (h : bmp_header) : Option bmp_header :=
  if h.biSize > 40 then
    let got := sgetn h.rest (h.biSize - 40)
    if got.1.length ≠ h.biSize - 40 then none
    else
      some { h with bytes_read_so_far := h.bytes_read_so_far + (h.biSize - 40),
                    rest := got.2, reads := h.reads ++ [h.biSize - 40] }
  else
    some h

/-- The function `load_bmp` from its first statement up to the call `image.set_size`, that
is, everything before the switch on the pixel format: `none` when it calls `abort()`. -/
def load_bmp_header (input : List Nat) : Option bmp_header :=
  let got := sgetn input 2
  if got.1.length ≠ 2 then none
  else
    let bytes_read_so_far := 0 + 2
    if got.1.getD 0 0 ≠ 66 ∨ got.1.getD 1 0 ≠ 77 then none
    else
      let got := sgetn got.2 12
      if got.1.length ≠ 12 then none
      else
        let bytes_read_so_far := bytes_read_so_far + 12
        let bfSize := read_le32 got.1 0
        let bfReserved := read_le32 got.1 4
        let bfOffBits := read_le32 got.1 8
        if bfReserved ≠ 0 then none
        else
          let got := sgetn got.2 40
          if got.1.length ≠ 40 then none
          else
            let bytes_read_so_far := bytes_read_so_far + 40
            let biSize := read_le32 got.1 0
            let biWidth := read_le32 got.1 4
            let biHeight := read_le32 got.1 8
            let biBitCount := (got.1.getD 14 0 ||| (got.1.getD 15 0 <<< 8)) % 2 ^ 16
            let biCompression := read_le32 got.1 16
            if biSize ≠ 40 then none
            else
              load_bmp_extra
                { bytes_read_so_far := bytes_read_so_far, bfSize := bfSize,
                  bfOffBits := bfOffBits, bfReserved := bfReserved, biSize := biSize,
                  biWidth := biWidth, biHeight := biHeight, biBitCount := biBitCount,
                  biCompression := biCompression, rest := got.2, reads := [2, 12, 40] }

/-- The field `biSize` as the bytes of a file give it: the little-endian value of the four
bytes at offset 14, the first bytes of the BITMAPINFOHEADER. -/
def bmp_biSize (input : List Nat) : Nat :=
  read_le32 ((input.drop 14).map fun x => x % 256) 0

/-- A well-formed start of a BMP file: `BM`, a file header with `bfReserved == 0`, and an
info header of `biSize == 40` for a 2 by 3 image of 24 bits. -/
def bmp_example : List Nat :=
  [66, 77, 70, 0, 0, 0, 0, 0, 0, 0, 54, 0, 0, 0,
   40, 0, 0, 0, 2, 0, 0, 0, 3, 0, 0, 0, 1, 0, 24, 0, 0, 0, 0, 0,
   16, 0, 0, 0, 0, 0, 0, 0, 0, 0, 0, 0, 0, 0, 0, 0, 0, 0, 0, 0,
   1, 2, 3]

/-- The start of a BMP file like `bmp_example` whose info header announces the 124 bytes
of a version 5 header. -/
def bmp_v5_example : List Nat :=
  [66, 77, 154, 0, 0, 0, 0, 0, 0, 0, 138, 0, 0, 0,
   124, 0, 0, 0, 2, 0, 0, 0, 3, 0, 0, 0, 1, 0, 24, 0, 0, 0, 0, 0,
   16, 0, 0, 0, 0, 0, 0, 0, 0, 0, 0, 0, 0, 0, 0, 0, 0, 0, 0, 0,
   1, 2, 3]

/-- The transfer invariant: at least one copy is marked current, and while a host-to-device
transfer is pending the host copy is current. -/
def gpu_data.transfer_safe {α : Type} (s : gpu_data α) : Prop :=
  (s.host_current = true ∨ s.device_current = true) ∧
  (s.have_active_transfer = true → s.host_current = true)

/-- A non-empty instance holds a created stream. -/
def gpu_data.has_stream {α : Type} (s : gpu_data α) : Prop :=
  s.data_size ≠ 0 → s.cuda_stream.isSome = true

/-- An empty instance after a mutable host access and `async_copy_to_device` under
`cuda_ok`: a transfer is marked pending while no stream has been created. -/
def empty_transfer_pending : gpu_data Nat :=
  { (gpu_data.new : gpu_data Nat) with have_active_transfer := true }

/-- The instance `empty_host_written` with the device block also marked in use. -/
def empty_host_written_in_use : gpu_data Nat :=
  { empty_host_written with device_in_use := true }

/-! ## Predicates on the record of calls -/

/-- The four CUDA calls of the `try` block of `gpu_data::set_size`: the device query, the
two allocations and the creation of the stream. -/
def cuda_call.in_allocation_block : cuda_call → Bool
  | .cudaGetDevice => true
  | .cudaMallocHost _ => true
  | .cudaMalloc _ => true
  | .cudaStreamCreateWithFlags => true
  | _ => false

/-- The two calls made by the deleters of `data_host` and `data_device`. -/
def cuda_call.releases_block : cuda_call → Bool
  | .cudaFreeHost => true
  | .cudaFree => true
  | _ => false

/-- Among the calls `new`, made after the calls `base`, each call of the allocation block
returned `cudaSuccess`. -/
def allocation_calls_succeeded {α : Type} (rt : cuda_runtime α) :
    List cuda_call → List cuda_call → Bool
  | _, [] => true
  | base, c :: rest =>
    (!c.in_allocation_block || rt.status (base ++ [c])) &&
      allocation_calls_succeeded rt (base ++ [c]) rest

/-- A runtime like `cuda_ok` in which device memory is exhausted: `cudaMalloc` fails, every
other call succeeds. -/
def cuda_out_of_device_memory : cuda_runtime Nat :=
  { status := fun calls =>
      match calls.getLast? with
      | some (.cudaMalloc _) => false
      | _ => true,
    device_id := 0, host_block := fun _ => 7, device_block := fun _ => 9, stream := 1 }

/-! ## Theorems -/

/-- A property of the state that holds for an outcome and is kept by the continuation holds
for the sequenced outcome. -/
theorem outcome.andThen_state {σ : Type} (P : σ → Prop) (o : outcome σ)
    (f : σ → List cuda_call → outcome σ) (h1 : P o.state)
    (h2 : ∀ s calls, P s → P (f s calls).state) : P (o.andThen f).state := by
  cases o with
  | returned s calls => exact h2 s calls h1
  | thrown s calls => exact h1
  | aborted s calls => exact h1
  | check_failed s calls => exact h1

theorem CHECK_CUDA_state {α σ : Type} (rt : cuda_runtime α) (c : cuda_call) (s : σ)
    (calls : List cuda_call) : (CHECK_CUDA rt c s calls).state = s := by
  unfold CHECK_CUDA
  split_ifs <;> rfl

theorem fresh_wait_for_transfer_to_finish {α : Type} (rt : cuda_runtime α) (s : gpu_data α)
    (calls : List cuda_call) (h : s.fresh) :
    (wait_for_transfer_to_finish rt s calls).state.fresh := by
  unfold wait_for_transfer_to_finish
  split_ifs
  · apply outcome.andThen_state
    · rw [CHECK_CUDA_state]; exact h
    · intro s1 c1 h1
      rw [CHECK_CUDA_state]; exact h1
  · exact h

theorem fresh_copy_to_host {α : Type} (rt : cuda_runtime α) (s : gpu_data α)
    (calls : List cuda_call) (h : s.fresh) : (copy_to_host rt s calls).state.fresh := by
  unfold copy_to_host
  split_ifs
  · apply outcome.andThen_state
    · exact fresh_wait_for_transfer_to_finish rt s calls h
    · intro s1 c1 h1
      apply outcome.andThen_state
      · rw [CHECK_CUDA_state]; exact h1
      · intro s2 c2 _
        rw [CHECK_CUDA_state]; exact Or.inl rfl
  · exact h

theorem fresh_async_copy_to_device {α : Type} (rt : cuda_runtime α) (s : gpu_data α)
    (calls : List cuda_call) (h : s.fresh) :
    (async_copy_to_device rt s calls).state.fresh := by
  unfold async_copy_to_device
  split_ifs
  · apply outcome.andThen_state
    · apply outcome.andThen_state
      · rw [CHECK_CUDA_state]; exact h
      · intro s1 c1 h1; exact h1
    · intro s1 c1 h1
      apply outcome.andThen_state
      · rw [CHECK_CUDA_state]; exact h1
      · intro s2 c2 _; exact Or.inr rfl
  · apply outcome.andThen_state
    · exact h
    · intro s1 c1 h1
      apply outcome.andThen_state
      · rw [CHECK_CUDA_state]; exact h1
      · intro s2 c2 _; exact Or.inr rfl
  · exact h

theorem fresh_copy_to_device {α : Type} (rt : cuda_runtime α) (s : gpu_data α)
    (calls : List cuda_call) (h : s.fresh) : (copy_to_device rt s calls).state.fresh := by
  unfold copy_to_device
  apply outcome.andThen_state
  · exact fresh_async_copy_to_device rt s calls h
  · intro s1 c1 h1
    exact fresh_wait_for_transfer_to_finish rt s1 c1 h1

theorem fresh_fence {α : Type} (rt : cuda_runtime α) (s : gpu_data α)
    (calls : List cuda_call) (h : s.fresh) :
    (if s.device_in_use then
      (CHECK_CUDA rt (.cudaStreamSynchronize none) s calls).andThen fun s calls =>
      .returned { s with device_in_use := false } calls
    else
      outcome.returned s calls).state.fresh := by
  split_ifs
  · apply outcome.andThen_state
    · rw [CHECK_CUDA_state]; exact h
    · intro s1 c1 h1; exact h1
  · exact h

theorem fresh_set_size_zero {α : Type} (rt : cuda_runtime α) (s : gpu_data α)
    (calls : List cuda_call) (h : s.fresh) : (set_size_zero rt s calls).state.fresh := by
  unfold set_size_zero
  apply outcome.andThen_state
  · exact fresh_fence rt s calls h
  · intro s1 c1 h1
    apply outcome.andThen_state
    · exact fresh_wait_for_transfer_to_finish rt s1 c1 h1
    · intro s2 c2 _; exact Or.inl rfl

theorem fresh_set_size_try {α : Type} (rt : cuda_runtime α) (n : Nat) (s : gpu_data α)
    (calls : List cuda_call) (h : s.fresh) : (set_size_try rt n s calls).state.fresh := by
  unfold set_size_try
  apply outcome.andThen_state
  · rw [CHECK_CUDA_state]; exact h
  · intro s1 c1 h1
    apply outcome.andThen_state
    · rw [CHECK_CUDA_state]; exact h1
    · intro s2 c2 h2
      apply outcome.andThen_state
      · rw [CHECK_CUDA_state]; exact h2
      · intro s3 c3 h3
        dsimp only
        split_ifs
        · apply outcome.andThen_state
          · rw [CHECK_CUDA_state]; exact h3
          · intro s4 c4 h4; exact h4
        · exact h3

theorem fresh_set_size_catch {α : Type} (rt : cuda_runtime α) (o : outcome (gpu_data α))
    (h : o.state.fresh) : (set_size_catch rt o).state.fresh := by
  cases o with
  | thrown s3 c3 =>
    apply outcome.andThen_state
    · exact fresh_set_size_zero rt s3 c3 h
    · intro s4 c4 h4; exact h4
  | returned s3 c3 => exact h
  | aborted s3 c3 => exact h
  | check_failed s3 c3 => exact h

theorem fresh_set_size {α : Type} (rt : cuda_runtime α) (n : Nat) (s : gpu_data α)
    (calls : List cuda_call) (h : s.fresh) : (set_size rt n s calls).state.fresh := by
  unfold set_size
  by_cases h0 : n = 0
  · rw [if_pos h0]
    exact fresh_set_size_zero rt s calls h
  · rw [if_neg h0]
    by_cases hn : n ≠ s.data_size
    · rw [if_pos hn]
      apply outcome.andThen_state
      · exact fresh_fence rt s calls h
      · intro s1 c1 h1
        apply outcome.andThen_state
        · exact fresh_wait_for_transfer_to_finish rt s1 c1 h1
        · intro s2 c2 _
          exact fresh_set_size_catch rt _ (fresh_set_size_try rt n _ c2 (Or.inl rfl))
    · rw [if_neg hn]
      exact h

theorem outcome.andThen_eq_returned {σ : Type} (o : outcome σ)
    (f : σ → List cuda_call → outcome σ) (s' : σ) (c' : List cuda_call) :
    o.andThen f = .returned s' c' ↔
      ∃ s1 c1, o = .returned s1 c1 ∧ f s1 c1 = .returned s' c' := by
  cases o with
  | returned s calls =>
    constructor
    · intro h; exact ⟨s, calls, rfl, h⟩
    · rintro ⟨s1, c1, h1, h2⟩
      cases h1
      exact h2
  | thrown s calls => simp [outcome.andThen]
  | aborted s calls => simp [outcome.andThen]
  | check_failed s calls => simp [outcome.andThen]

theorem CHECK_CUDA_eq_returned {α σ : Type} (rt : cuda_runtime α) (c : cuda_call) (s s' : σ)
    (calls c' : List cuda_call) :
    CHECK_CUDA rt c s calls = .returned s' c' ↔
      rt.status (calls ++ [c]) = true ∧ s' = s ∧ c' = calls ++ [c] := by
  unfold CHECK_CUDA
  split_ifs with h <;> simp [h, eq_comm]

theorem CHECK_CUDA_succeeds {α σ : Type} (rt : cuda_runtime α) (h : rt.succeeds)
    (c : cuda_call) (s : σ) (calls : List cuda_call) :
    CHECK_CUDA rt c s calls = .returned s (calls ++ [c]) := by
  unfold CHECK_CUDA
  rw [if_pos (h _)]

/-- The calls `wait_for_transfer_to_finish` makes when it returns. -/
theorem wait_for_transfer_to_finish_returned {α : Type} (rt : cuda_runtime α)
    (s s' : gpu_data α) (calls c' : List cuda_call)
    (h : wait_for_transfer_to_finish rt s calls = .returned s' c') :
    s' = { s with have_active_transfer := false } ∧
    c' = calls ++ (if s.have_active_transfer then
      [.cudaStreamSynchronize s.cuda_stream, .cudaGetLastError] else []) := by
  unfold wait_for_transfer_to_finish at h
  split_ifs at h with ha
  · simp only [outcome.andThen_eq_returned, CHECK_CUDA_eq_returned] at h
    obtain ⟨s1, c1, ⟨_, rfl, rfl⟩, _, rfl, rfl⟩ := h
    simp [ha]
  · simp only [outcome.returned.injEq] at h
    obtain ⟨rfl, rfl⟩ := h
    cases s
    simp_all

theorem wait_for_transfer_to_finish_succeeds {α : Type} (rt : cuda_runtime α)
    (h : rt.succeeds) (s : gpu_data α) (calls : List cuda_call) :
    wait_for_transfer_to_finish rt s calls =
      .returned { s with have_active_transfer := false }
        (calls ++ (if s.have_active_transfer then
          [.cudaStreamSynchronize s.cuda_stream, .cudaGetLastError] else [])) := by
  unfold wait_for_transfer_to_finish
  split_ifs with ha
  · simp [CHECK_CUDA_succeeds rt h, outcome.andThen]
  · cases s
    simp_all

theorem copy_to_host_returned {α : Type} (rt : cuda_runtime α)
    (s s' : gpu_data α) (calls c' : List cuda_call)
    (h : copy_to_host rt s calls = .returned s' c') :
    s' = (if s.host_current then s else
      { s with have_active_transfer := false, host_current := true, device_in_use := false,
               data_host := copy_floats (byte_count s.data_size) s.data_host s.data_device }) ∧
    c' = calls ++ (if s.host_current then [] else
      (if s.have_active_transfer then
        [.cudaStreamSynchronize s.cuda_stream, .cudaGetLastError] else []) ++
      [.cudaMemcpy (byte_count s.data_size) .cudaMemcpyDeviceToHost, .cudaGetLastError]) := by
  unfold copy_to_host at h
  by_cases hc : s.host_current = true
  · rw [if_neg (by simp [hc])] at h
    simp only [outcome.returned.injEq] at h
    obtain ⟨rfl, rfl⟩ := h
    simp [hc]
  · simp only [Bool.not_eq_true] at hc
    rw [if_pos (by simp [hc])] at h
    simp only [outcome.andThen_eq_returned, CHECK_CUDA_eq_returned] at h
    obtain ⟨s1, c1, hw, s2, c2, ⟨_, rfl, rfl⟩, _, rfl, rfl⟩ := h
    obtain ⟨rfl, rfl⟩ := wait_for_transfer_to_finish_returned rt s s2 calls c1 hw
    simp [hc]

theorem copy_to_host_succeeds {α : Type} (rt : cuda_runtime α) (h : rt.succeeds)
    (s : gpu_data α) (calls : List cuda_call) :
    ∃ s' c', copy_to_host rt s calls = .returned s' c' := by
  unfold copy_to_host
  split_ifs
  · simp [wait_for_transfer_to_finish_succeeds rt h, CHECK_CUDA_succeeds rt h,
      outcome.andThen]
  · exact ⟨_, _, rfl⟩

theorem async_copy_to_device_returned {α : Type} (rt : cuda_runtime α)
    (s s' : gpu_data α) (calls c' : List cuda_call)
    (h : async_copy_to_device rt s calls = .returned s' c') :
    s' = (if s.device_current then s else
      { s with have_active_transfer := true, device_current := true, device_in_use := false,
               data_device := copy_floats (byte_count s.data_size) s.data_device s.data_host }) ∧
    c' = calls ++ (if s.device_current then [] else
      (if s.device_in_use then [.cudaStreamSynchronize none] else []) ++
      [.cudaMemcpyAsync (byte_count s.data_size) .cudaMemcpyHostToDevice s.cuda_stream]) := by
  unfold async_copy_to_device at h
  by_cases hc : s.device_current = true
  · rw [if_neg (by simp [hc])] at h
    simp only [outcome.returned.injEq] at h
    obtain ⟨rfl, rfl⟩ := h
    simp [hc]
  · simp only [Bool.not_eq_true] at hc
    rw [if_pos (by simp [hc])] at h
    by_cases hu : s.device_in_use = true
    · rw [if_pos hu] at h
      simp only [outcome.andThen_eq_returned, CHECK_CUDA_eq_returned,
        outcome.returned.injEq] at h
      obtain ⟨s1, c1, ⟨s2, c2, ⟨_, rfl, rfl⟩, rfl, rfl⟩, s3, c3, ⟨_, rfl, rfl⟩, rfl, rfl⟩ := h
      simp [hc, hu]
    · rw [if_neg hu] at h
      simp only [Bool.not_eq_true] at hu
      simp only [outcome.andThen_eq_returned, CHECK_CUDA_eq_returned,
        outcome.returned.injEq] at h
      obtain ⟨s1, c1, ⟨rfl, rfl⟩, s3, c3, ⟨_, rfl, rfl⟩, rfl, rfl⟩ := h
      simp [hc, hu]

theorem async_copy_to_device_succeeds {α : Type} (rt : cuda_runtime α) (h : rt.succeeds)
    (s : gpu_data α) (calls : List cuda_call) :
    ∃ s' c', async_copy_to_device rt s calls = .returned s' c' := by
  unfold async_copy_to_device
  split_ifs <;> simp [CHECK_CUDA_succeeds rt h, outcome.andThen]

theorem copy_to_device_returned {α : Type} (rt : cuda_runtime α)
    (s s' : gpu_data α) (calls c' : List cuda_call)
    (h : copy_to_device rt s calls = .returned s' c') :
    s' = (if s.device_current then { s with have_active_transfer := false } else
      { s with have_active_transfer := false, device_current := true, device_in_use := false,
               data_device := copy_floats (byte_count s.data_size) s.data_device s.data_host }) ∧
    c' = calls ++ (if s.device_current then
        (if s.have_active_transfer then
          [.cudaStreamSynchronize s.cuda_stream, .cudaGetLastError] else [])
      else
        (if s.device_in_use then [.cudaStreamSynchronize none] else []) ++
        [.cudaMemcpyAsync (byte_count s.data_size) .cudaMemcpyHostToDevice s.cuda_stream,
         .cudaStreamSynchronize s.cuda_stream, .cudaGetLastError]) := by
  unfold copy_to_device at h
  simp only [outcome.andThen_eq_returned] at h
  obtain ⟨s1, c1, ha, hw⟩ := h
  obtain ⟨rfl, rfl⟩ := async_copy_to_device_returned rt s s1 calls c1 ha
  obtain ⟨rfl, rfl⟩ := wait_for_transfer_to_finish_returned rt _ s' _ c' hw
  by_cases hc : s.device_current = true
  · simp [hc]
  · simp only [Bool.not_eq_true] at hc
    simp [hc]

theorem copy_to_device_succeeds {α : Type} (rt : cuda_runtime α) (h : rt.succeeds)
    (s : gpu_data α) (calls : List cuda_call) :
    ∃ s' c', copy_to_device rt s calls = .returned s' c' := by
  unfold copy_to_device
  obtain ⟨s1, c1, h1⟩ := async_copy_to_device_succeeds rt h s calls
  rw [h1]
  exact ⟨_, _, wait_for_transfer_to_finish_succeeds rt h s1 c1⟩

theorem outcome.andThen_state_of_returned {σ : Type} (P : σ → Prop) (o : outcome σ)
    (f : σ → List cuda_call → outcome σ) (h1 : P o.state)
    (h2 : ∀ s calls, o = .returned s calls → P (f s calls).state) :
    P (o.andThen f).state := by
  cases o with
  | returned s calls => exact h2 s calls rfl
  | thrown s calls => exact h1
  | aborted s calls => exact h1
  | check_failed s calls => exact h1

theorem copy_to_host_returned_host_current {α : Type} (rt : cuda_runtime α)
    (s s' : gpu_data α) (calls c' : List cuda_call)
    (h : copy_to_host rt s calls = .returned s' c') : s'.host_current = true := by
  obtain ⟨rfl, _⟩ := copy_to_host_returned rt s s' calls c' h
  by_cases hc : s.host_current = true
  · simp [hc]
  · simp [hc]

theorem copy_to_device_returned_flags {α : Type} (rt : cuda_runtime α)
    (s s' : gpu_data α) (calls c' : List cuda_call)
    (h : copy_to_device rt s calls = .returned s' c') :
    s'.device_current = true ∧ s'.have_active_transfer = false ∧
      s'.host_current = s.host_current := by
  obtain ⟨rfl, _⟩ := copy_to_device_returned rt s s' calls c' h
  by_cases hc : s.device_current = true
  · simp [hc]
  · simp [hc]

theorem fresh_run_op {α : Type} (rt : cuda_runtime α) (o : gpu_op) (s : gpu_data α)
    (h : s.fresh) : (run_op rt o s).state.fresh := by
  cases o with
  | host => exact fresh_copy_to_host rt s [] h
  | host_mut =>
    apply outcome.andThen_state_of_returned
    · exact fresh_copy_to_host rt s [] h
    · intro s1 c1 h1
      exact Or.inl (copy_to_host_returned_host_current rt s s1 [] c1 h1)
  | device => exact fresh_copy_to_device rt s [] h
  | device_mut =>
    apply outcome.andThen_state_of_returned
    · exact fresh_copy_to_device rt s [] h
    · intro s1 c1 h1
      exact Or.inr (copy_to_device_returned_flags rt s s1 [] c1 h1).1
  | async_copy_to_device => exact fresh_async_copy_to_device rt s [] h
  | wait_for_transfer_to_finish => exact fresh_wait_for_transfer_to_finish rt s [] h
  | copy_to_device => exact fresh_copy_to_device rt s [] h
  | set_size n => exact fresh_set_size rt n s [] h

theorem fresh_run_ops {α : Type} (ops : List (cuda_runtime α × gpu_op)) :
    ∀ s s' : gpu_data α, s.fresh → run_ops ops s = some s' → s'.fresh := by
  induction ops with
  | nil =>
    intro s s' h hr
    simp only [run_ops, Option.some.injEq] at hr
    exact hr ▸ h
  | cons x rest ih =>
    intro s s' h hr
    obtain ⟨rt, o⟩ := x
    have h1 := fresh_run_op rt o s h
    simp only [run_ops] at hr
    cases hro : run_op rt o s with
    | returned s1 c1 =>
      rw [hro] at hr h1
      exact ih s1 s' h1 hr
    | thrown s1 c1 =>
      rw [hro] at hr h1
      exact ih s1 s' h1 hr
    | aborted s1 c1 => rw [hro] at hr; cases hr
    | check_failed s1 c1 => rw [hro] at hr; cases hr

/-! ### C1 -/

/-- C1.  Freshness invariant: every state reached from a freshly constructed instance by a
finite sequence of `host()` (read and read-write), `device()` (read and read-write),
`async_copy_to_device`, `wait_for_transfer_to_finish`, `copy_to_device` and `set_size(n)`,
whatever the CUDA runtime answers along the way, has `host_current` or `device_current`
true. -/
theorem freshness_invariant {α : Type} (ops : List (cuda_runtime α × gpu_op))
    (s : gpu_data α) (h : run_ops ops gpu_data.new = some s) :
    s.host_current = true ∨ s.device_current = true :=
  fresh_run_ops ops gpu_data.new s (Or.inl rfl) h

/-- C1, at a concrete sequence: resize to two floats, mutable host access, mutable device
access. -/
theorem freshness_invariant_witness :
    run_ops [(cuda_ok, .set_size 2), (cuda_ok, .host_mut), (cuda_ok, .device_mut)]
        gpu_data.new = some device_written2 ∧
    (device_written2.host_current = true ∨ device_written2.device_current = true) :=
  ⟨by decide,
   freshness_invariant
     [(cuda_ok, .set_size 2), (cuda_ok, .host_mut), (cuda_ok, .device_mut)]
     device_written2 (by decide)⟩

/-! ### C6 to C10: the accessors -/

theorem copy_floats_allocated {α : Type} (s : gpu_data α) (h : s.allocated) :
    copy_floats (byte_count s.data_size) s.data_host s.data_device = s.data_device ∧
    copy_floats (byte_count s.data_size) s.data_device s.data_host = s.data_host := by
  unfold gpu_data.allocated at h
  cases hh : s.data_host with
  | none =>
    cases hd : s.data_device with
    | none => simp [copy_floats]
    | some d => simp [hh, hd] at h
  | some x =>
    cases hd : s.data_device with
    | none => simp [hh, hd] at h
    | some d =>
      simp only [hh, hd] at h
      obtain ⟨_, h1, h2⟩ := h
      have e : x.length = d.length := h1.trans h2.symm
      constructor
      · simp [copy_floats, ← h2, e]
      · simp [copy_floats, ← h1, e]

/-- C6.  From a state with `host_current == false`, a read-only host access (`host()`, which
is `copy_to_host`) that returns leaves `host_current` true, `device_in_use` false and
`have_active_transfer` false, leaves `device_current`, the size and the device block as they
were, and the host block holds the floats of the device block (for buffers in step with the
size); it does return when the CUDA calls succeed.  So DeviceAuthoritative becomes Synced. -/
theorem copy_to_host_of_stale {α : Type} (rt : cuda_runtime α) (s : gpu_data α)
    (calls : List cuda_call) (h : s.host_current = false) :
    host rt s calls = copy_to_host rt s calls ∧
    (∀ s' c', copy_to_host rt s calls = .returned s' c' →
      s'.host_current = true ∧ s'.device_in_use = false ∧
      s'.have_active_transfer = false ∧ s'.device_current = s.device_current ∧
      s'.data_size = s.data_size ∧ s'.data_device = s.data_device ∧
      (s.allocated → s'.data_host = s'.data_device)) ∧
    (rt.succeeds → ∃ s' c', copy_to_host rt s calls = .returned s' c') := by
  refine ⟨rfl, ?_, fun hrt => copy_to_host_succeeds rt hrt s calls⟩
  intro s' c' hr
  obtain ⟨rfl, _⟩ := copy_to_host_returned rt s s' calls c' hr
  simp only [h, Bool.false_eq_true, if_false, true_and]
  intro ha
  exact (copy_floats_allocated s ha).1

/-- C6, at the instance whose device copy is authoritative: the read-only host access
copies the device block to the host and the instance is Synced. -/
theorem copy_to_host_of_stale_witness :
    device_written2.host_current = false ∧
    copy_to_host cuda_ok device_written2 [] =
      .returned { resized2 with data_host := some [7, 7], data_device := some [7, 7] }
        [.cudaMemcpy 8 .cudaMemcpyDeviceToHost, .cudaGetLastError] ∧
    ({ resized2 with data_host := some [7, 7], data_device := some [7, 7] } :
      gpu_data Nat).data_host =
    ({ resized2 with data_host := some [7, 7], data_device := some [7, 7] } :
      gpu_data Nat).data_device :=
  ⟨by decide, by decide,
   ((copy_to_host_of_stale cuda_ok device_written2 [] (by decide)).2.1
      { resized2 with data_host := some [7, 7], data_device := some [7, 7] }
      [.cudaMemcpy 8 .cudaMemcpyDeviceToHost, .cudaGetLastError] (by decide)).2.2.2.2.2.2
      (by simp [gpu_data.allocated, device_written2, resized2, byte_count, sizeof_float])⟩

/-- C7.  With `host_current == true` a read-only host access changes nothing: the object is
returned as it was and no CUDA call is made, so no copy and no fence, and a pending
host-to-device transfer stays pending. -/
theorem copy_to_host_of_current {α : Type} (rt : cuda_runtime α) (s : gpu_data α)
    (calls : List cuda_call) (h : s.host_current = true) :
    copy_to_host rt s calls = .returned s calls ∧ host rt s calls = .returned s calls := by
  have : copy_to_host rt s calls = .returned s calls := by
    unfold copy_to_host
    rw [if_neg (by simp [h])]
  exact ⟨this, this⟩

/-- C7, at an instance with a pending transfer, under a runtime in which every call would
fail. -/
theorem copy_to_host_of_current_witness :
    transfer_pending2.have_active_transfer = true ∧
    copy_to_host cuda_failing transfer_pending2 [] = .returned transfer_pending2 [] :=
  ⟨by decide, (copy_to_host_of_current cuda_failing transfer_pending2 [] (by decide)).1⟩

/-- C8.  Whatever the state before, a mutable host access (`host()` read-write) that returns
leaves `host_current` true and `device_current` false, the HostAuthoritative state; it does
return when the CUDA calls succeed. -/
theorem host_mut_host_authoritative {α : Type} (rt : cuda_runtime α) (s : gpu_data α)
    (calls : List cuda_call) :
    (∀ s' c', host_mut rt s calls = .returned s' c' →
      s'.host_current = true ∧ s'.device_current = false) ∧
    (rt.succeeds → ∃ s' c', host_mut rt s calls = .returned s' c') := by
  constructor
  · intro s' c' hr
    unfold host_mut at hr
    simp only [outcome.andThen_eq_returned, outcome.returned.injEq] at hr
    obtain ⟨s1, c1, h1, rfl, rfl⟩ := hr
    exact ⟨copy_to_host_returned_host_current rt s s1 calls c1 h1, rfl⟩
  · intro hrt
    obtain ⟨s1, c1, h1⟩ := copy_to_host_succeeds rt hrt s calls
    exact ⟨_, _, by unfold host_mut; rw [h1]; rfl⟩

/-- C8, at the instance whose device copy is authoritative. -/
theorem host_mut_host_authoritative_witness :
    ∃ s' c', host_mut cuda_ok device_written2 [] = .returned s' c' ∧
      s'.host_current = true ∧ s'.device_current = false := by
  obtain ⟨s', c', h⟩ :=
    (host_mut_host_authoritative cuda_ok device_written2 []).2 (fun _ => rfl)
  exact ⟨s', c', h, (host_mut_host_authoritative cuda_ok device_written2 []).1 s' c' h⟩

/-- C9.  Whatever the state before, once `copy_to_device` (the read-only `device()`)
returns, `device_current` is true and `have_active_transfer` is false; when the device copy
was stale or a transfer was pending, the last calls made are the synchronisation of the
transfer stream and the error check, so every copy queued on that stream comes before the
fence.  In particular after `async_copy_to_device()` has queued a copy, `device()` returns
only after that fence.  `copy_to_device` does return when the CUDA calls succeed. -/
theorem copy_to_device_no_pending_transfer {α : Type} (rt rt0 : cuda_runtime α)
    (s : gpu_data α) (calls : List cuda_call) :
    device rt s calls = copy_to_device rt s calls ∧
    (∀ s' c', copy_to_device rt s calls = .returned s' c' →
      s'.device_current = true ∧ s'.have_active_transfer = false ∧
      ((s.device_current = false ∨ s.have_active_transfer = true) →
        ∃ pre, c' = calls ++ pre ++
          [.cudaStreamSynchronize s.cuda_stream, .cudaGetLastError])) ∧
    (∀ s0 c0 s' c', async_copy_to_device rt0 s0 c0 = .returned s calls →
      s0.device_current = false → device rt s calls = .returned s' c' →
      s'.device_current = true ∧ s'.have_active_transfer = false ∧
      ∃ pre, c' = c0 ++ pre ++
        [.cudaMemcpyAsync (byte_count s0.data_size) .cudaMemcpyHostToDevice s0.cuda_stream,
         .cudaStreamSynchronize s0.cuda_stream, .cudaGetLastError]) ∧
    (rt.succeeds → ∃ s' c', copy_to_device rt s calls = .returned s' c') := by
  refine ⟨rfl, ?_, ?_, fun hrt => copy_to_device_succeeds rt hrt s calls⟩
  · intro s' c' hr
    obtain ⟨h1, h2, _⟩ := copy_to_device_returned_flags rt s s' calls c' hr
    refine ⟨h1, h2, ?_⟩
    obtain ⟨_, rfl⟩ := copy_to_device_returned rt s s' calls c' hr
    intro hp
    by_cases hc : s.device_current = true
    · have ha : s.have_active_transfer = true := by
        rcases hp with hp | hp
        · rw [hc] at hp; cases hp
        · exact hp
      exact ⟨[], by simp [hc, ha]⟩
    · exact ⟨(if s.device_in_use then [.cudaStreamSynchronize none] else []) ++
        [.cudaMemcpyAsync (byte_count s.data_size) .cudaMemcpyHostToDevice s.cuda_stream],
        by simp [hc]⟩
  · intro s0 c0 s' c' h0 hc0 hr
    obtain ⟨rfl, rfl⟩ := async_copy_to_device_returned rt0 s0 s c0 calls h0
    obtain ⟨h1, h2, _⟩ := copy_to_device_returned_flags rt _ s' _ c' hr
    refine ⟨h1, h2, ?_⟩
    obtain ⟨_, rfl⟩ := copy_to_device_returned rt _ s' _ c' hr
    exact ⟨if s0.device_in_use then [.cudaStreamSynchronize none] else [], by simp [hc0]⟩

/-- C9, at the state right after `async_copy_to_device()` has queued the copy of a
host-written instance: `device()` fences the transfer stream after the queued copy. -/
theorem copy_to_device_no_pending_transfer_witness :
    async_copy_to_device cuda_ok host_written2 [] =
      .returned transfer_pending2 [.cudaMemcpyAsync 8 .cudaMemcpyHostToDevice (some 1)] ∧
    device cuda_ok transfer_pending2
        [.cudaMemcpyAsync 8 .cudaMemcpyHostToDevice (some 1)] =
      .returned { transfer_pending2 with have_active_transfer := false }
        [.cudaMemcpyAsync 8 .cudaMemcpyHostToDevice (some 1),
         .cudaStreamSynchronize (some 1), .cudaGetLastError] ∧
    (({ transfer_pending2 with have_active_transfer := false } :
        gpu_data Nat).device_current = true ∧
     ({ transfer_pending2 with have_active_transfer := false } :
        gpu_data Nat).have_active_transfer = false ∧
     ∃ pre, [cuda_call.cudaMemcpyAsync 8 .cudaMemcpyHostToDevice (some 1),
         .cudaStreamSynchronize (some 1), .cudaGetLastError] = [] ++ pre ++
        [.cudaMemcpyAsync (byte_count host_written2.data_size) .cudaMemcpyHostToDevice
          host_written2.cuda_stream,
         .cudaStreamSynchronize host_written2.cuda_stream, .cudaGetLastError]) :=
  ⟨by decide, by decide,
   (copy_to_device_no_pending_transfer cuda_ok cuda_ok transfer_pending2
      [.cudaMemcpyAsync 8 .cudaMemcpyHostToDevice (some 1)]).2.2.1
      host_written2 [] { transfer_pending2 with have_active_transfer := false }
      [.cudaMemcpyAsync 8 .cudaMemcpyHostToDevice (some 1),
       .cudaStreamSynchronize (some 1), .cudaGetLastError]
      (by decide) (by decide) (by decide)⟩

/-- C10.  Whatever the state before, a mutable device access (`device()` read-write) that
returns leaves `device_current` true, `host_current` false (the DeviceAuthoritative state)
and `have_active_transfer` false; it does return when the CUDA calls succeed. -/
theorem device_mut_device_authoritative {α : Type} (rt : cuda_runtime α) (s : gpu_data α)
    (calls : List cuda_call) :
    (∀ s' c', device_mut rt s calls = .returned s' c' →
      s'.device_current = true ∧ s'.host_current = false ∧
      s'.have_active_transfer = false) ∧
    (rt.succeeds → ∃ s' c', device_mut rt s calls = .returned s' c') := by
  constructor
  · intro s' c' hr
    unfold device_mut at hr
    simp only [outcome.andThen_eq_returned, outcome.returned.injEq] at hr
    obtain ⟨s1, c1, h1, rfl, rfl⟩ := hr
    obtain ⟨hd, ha, _⟩ := copy_to_device_returned_flags rt s s1 calls c1 h1
    exact ⟨hd, rfl, ha⟩
  · intro hrt
    obtain ⟨s1, c1, h1⟩ := copy_to_device_succeeds rt hrt s calls
    exact ⟨_, _, by unfold device_mut; rw [h1]; rfl⟩

/-- C10, at a host-written instance with a pending transfer. -/
theorem device_mut_device_authoritative_witness :
    ∃ s' c', device_mut cuda_ok transfer_pending2 [] = .returned s' c' ∧
      s'.device_current = true ∧ s'.host_current = false ∧
      s'.have_active_transfer = false := by
  obtain ⟨s', c', h⟩ :=
    (device_mut_device_authoritative cuda_ok transfer_pending2 []).2 (fun _ => rfl)
  exact ⟨s', c', h, (device_mut_device_authoritative cuda_ok transfer_pending2 []).1 s' c' h⟩

/-! ### C3 to C5: the cross-instance copy -/

theorem outcome.map_eq_returned {σ τ : Type} (g : σ → τ) (o : outcome σ) (p : τ)
    (c' : List cuda_call) :
    o.map g = .returned p c' ↔ ∃ s, o = .returned s c' ∧ p = g s := by
  cases o with
  | returned s calls =>
    simp only [outcome.map, outcome.returned.injEq]
    constructor
    · rintro ⟨rfl, rfl⟩; exact ⟨s, ⟨rfl, rfl⟩, rfl⟩
    · rintro ⟨s1, ⟨rfl, rfl⟩, rfl⟩; exact ⟨rfl, rfl⟩
  | thrown s calls => simp [outcome.map]
  | aborted s calls => simp [outcome.map]
  | check_failed s calls => simp [outcome.map]

theorem outcome.andThen_returned {σ : Type} (s : σ) (calls : List cuda_call)
    (f : σ → List cuda_call → outcome σ) :
    (outcome.returned s calls).andThen f = f s calls := rfl

theorem outcome.map_returned {σ τ : Type} (g : σ → τ) (s : σ) (calls : List cuda_call) :
    (outcome.returned s calls).map g = .returned (g s) calls := rfl

theorem host_succeeds {α : Type} (rt : cuda_runtime α) (h : rt.succeeds)
    (s : gpu_data α) (calls : List cuda_call) :
    ∃ s' c', host rt s calls = .returned s' c' :=
  copy_to_host_succeeds rt h s calls

theorem device_succeeds {α : Type} (rt : cuda_runtime α) (h : rt.succeeds)
    (s : gpu_data α) (calls : List cuda_call) :
    ∃ s' c', device rt s calls = .returned s' c' :=
  copy_to_device_succeeds rt h s calls

theorem device_mut_succeeds {α : Type} (rt : cuda_runtime α) (h : rt.succeeds)
    (s : gpu_data α) (calls : List cuda_call) :
    ∃ s' c', device_mut rt s calls = .returned s' c' := by
  obtain ⟨s1, c1, h1⟩ := copy_to_device_succeeds rt h s calls
  exact ⟨_, _, by unfold device_mut; rw [h1]; rfl⟩

theorem memcpy_succeeds {α : Type} (rt : cuda_runtime α) (h : rt.succeeds)
    (dest src : gpu_data α) (calls : List cuda_call) (hsize : dest.size = src.size) :
    ∃ p c', memcpy rt dest src calls = .returned p c' := by
  unfold memcpy
  rw [if_neg (by simp [hsize])]
  by_cases h0 : src.size = 0
  · rw [if_pos h0]; exact ⟨_, _, rfl⟩
  · rw [if_neg h0]
    obtain ⟨d1, c1, hd⟩ := device_mut_succeeds rt h dest calls
    obtain ⟨s1, c2, hs⟩ := device_succeeds rt h src c1
    obtain ⟨s2, c3, hs2⟩ := device_succeeds rt h src calls
    obtain ⟨s3, c4, hs3⟩ := host_succeeds rt h src c1
    obtain ⟨s4, c5, hs4⟩ := host_succeeds rt h src calls
    split_ifs
    · simp only [hd, hs, outcome.map_returned, outcome.andThen_returned,
        CHECK_CUDA_succeeds rt h]
      exact ⟨_, _, rfl⟩
    · simp only [hs2, outcome.map_returned, outcome.andThen_returned,
        CHECK_CUDA_succeeds rt h]
      exact ⟨_, _, rfl⟩
    · simp only [hd, hs3, outcome.map_returned, outcome.andThen_returned,
        CHECK_CUDA_succeeds rt h]
      exact ⟨_, _, rfl⟩
    · simp only [hs4, outcome.map_returned, outcome.andThen_returned,
        CHECK_CUDA_succeeds rt h]
      exact ⟨_, _, rfl⟩

theorem outcome.andThen_ne_check_failed {σ : Type} (o : outcome σ)
    (f : σ → List cuda_call → outcome σ)
    (h1 : ∀ p c, o ≠ .check_failed p c) (h2 : ∀ s calls p c, f s calls ≠ .check_failed p c) :
    ∀ p c, o.andThen f ≠ .check_failed p c := by
  intro p c
  cases o with
  | returned s calls => exact h2 s calls p c
  | thrown s calls => simp [outcome.andThen]
  | aborted s calls => simp [outcome.andThen]
  | check_failed s calls => exact absurd rfl (h1 s calls)

theorem outcome.map_ne_check_failed {σ τ : Type} (g : σ → τ) (o : outcome σ)
    (h1 : ∀ p c, o ≠ .check_failed p c) : ∀ p c, o.map g ≠ .check_failed p c := by
  intro p c
  cases o with
  | returned s calls => simp [outcome.map]
  | thrown s calls => simp [outcome.map]
  | aborted s calls => simp [outcome.map]
  | check_failed s calls => exact absurd rfl (h1 s calls)

theorem CHECK_CUDA_ne_check_failed {α σ : Type} (rt : cuda_runtime α) (c : cuda_call) (s : σ)
    (calls : List cuda_call) : ∀ p k, CHECK_CUDA rt c s calls ≠ .check_failed p k := by
  intro p k
  unfold CHECK_CUDA
  split_ifs <;> simp

theorem wait_for_transfer_to_finish_ne_check_failed {α : Type} (rt : cuda_runtime α)
    (s : gpu_data α) (calls : List cuda_call) :
    ∀ p k, wait_for_transfer_to_finish rt s calls ≠ .check_failed p k := by
  unfold wait_for_transfer_to_finish
  split_ifs
  · apply outcome.andThen_ne_check_failed
    · exact CHECK_CUDA_ne_check_failed rt _ s calls
    · intro s1 c1; exact CHECK_CUDA_ne_check_failed rt _ _ c1
  · intro p k; simp

theorem copy_to_host_ne_check_failed {α : Type} (rt : cuda_runtime α)
    (s : gpu_data α) (calls : List cuda_call) :
    ∀ p k, copy_to_host rt s calls ≠ .check_failed p k := by
  unfold copy_to_host
  split_ifs
  · apply outcome.andThen_ne_check_failed
    · exact wait_for_transfer_to_finish_ne_check_failed rt s calls
    · intro s1 c1
      apply outcome.andThen_ne_check_failed
      · exact CHECK_CUDA_ne_check_failed rt _ s1 c1
      · intro s2 c2; exact CHECK_CUDA_ne_check_failed rt _ _ c2
  · intro p k; simp

theorem async_copy_to_device_ne_check_failed {α : Type} (rt : cuda_runtime α)
    (s : gpu_data α) (calls : List cuda_call) :
    ∀ p k, async_copy_to_device rt s calls ≠ .check_failed p k := by
  unfold async_copy_to_device
  by_cases hc : (!s.device_current) = true
  · rw [if_pos hc]
    apply outcome.andThen_ne_check_failed
    · by_cases hu : s.device_in_use = true
      · rw [if_pos hu]
        apply outcome.andThen_ne_check_failed
        · exact CHECK_CUDA_ne_check_failed rt _ s calls
        · intro s1 c1 p k; simp
      · rw [if_neg hu]; intro p k; simp
    · intro s1 c1
      apply outcome.andThen_ne_check_failed
      · exact CHECK_CUDA_ne_check_failed rt _ s1 c1
      · intro s2 c2 p k; simp
  · rw [if_neg hc]; intro p k; simp

theorem copy_to_device_ne_check_failed {α : Type} (rt : cuda_runtime α)
    (s : gpu_data α) (calls : List cuda_call) :
    ∀ p k, copy_to_device rt s calls ≠ .check_failed p k := by
  unfold copy_to_device
  apply outcome.andThen_ne_check_failed
  · exact async_copy_to_device_ne_check_failed rt s calls
  · intro s1 c1; exact wait_for_transfer_to_finish_ne_check_failed rt s1 c1

theorem device_mut_ne_check_failed {α : Type} (rt : cuda_runtime α)
    (s : gpu_data α) (calls : List cuda_call) :
    ∀ p k, device_mut rt s calls ≠ .check_failed p k := by
  unfold device_mut
  apply outcome.andThen_ne_check_failed
  · exact copy_to_device_ne_check_failed rt s calls
  · intro s1 c1 p k; simp

theorem memcpy_copy_ne_check_failed {α : Type} (rt : cuda_runtime α)
    (o : outcome (gpu_data α × gpu_data α)) (c : gpu_data α × gpu_data α → cuda_call)
    (g : gpu_data α × gpu_data α → gpu_data α × gpu_data α)
    (h : ∀ p k, o ≠ .check_failed p k) :
    ∀ p k, (o.andThen fun q calls =>
      (CHECK_CUDA rt (c q) q calls).andThen fun q calls => .returned (g q) calls)
        ≠ .check_failed p k := by
  apply outcome.andThen_ne_check_failed _ _ h
  intro q calls
  apply outcome.andThen_ne_check_failed
  · exact CHECK_CUDA_ne_check_failed rt _ q calls
  · intro q1 c1 p k; simp

theorem memcpy_ne_check_failed {α : Type} (rt : cuda_runtime α)
    (dest src : gpu_data α) (calls : List cuda_call) (hsize : dest.size = src.size) :
    ∀ p k, memcpy rt dest src calls ≠ .check_failed p k := by
  unfold memcpy
  rw [if_neg (by simp [hsize])]
  by_cases h0 : src.size = 0
  · rw [if_pos h0]; intro p k; simp
  · rw [if_neg h0]
    split_ifs
    · apply outcome.andThen_ne_check_failed
      · exact outcome.map_ne_check_failed _ _ (device_mut_ne_check_failed rt dest calls)
      · intro q c1
        exact memcpy_copy_ne_check_failed rt _ _ _
          (outcome.map_ne_check_failed _ _ (copy_to_device_ne_check_failed rt q.2 c1))
    · exact memcpy_copy_ne_check_failed rt _ _ _
        (outcome.map_ne_check_failed _ _ (copy_to_device_ne_check_failed rt src calls))
    · apply outcome.andThen_ne_check_failed
      · exact outcome.map_ne_check_failed _ _ (device_mut_ne_check_failed rt dest calls)
      · intro q c1
        exact memcpy_copy_ne_check_failed rt _ _ _
          (outcome.map_ne_check_failed _ _ (copy_to_host_ne_check_failed rt q.2 c1))
    · exact memcpy_copy_ne_check_failed rt _ _ _
        (outcome.map_ne_check_failed _ _ (copy_to_host_ne_check_failed rt src calls))

/-- C3.  `memcpy(dest, src)` ends in a failed `DLIB_CASSERT` exactly when
`dest.size() != src.size()`, and then nothing has been done; with equal sizes it returns
normally whenever the CUDA calls it makes succeed. -/
theorem memcpy_check_failed_iff {α : Type} (rt : cuda_runtime α) (dest src : gpu_data α)
    (calls : List cuda_call) :
    ((∃ p k, memcpy rt dest src calls = .check_failed p k) ↔ dest.size ≠ src.size) ∧
    (dest.size ≠ src.size → memcpy rt dest src calls = .check_failed (dest, src) calls) ∧
    (dest.size = src.size → rt.succeeds →
      ∃ p k, memcpy rt dest src calls = .returned p k) := by
  have hfail : dest.size ≠ src.size →
      memcpy rt dest src calls = .check_failed (dest, src) calls := by
    intro hne
    unfold memcpy
    rw [if_pos hne]
  refine ⟨⟨?_, fun hne => ⟨_, _, hfail hne⟩⟩, hfail,
    fun hsize hrt => memcpy_succeeds rt hrt dest src calls hsize⟩
  rintro ⟨p, k, h⟩ hsize
  exact memcpy_ne_check_failed rt dest src calls hsize p k h

/-- C3, at a copy from an instance of two floats into an empty one (the check fails) and
between two instances of two floats (the copy returns). -/
theorem memcpy_check_failed_iff_witness :
    memcpy cuda_ok gpu_data.new resized2 [] = .check_failed (gpu_data.new, resized2) [] ∧
    ∃ p k, memcpy cuda_ok device_written2 host_written2 [] = .returned p k :=
  ⟨(memcpy_check_failed_iff cuda_ok gpu_data.new resized2 []).2.1 (by decide),
   (memcpy_check_failed_iff cuda_ok device_written2 host_written2 []).2.2 (by decide)
     (fun _ => rfl)⟩

/-- C4.  With `dest.size() == src.size() == 0`, `memcpy(dest, src)` is a no-op: both
objects are returned exactly as they were and no CUDA call is made, so no copy and no
fence. -/
theorem memcpy_empty_noop {α : Type} (rt : cuda_runtime α) (dest src : gpu_data α)
    (calls : List cuda_call) (hd : dest.size = 0) (hs : src.size = 0) :
    memcpy rt dest src calls = .returned (dest, src) calls := by
  unfold memcpy
  rw [if_neg (by simp [hd, hs]), if_pos hs]

/-- C4, at two empty instances, one of them with a stale host flag and the device marked in
use, under a runtime in which every call would fail. -/
theorem memcpy_empty_noop_witness :
    memcpy cuda_failing gpu_data.new empty_stale [] =
        .returned (gpu_data.new, empty_stale) [] ∧
      memcpy cuda_failing empty_stale gpu_data.new [] =
        .returned (empty_stale, gpu_data.new) [] :=
  ⟨memcpy_empty_noop cuda_failing gpu_data.new empty_stale [] rfl rfl,
   memcpy_empty_noop cuda_failing empty_stale gpu_data.new [] rfl rfl⟩

/-- What a returning `memcpy` between non-empty instances has done: the accessor of `dest`,
the accessor of `src`, then one `cudaMemcpy` into the block `dest` handed out. -/
theorem memcpy_returned {α : Type} (rt : cuda_runtime α) (dest src d' s' : gpu_data α)
    (calls c' : List cuda_call) (hne : src.size ≠ 0)
    (h : memcpy rt dest src calls = .returned (d', s') c') :
    ∃ d1 c1 c2,
      (if dest.device_ready then device_mut rt dest calls = .returned d1 c1
        else d1 = host_write_only dest ∧ c1 = calls) ∧
      (if src.device_ready then device rt src c1 = .returned s' c2
        else host rt src c1 = .returned s' c2) ∧
      c' = c2 ++ [.cudaMemcpy (byte_count s'.size)
        (memcpy_kind dest.device_ready src.device_ready)] ∧
      d' = (if dest.device_ready then
          { d1 with data_device := (copy_floats (byte_count s'.size) d1.data_device
              (if src.device_ready then s'.data_device else s'.data_host)) }
        else
          { d1 with data_host := (copy_floats (byte_count s'.size) d1.data_host
              (if src.device_ready then s'.data_device else s'.data_host)) }) := by
  unfold memcpy at h
  by_cases hsize : dest.size ≠ src.size
  · rw [if_pos hsize] at h; cases h
  rw [if_neg hsize, if_neg hne] at h
  by_cases hd : dest.device_ready = true <;> by_cases hs : src.device_ready = true
  · simp only [hd, hs, Bool.and_self, if_true, outcome.andThen_eq_returned,
      outcome.map_eq_returned, CHECK_CUDA_eq_returned, outcome.returned.injEq,
      Prod.mk.injEq] at h
    obtain ⟨p1, c1, ⟨d1, hdm, rfl⟩, p2, c2, ⟨s1, hsd, rfl⟩, p3, c3, ⟨_, rfl, rfl⟩,
      ⟨rfl, rfl⟩, rfl⟩ := h
    exact ⟨d1, c1, c2, by simp [hd, hdm], by simp [hs, hsd], by simp [hd, hs, memcpy_kind],
      by simp [hd, hs]⟩
  · simp only [Bool.not_eq_true] at hs
    simp only [hd, hs, Bool.and_false, Bool.false_eq_true, if_false, Bool.not_true,
      Bool.and_true, Bool.not_false, if_true, Bool.false_and, outcome.andThen_eq_returned,
      outcome.map_eq_returned, CHECK_CUDA_eq_returned, outcome.returned.injEq,
      Prod.mk.injEq] at h
    obtain ⟨p1, c1, ⟨d1, hdm, rfl⟩, p2, c2, ⟨s1, hsd, rfl⟩, p3, c3, ⟨_, rfl, rfl⟩,
      ⟨rfl, rfl⟩, rfl⟩ := h
    exact ⟨d1, c1, c2, by simp [hd, hdm], by simp [hs, hsd], by simp [hd, hs, memcpy_kind],
      by simp [hd, hs]⟩
  · simp only [Bool.not_eq_true] at hd
    simp only [hd, hs, Bool.false_and, Bool.false_eq_true, if_false, Bool.not_false,
      Bool.and_self, if_true, outcome.andThen_eq_returned,
      outcome.map_eq_returned, CHECK_CUDA_eq_returned, outcome.returned.injEq,
      Prod.mk.injEq] at h
    obtain ⟨p2, c2, ⟨s1, hsd, rfl⟩, p3, c3, ⟨_, rfl, rfl⟩, ⟨rfl, rfl⟩, rfl⟩ := h
    exact ⟨host_write_only dest, calls, c2, by simp [hd], by simp [hs, hsd],
      by simp [hd, hs, memcpy_kind], by simp [hd, hs]⟩
  · simp only [Bool.not_eq_true] at hd hs
    simp only [hd, hs, Bool.false_and, Bool.false_eq_true, if_false, Bool.not_false,
      Bool.and_false, outcome.andThen_eq_returned,
      outcome.map_eq_returned, CHECK_CUDA_eq_returned, outcome.returned.injEq,
      Prod.mk.injEq] at h
    obtain ⟨p2, c2, ⟨s1, hsd, rfl⟩, p3, c3, ⟨_, rfl, rfl⟩, ⟨rfl, rfl⟩, rfl⟩ := h
    exact ⟨host_write_only dest, calls, c2, by simp [hd], by simp [hs, hsd],
      by simp [hd, hs, memcpy_kind], by simp [hd, hs]⟩

theorem copy_to_host_returned_size {α : Type} (rt : cuda_runtime α)
    (s s' : gpu_data α) (calls c' : List cuda_call)
    (h : copy_to_host rt s calls = .returned s' c') : s'.size = s.size := by
  obtain ⟨rfl, _⟩ := copy_to_host_returned rt s s' calls c' h
  unfold gpu_data.size
  split_ifs <;> rfl

theorem copy_to_device_returned_size {α : Type} (rt : cuda_runtime α)
    (s s' : gpu_data α) (calls c' : List cuda_call)
    (h : copy_to_device rt s calls = .returned s' c') : s'.size = s.size := by
  obtain ⟨rfl, _⟩ := copy_to_device_returned rt s s' calls c' h
  unfold gpu_data.size
  split_ifs <;> rfl

/-- The calls of `device()` on an instance whose device copy is current: at most the fence
of the transfer stream, no copy. -/
theorem copy_to_device_current_calls {α : Type} (rt : cuda_runtime α)
    (s s' : gpu_data α) (calls c' : List cuda_call) (hc : s.device_current = true)
    (h : copy_to_device rt s calls = .returned s' c') :
    ∃ pre, c' = calls ++ pre ∧ ∀ c ∈ pre, cuda_call.is_copy c = false := by
  obtain ⟨_, rfl⟩ := copy_to_device_returned rt s s' calls c' h
  refine ⟨_, rfl, ?_⟩
  rw [if_pos hc]
  intro c hmem
  split_ifs at hmem
  · simp only [List.mem_cons, List.mem_singleton, List.not_mem_nil, or_false] at hmem
    rcases hmem with rfl | rfl <;> rfl
  · cases hmem

/-- The calls of `host()` on an instance whose host copy is current: none. -/
theorem copy_to_host_current_calls {α : Type} (rt : cuda_runtime α)
    (s s' : gpu_data α) (calls c' : List cuda_call) (hc : s.host_current = true)
    (h : copy_to_host rt s calls = .returned s' c') : c' = calls := by
  obtain ⟨_, rfl⟩ := copy_to_host_returned rt s s' calls c' h
  simp [hc]

theorem copy_to_host_returned_calls {α : Type} (rt : cuda_runtime α)
    (s s' : gpu_data α) (calls c' : List cuda_call)
    (h : copy_to_host rt s calls = .returned s' c') : ∃ pre, c' = calls ++ pre :=
  ⟨_, (copy_to_host_returned rt s s' calls c' h).2⟩

/-- C5.  For equal nonzero sizes a returning `memcpy(dest, src)` ends with exactly one
`cudaMemcpy` of `src.size()*sizeof(float)` bytes whose kind is `memcpy_kind` of
`(dest.device_ready(), src.device_ready())`: device to device, device to host, host to
device or host to host.  The calls before it are those of the two accessors, and for a
`src` that satisfies the freshness invariant none of them is a copy, so exactly one copy is
issued.  `memcpy` does return when the CUDA calls succeed. -/
theorem memcpy_copy_kind {α : Type} (rt : cuda_runtime α) (dest src : gpu_data α)
    (calls : List cuda_call) (hsize : dest.size = src.size) (hne : src.size ≠ 0) :
    (∀ d' s' c', memcpy rt dest src calls = .returned (d', s') c' →
      ∃ pre, c' = calls ++ pre ++ [.cudaMemcpy (byte_count src.size)
          (memcpy_kind dest.device_ready src.device_ready)] ∧
        (src.fresh → ∀ c ∈ pre, cuda_call.is_copy c = false)) ∧
    (rt.succeeds → ∃ p c', memcpy rt dest src calls = .returned p c') := by
  refine ⟨?_, fun hrt => memcpy_succeeds rt hrt dest src calls hsize⟩
  intro d' s' c' h
  obtain ⟨d1, c1, c2, hd, hs, rfl, _⟩ := memcpy_returned rt dest src d' s' calls c' hne h
  have hpre1 : ∃ pre1, c1 = calls ++ pre1 ∧ ∀ c ∈ pre1, cuda_call.is_copy c = false := by
    by_cases hdr : dest.device_ready = true
    · rw [if_pos hdr] at hd
      unfold device_mut at hd
      simp only [outcome.andThen_eq_returned, outcome.returned.injEq] at hd
      obtain ⟨d2, c3, hcd, _, rfl⟩ := hd
      exact copy_to_device_current_calls rt dest d2 calls c3 hdr hcd
    · rw [if_neg hdr] at hd
      exact ⟨[], by simp [hd.2], by simp⟩
  obtain ⟨pre1, rfl, hp1⟩ := hpre1
  have hpre2 : ∃ pre2, c2 = calls ++ pre1 ++ pre2 ∧
      (src.fresh → ∀ c ∈ pre2, cuda_call.is_copy c = false) ∧ s'.size = src.size := by
    by_cases hsr : src.device_ready = true
    · rw [if_pos hsr] at hs
      obtain ⟨pre2, h2, hp2⟩ := copy_to_device_current_calls rt src s' _ c2 hsr hs
      exact ⟨pre2, h2, fun _ => hp2, copy_to_device_returned_size rt src s' _ c2 hs⟩
    · rw [if_neg hsr] at hs
      obtain ⟨pre2, h2⟩ := copy_to_host_returned_calls rt src s' _ c2 hs
      refine ⟨pre2, h2, ?_, copy_to_host_returned_size rt src s' _ c2 hs⟩
      intro hf
      have hh : src.host_current = true := by
        rcases hf with hf | hf
        · exact hf
        · exact absurd hf hsr
      have := copy_to_host_current_calls rt src s' _ c2 hh hs
      rw [h2] at this
      have hnil : pre2 = [] := by simpa using this
      simp [hnil]
  obtain ⟨pre2, rfl, hp2, hsz⟩ := hpre2
  refine ⟨pre1 ++ pre2, by simp [hsz], ?_⟩
  intro hf c hmem
  rcases List.mem_append.1 hmem with hm | hm
  · exact hp1 c hm
  · exact hp2 hf c hm

/-- C5, at the four combinations of a device-ready and a host-written instance of two
floats: each call makes the one copy of its kind. -/
theorem memcpy_copy_kind_witness :
    (∃ p, memcpy cuda_ok resized2 resized2 [] =
      .returned p [.cudaMemcpy 8 .cudaMemcpyDeviceToDevice]) ∧
    (∃ p, memcpy cuda_ok host_written2 resized2 [] =
      .returned p [.cudaMemcpy 8 .cudaMemcpyDeviceToHost]) ∧
    (∃ p, memcpy cuda_ok resized2 host_written2 [] =
      .returned p [.cudaMemcpy 8 .cudaMemcpyHostToDevice]) ∧
    (∃ p, memcpy cuda_ok host_written2 host_written2 [] =
      .returned p [.cudaMemcpy 8 .cudaMemcpyHostToHost]) ∧
    ∃ pre, [cuda_call.cudaMemcpy 8 .cudaMemcpyHostToDevice] = [] ++ pre ++
        [.cudaMemcpy (byte_count host_written2.size)
          (memcpy_kind resized2.device_ready host_written2.device_ready)] ∧
      (host_written2.fresh → ∀ c ∈ pre, cuda_call.is_copy c = false) :=
  ⟨⟨_, rfl⟩, ⟨_, rfl⟩, ⟨_, rfl⟩, ⟨_, rfl⟩,
   (memcpy_copy_kind cuda_ok resized2 host_written2 [] (by decide) (by decide)).1
     { resized2 with host_current := false, data_device := some [7, 7] } host_written2
     [.cudaMemcpy 8 .cudaMemcpyHostToDevice] (by decide)⟩

/-! ### C2: contents after the cross-instance copy -/

theorem copy_floats_full {α : Type} (n : Nat) (a b : List α)
    (ha : a.length = n / sizeof_float) (hb : b.length = n / sizeof_float) :
    copy_floats n (some a) (some b) = some b := by
  simp [copy_floats, ← hb, ha.trans hb.symm]

theorem allocated_empty {α : Type} (s : gpu_data α) (h : s.allocated) (h0 : s.size = 0) :
    s.data_host = none ∧ s.data_device = none := by
  unfold gpu_data.allocated at h
  unfold gpu_data.size at h0
  cases hh : s.data_host <;> cases hd : s.data_device <;> simp_all

theorem allocated_nonempty {α : Type} (s : gpu_data α) (h : s.allocated) (h0 : s.size ≠ 0) :
    ∃ a b, s.data_host = some a ∧ s.data_device = some b ∧
      a.length = byte_count s.size / sizeof_float ∧
      b.length = byte_count s.size / sizeof_float := by
  unfold gpu_data.allocated at h
  unfold gpu_data.size at h0 ⊢
  cases hh : s.data_host <;> cases hd : s.data_device <;> simp_all

/-- The block `host()` hands out when it returns. -/
theorem host_returned_block {α : Type} (rt : cuda_runtime α)
    (s s' : gpu_data α) (calls c' : List cuda_call)
    (h : host rt s calls = .returned s' c') :
    s'.data_host = (if s.host_current then s.data_host else
      copy_floats (byte_count s.size) s.data_host s.data_device) := by
  obtain ⟨rfl, _⟩ := copy_to_host_returned rt s s' calls c' h
  unfold gpu_data.size
  split_ifs <;> rfl

/-- What `device()` returns on an instance whose device copy is current. -/
theorem copy_to_device_current_state {α : Type} (rt : cuda_runtime α)
    (s s' : gpu_data α) (calls c' : List cuda_call) (hc : s.device_current = true)
    (h : copy_to_device rt s calls = .returned s' c') :
    s' = { s with have_active_transfer := false } := by
  obtain ⟨rfl, _⟩ := copy_to_device_returned rt s s' calls c' h
  rw [if_pos hc]

/-- The accessor of `src` in `memcpy` hands out a block of `src.size()` floats, and a later
`host()` on `src` shows the same floats. -/
theorem memcpy_src_block {α : Type} (rt rt2 : cuda_runtime α) (src s' s'' : gpu_data α)
    (c1 c2 k2 k3 : List cuda_call) (hs : src.allocated) (hne : src.size ≠ 0)
    (hc : src.coherent)
    (hacc : if src.device_ready then device rt src c1 = .returned s' c2
        else host rt src c1 = .returned s' c2)
    (hh : host rt2 s' k2 = .returned s'' k3) :
    s'.size = src.size ∧
    ∃ x, (if src.device_ready then s'.data_device else s'.data_host) = some x ∧
      x.length = byte_count src.size / sizeof_float ∧ s''.data_host = some x := by
  obtain ⟨sh, sd, hsh, hsd, lh, ld⟩ := allocated_nonempty src hs hne
  have hb := host_returned_block rt2 s' s'' k2 k3 hh
  by_cases hr : src.device_ready = true
  · rw [if_pos hr] at hacc
    have hst := copy_to_device_current_state rt src s' c1 c2 hr hacc
    subst hst
    refine ⟨rfl, sd, by simp [hr, hsd], ld, ?_⟩
    rw [hb]
    by_cases hhc : src.host_current = true
    · simp only [hhc, if_true]
      rw [hc hhc hr, hsd]
    · simp only [hhc, Bool.false_eq_true, if_false, hsh, hsd]
      exact copy_floats_full _ sh sd lh ld
  · rw [if_neg hr] at hacc
    have hsz := copy_to_host_returned_size rt src s' c1 c2 hacc
    have hcur := copy_to_host_returned_host_current rt src s' c1 c2 hacc
    have hblock := host_returned_block rt src s' c1 c2 hacc
    refine ⟨hsz, ?_⟩
    rw [hb, hcur]
    simp only [hr, Bool.false_eq_true, if_false, if_true]
    rw [hblock]
    by_cases hhc : src.host_current = true
    · exact ⟨sh, by simp [hhc, hsh], lh, by simp [hhc, hsh]⟩
    · simp only [hhc, Bool.false_eq_true, if_false, hsh, hsd]
      exact ⟨sd, copy_floats_full _ sh sd lh ld, ld, copy_floats_full _ sh sd lh ld⟩

/-- The accessor of `dest` in `memcpy` hands out a block of `dest.size()` floats; once the
floats `x` are copied into it, a later `host()` on `dest` shows `x`. -/
theorem memcpy_dest_block {α : Type} (rt rt1 : cuda_runtime α) (dest d1 d'' : gpu_data α)
    (calls c1 k1 k3 : List cuda_call) (n : Nat) (x : List α)
    (hd : dest.allocated) (hne : dest.size ≠ 0) (hn : n = byte_count dest.size)
    (hx : x.length = n / sizeof_float)
    (hacc : if dest.device_ready then device_mut rt dest calls = .returned d1 c1
        else d1 = host_write_only dest ∧ c1 = calls)
    (hh : host rt1 (if dest.device_ready then
          { d1 with data_device := copy_floats n d1.data_device (some x) }
        else
          { d1 with data_host := copy_floats n d1.data_host (some x) }) k1 =
        .returned d'' k3) :
    d''.data_host = some x := by
  obtain ⟨dh, dd, hdh, hdd, lh, ld⟩ := allocated_nonempty dest hd hne
  rw [← hn] at lh ld
  have hb := host_returned_block rt1 _ d'' k1 k3 hh
  by_cases hr : dest.device_ready = true
  · rw [if_pos hr] at hacc
    unfold device_mut at hacc
    simp only [outcome.andThen_eq_returned, outcome.returned.injEq] at hacc
    obtain ⟨d2, c3, hcd, rfl, rfl⟩ := hacc
    have hst := copy_to_device_current_state rt dest d2 calls c3 hr hcd
    subst hst
    rw [hb]
    simp only [hr, if_true, Bool.false_eq_true, if_false, gpu_data.size, hdh, hdd]
    rw [copy_floats_full n dd x ld hx, show byte_count dest.data_size = n from hn.symm,
      copy_floats_full n dh x lh hx]
  · rw [if_neg hr] at hacc
    obtain ⟨rfl, rfl⟩ := hacc
    rw [hb]
    simp only [hr, Bool.false_eq_true, if_false, host_write_only, if_true, hdh]
    exact copy_floats_full n dh x lh hx

/-- C2, as amended.  For instances `dest` and `src` of equal size whose buffers are in step
with the size, and for a `src` whose two copies agree whenever both are marked current,
whatever the flags `host_current`, `device_current`, `have_active_transfer` and
`device_in_use` of either: after a returning `memcpy(dest, src)` the block `dest.host()`
returns equals the block `src.host()` returns; all three calls return when the CUDA calls
succeed. -/
theorem memcpy_host_contents {α : Type} (rt rt1 rt2 : cuda_runtime α)
    (dest src : gpu_data α) (calls k1 k2 : List cuda_call)
    (hsize : dest.size = src.size) (hd : dest.allocated) (hs : src.allocated)
    (hc : src.coherent) :
    (∀ d' s' c' d'' s'' c1 c2, memcpy rt dest src calls = .returned (d', s') c' →
      host rt1 d' k1 = .returned d'' c1 → host rt2 s' k2 = .returned s'' c2 →
      d''.data_host = s''.data_host) ∧
    (rt.succeeds → rt1.succeeds → rt2.succeeds →
      ∃ d' s' c' d'' s'' c1 c2, memcpy rt dest src calls = .returned (d', s') c' ∧
        host rt1 d' k1 = .returned d'' c1 ∧ host rt2 s' k2 = .returned s'' c2) := by
  constructor
  · intro d' s' c' d'' s'' c1 c2 hm hh1 hh2
    by_cases h0 : src.size = 0
    · have hnoop : memcpy rt dest src calls = .returned (dest, src) calls := by
        unfold memcpy
        rw [if_neg (by simp [hsize.trans h0, h0]), if_pos h0]
      rw [hnoop] at hm
      simp only [outcome.returned.injEq, Prod.mk.injEq] at hm
      obtain ⟨⟨rfl, rfl⟩, _⟩ := hm
      obtain ⟨e1, e2⟩ := allocated_empty dest hd (hsize.trans h0)
      obtain ⟨e3, e4⟩ := allocated_empty src hs h0
      rw [host_returned_block rt1 dest d'' k1 c1 hh1,
        host_returned_block rt2 src s'' k2 c2 hh2, e1, e2, e3, e4]
      simp [copy_floats]
    · obtain ⟨d1, c3, c4, hdacc, hsacc, _, hd'⟩ :=
        memcpy_returned rt dest src d' s' calls c' h0 hm
      obtain ⟨hsz, x, hX, hxl, hsx⟩ :=
        memcpy_src_block rt rt2 src s' s'' c3 c4 k2 c2 hs h0 hc hsacc hh2
      rw [hX, hsz] at hd'
      rw [hsx]
      subst hd'
      exact memcpy_dest_block rt rt1 dest d1 d'' calls c3 k1 c1 (byte_count src.size) x hd
        (by rw [hsize]; exact h0) (by rw [hsize]) hxl hdacc hh1
  · intro hrt hrt1 hrt2
    obtain ⟨⟨d', s'⟩, c', hm⟩ := memcpy_succeeds rt hrt dest src calls hsize
    obtain ⟨d'', c1, h1⟩ := host_succeeds rt1 hrt1 d' k1
    obtain ⟨s'', c2, h2⟩ := host_succeeds rt2 hrt2 s' k2
    exact ⟨d', s', c', d'', s'', c1, c2, hm, h1, h2⟩

/-- C2 as amended, at a copy from a host-written instance holding `1, 2` into an instance
whose device copy is authoritative: afterwards both `host()` calls return the same block. -/
theorem memcpy_host_contents_witness :
    ∃ d' s' c' d'' s'' c1 c2,
      (memcpy cuda_ok device_written2 host_holds12 [] = .returned (d', s') c' ∧
        host cuda_ok d' [] = .returned d'' c1 ∧ host cuda_ok s' [] = .returned s'' c2) ∧
      d''.data_host = s''.data_host := by
  have h := memcpy_host_contents cuda_ok cuda_ok cuda_ok device_written2 host_holds12 [] [] []
    (by decide)
    (by simp [gpu_data.allocated, device_written2, resized2, byte_count, sizeof_float])
    (by simp [gpu_data.allocated, host_holds12, resized2, byte_count, sizeof_float])
    (by intro _ h2; cases h2)
  obtain ⟨d', s', c', d'', s'', c1, c2, hm, h1, h2⟩ :=
    h.2 (fun _ => rfl) (fun _ => rfl) (fun _ => rfl)
  exact ⟨d', s', c', d'', s'', c1, c2, ⟨hm, h1, h2⟩, h.1 d' s' c' d'' s'' c1 c2 hm h1 h2⟩

/-- C2 as stated fails right after a resize.  `set_size(2)` leaves an instance Synced, with
whatever the two fresh blocks happen to hold (here `7, 7` on the host and `9, 9` on the
device).  Between two such instances `memcpy` copies device to device; afterwards
`dest.host()` returns `9, 9` and `src.host()` returns `7, 7`. -/
theorem memcpy_host_contents_differ_after_resize :
    set_size cuda_ok 2 gpu_data.new [] =
      .returned resized2
        [.cudaGetDevice, .cudaMallocHost 8, .cudaMalloc 8, .cudaStreamCreateWithFlags] ∧
    resized2.size = resized2.size ∧
    memcpy cuda_ok resized2 resized2 [] =
      .returned ({ resized2 with host_current := false }, resized2)
        [.cudaMemcpy 8 .cudaMemcpyDeviceToDevice] ∧
    host cuda_ok { resized2 with host_current := false } [] =
      .returned { resized2 with data_host := some [9, 9] }
        [.cudaMemcpy 8 .cudaMemcpyDeviceToHost, .cudaGetLastError] ∧
    host cuda_ok resized2 [] = .returned resized2 [] ∧
    ({ resized2 with data_host := some [9, 9] } : gpu_data Nat).data_host
      ≠ resized2.data_host := by
  refine ⟨by decide, rfl, by decide, by decide, by decide, by decide⟩

/-! ### The buffers stay in step with the size -/

/-- Only the size and the two blocks matter for `allocated`. -/
theorem allocated_congr {α : Type} (s t : gpu_data α) (h : s.allocated)
    (h1 : t.data_size = s.data_size) (h2 : t.data_host = s.data_host)
    (h3 : t.data_device = s.data_device) : t.allocated := by
  unfold gpu_data.allocated at h ⊢
  rw [h1, h2, h3]
  exact h

theorem allocated_wait_for_transfer_to_finish {α : Type} (rt : cuda_runtime α)
    (s : gpu_data α) (calls : List cuda_call) (h : s.allocated) :
    (wait_for_transfer_to_finish rt s calls).state.allocated := by
  unfold wait_for_transfer_to_finish
  split_ifs
  · apply outcome.andThen_state
    · rw [CHECK_CUDA_state]; exact h
    · intro s1 c1 h1
      rw [CHECK_CUDA_state]; exact allocated_congr s1 _ h1 rfl rfl rfl
  · exact h

theorem allocated_copy_to_host {α : Type} (rt : cuda_runtime α) (s : gpu_data α)
    (calls : List cuda_call) (h : s.allocated) : (copy_to_host rt s calls).state.allocated := by
  unfold copy_to_host
  split_ifs
  · apply outcome.andThen_state
    · exact allocated_wait_for_transfer_to_finish rt s calls h
    · intro s1 c1 h1
      apply outcome.andThen_state
      · rw [CHECK_CUDA_state]; exact h1
      · intro s2 c2 h2
        rw [CHECK_CUDA_state]
        have e := (copy_floats_allocated s2 h2).1
        unfold gpu_data.allocated at h2 ⊢
        simp only [e]
        cases hd : s2.data_device with
        | none => cases hh : s2.data_host <;> simp_all
        | some d => cases hh : s2.data_host <;> simp_all
  · exact h

theorem allocated_fence {α : Type} (rt : cuda_runtime α) (s : gpu_data α)
    (calls : List cuda_call) (h : s.allocated) :
    (if s.device_in_use then
      (CHECK_CUDA rt (.cudaStreamSynchronize none) s calls).andThen fun s calls =>
      .returned { s with device_in_use := false } calls
    else
      outcome.returned s calls).state.allocated := by
  split_ifs
  · apply outcome.andThen_state
    · rw [CHECK_CUDA_state]; exact h
    · intro s1 c1 h1; exact allocated_congr s1 _ h1 rfl rfl rfl
  · exact h

theorem allocated_async_copy_to_device {α : Type} (rt : cuda_runtime α) (s : gpu_data α)
    (calls : List cuda_call) (h : s.allocated) :
    (async_copy_to_device rt s calls).state.allocated := by
  unfold async_copy_to_device
  by_cases hc : (!s.device_current) = true
  · rw [if_pos hc]
    apply outcome.andThen_state
    · exact allocated_fence rt s calls h
    · intro s1 c1 h1
      apply outcome.andThen_state
      · rw [CHECK_CUDA_state]; exact h1
      · intro s2 c2 h2
        have e := (copy_floats_allocated s2 h2).2
        unfold gpu_data.allocated at h2 ⊢
        simp only [outcome.state, e]
        cases hd : s2.data_device with
        | none => cases hh : s2.data_host <;> simp_all
        | some d => cases hh : s2.data_host <;> simp_all
  · rw [if_neg hc]; exact h

theorem allocated_copy_to_device {α : Type} (rt : cuda_runtime α) (s : gpu_data α)
    (calls : List cuda_call) (h : s.allocated) :
    (copy_to_device rt s calls).state.allocated := by
  unfold copy_to_device
  apply outcome.andThen_state
  · exact allocated_async_copy_to_device rt s calls h
  · intro s1 c1 h1
    exact allocated_wait_for_transfer_to_finish rt s1 c1 h1

theorem outcome.alive_of_state {σ : Type} (P : σ → Prop) (o : outcome σ) (h : P o.state) :
    o.alive P := by
  cases o <;> first | exact h | trivial

theorem outcome.andThen_alive {σ : Type} (P : σ → Prop) (o : outcome σ)
    (f : σ → List cuda_call → outcome σ) (h1 : o.alive P)
    (h2 : ∀ s calls, o = .returned s calls → P s → (f s calls).alive P) :
    (o.andThen f).alive P := by
  cases o with
  | returned s calls => exact h2 s calls rfl h1
  | thrown s calls => exact h1
  | aborted s calls => trivial
  | check_failed s calls => trivial

theorem allocated_set_size_zero {α : Type} (rt : cuda_runtime α) (s : gpu_data α)
    (calls : List cuda_call) (h : s.allocated) :
    (set_size_zero rt s calls).state.allocated := by
  unfold set_size_zero
  apply outcome.andThen_state
  · exact allocated_fence rt s calls h
  · intro s1 c1 h1
    apply outcome.andThen_state
    · exact allocated_wait_for_transfer_to_finish rt s1 c1 h1
    · intro s2 c2 _
      simp [outcome.state, gpu_data.allocated]

/-- With no kernel marked in flight and no transfer pending, `set_size(0)` makes no checked
CUDA call and returns the empty state. -/
theorem set_size_zero_quiet {α : Type} (rt : cuda_runtime α) (s : gpu_data α)
    (calls : List cuda_call) (hu : s.device_in_use = false)
    (ha : s.have_active_transfer = false) :
    set_size_zero rt s calls =
      .returned { s with data_size := 0, host_current := true, device_current := true,
                         device_in_use := false, data_host := none, data_device := none }
        (calls ++ reset_calls s.data_host .cudaFreeHost ++
          reset_calls s.data_device .cudaFree) := by
  unfold set_size_zero wait_for_transfer_to_finish
  simp [hu, ha, outcome.andThen]

/-- The `try` block leaves `device_in_use` and `have_active_transfer` alone. -/
theorem set_size_try_quiet {α : Type} (rt : cuda_runtime α) (n : Nat) (s : gpu_data α)
    (calls : List cuda_call) (hu : s.device_in_use = false)
    (ha : s.have_active_transfer = false) :
    (set_size_try rt n s calls).state.device_in_use = false ∧
    (set_size_try rt n s calls).state.have_active_transfer = false := by
  unfold set_size_try
  apply outcome.andThen_state
    (fun t : gpu_data α => t.device_in_use = false ∧ t.have_active_transfer = false)
  · rw [CHECK_CUDA_state]; exact ⟨hu, ha⟩
  · intro s1 c1 h1
    apply outcome.andThen_state
      (fun t : gpu_data α => t.device_in_use = false ∧ t.have_active_transfer = false)
    · rw [CHECK_CUDA_state]; exact h1
    · intro s2 c2 h2
      apply outcome.andThen_state
        (fun t : gpu_data α => t.device_in_use = false ∧ t.have_active_transfer = false)
      · rw [CHECK_CUDA_state]; exact h2
      · intro s3 c3 h3
        dsimp only
        split_ifs
        · apply outcome.andThen_state
            (fun t : gpu_data α => t.device_in_use = false ∧ t.have_active_transfer = false)
          · rw [CHECK_CUDA_state]; exact h3
          · intro s4 c4 h4; exact h4
        · exact h3

theorem set_size_try_returned {α : Type} (rt : cuda_runtime α) (n : Nat)
    (s s' : gpu_data α) (calls c' : List cuda_call)
    (h : set_size_try rt n s calls = .returned s' c') :
    s'.data_size = s.data_size ∧
    s'.data_host = some (fresh_block rt.host_block (byte_count n)) ∧
    s'.data_device = some (fresh_block rt.device_block (byte_count n)) ∧
    s'.host_current = s.host_current ∧ s'.device_current = s.device_current ∧
    s'.cuda_stream = (if s.cuda_stream.isNone then some rt.stream else s.cuda_stream) := by
  unfold set_size_try at h
  simp only [outcome.andThen_eq_returned, CHECK_CUDA_eq_returned] at h
  by_cases hn : s.cuda_stream.isNone = true
  · obtain ⟨s1, c1, ⟨_, e1, rfl⟩, s2, c2, ⟨_, e2, rfl⟩, s3, c3, ⟨_, e3, rfl⟩, h⟩ := h
    subst e3 e2 e1
    rw [if_pos hn] at h
    simp only [outcome.andThen_eq_returned, CHECK_CUDA_eq_returned,
      outcome.returned.injEq] at h
    obtain ⟨s4, c4, ⟨_, e4, rfl⟩, rfl, rfl⟩ := h
    subst e4
    simp [hn]
  · obtain ⟨s1, c1, ⟨_, e1, rfl⟩, s2, c2, ⟨_, e2, rfl⟩, s3, c3, ⟨_, e3, rfl⟩, h⟩ := h
    subst e3 e2 e1
    rw [if_neg hn] at h
    simp only [outcome.returned.injEq] at h
    obtain ⟨rfl, rfl⟩ := h
    simp [hn]

theorem fresh_block_length {α : Type} (contents : Nat → α) (count : Nat) :
    (fresh_block contents count).length = count / sizeof_float := by
  simp [fresh_block]

theorem allocated_set_size_catch {α : Type} (rt : cuda_runtime α) (o : outcome (gpu_data α))
    (hq : o.state.device_in_use = false ∧ o.state.have_active_transfer = false)
    (hr : ∀ s' c', o = .returned s' c' → s'.allocated) :
    (set_size_catch rt o).alive gpu_data.allocated := by
  cases o with
  | thrown s3 c3 =>
    unfold set_size_catch
    simp only
    rw [set_size_zero_quiet rt s3 c3 hq.1 hq.2]
    trivial
  | returned s3 c3 => exact hr s3 c3 rfl
  | aborted s3 c3 => trivial
  | check_failed s3 c3 => trivial

theorem allocated_set_size {α : Type} (rt : cuda_runtime α) (n : Nat) (s : gpu_data α)
    (calls : List cuda_call) (h : s.allocated) :
    (set_size rt n s calls).alive gpu_data.allocated := by
  unfold set_size
  by_cases h0 : n = 0
  · rw [if_pos h0]
    exact outcome.alive_of_state _ _ (allocated_set_size_zero rt s calls h)
  · rw [if_neg h0]
    by_cases hn : n ≠ s.data_size
    · rw [if_pos hn]
      apply outcome.andThen_alive
      · exact outcome.alive_of_state _ _ (allocated_fence rt s calls h)
      · intro s1 c1 _ h1
        apply outcome.andThen_alive
        · exact outcome.alive_of_state _ _
            (allocated_wait_for_transfer_to_finish rt s1 c1 h1)
        · intro s2 c2 hw _
          obtain ⟨e2, _⟩ := wait_for_transfer_to_finish_returned rt s1 s2 c1 c2 hw
          apply allocated_set_size_catch
          · exact set_size_try_quiet rt n _ c2 rfl (by rw [e2])
          · intro s' c' hr
            obtain ⟨e1, e3, e4, _⟩ := set_size_try_returned rt n _ s' c2 c' hr
            simp [gpu_data.allocated, e1, e3, e4, fresh_block_length, h0]
    · rw [if_neg hn]
      exact h

theorem allocated_run_op {α : Type} (rt : cuda_runtime α) (o : gpu_op) (s : gpu_data α)
    (h : s.allocated) : (run_op rt o s).alive gpu_data.allocated := by
  cases o with
  | host => exact outcome.alive_of_state _ _ (allocated_copy_to_host rt s [] h)
  | host_mut =>
    apply outcome.andThen_alive
    · exact outcome.alive_of_state _ _ (allocated_copy_to_host rt s [] h)
    · intro s1 c1 _ h1; exact allocated_congr s1 _ h1 rfl rfl rfl
  | device => exact outcome.alive_of_state _ _ (allocated_copy_to_device rt s [] h)
  | device_mut =>
    apply outcome.andThen_alive
    · exact outcome.alive_of_state _ _ (allocated_copy_to_device rt s [] h)
    · intro s1 c1 _ h1; exact allocated_congr s1 _ h1 rfl rfl rfl
  | async_copy_to_device =>
    exact outcome.alive_of_state _ _ (allocated_async_copy_to_device rt s [] h)
  | wait_for_transfer_to_finish =>
    exact outcome.alive_of_state _ _ (allocated_wait_for_transfer_to_finish rt s [] h)
  | copy_to_device => exact outcome.alive_of_state _ _ (allocated_copy_to_device rt s [] h)
  | set_size n => exact allocated_set_size rt n s [] h

/-- Every state reached from a freshly constructed instance has its buffers in step with
its size. -/
theorem allocated_run_ops {α : Type} (ops : List (cuda_runtime α × gpu_op)) :
    ∀ s s' : gpu_data α, s.allocated → run_ops ops s = some s' → s'.allocated := by
  induction ops with
  | nil =>
    intro s s' h hr
    simp only [run_ops, Option.some.injEq] at hr
    exact hr ▸ h
  | cons x rest ih =>
    intro s s' h hr
    obtain ⟨rt, o⟩ := x
    have h1 := allocated_run_op rt o s h
    simp only [run_ops] at hr
    cases hro : run_op rt o s with
    | returned s1 c1 =>
      rw [hro] at hr h1
      exact ih s1 s' h1 hr
    | thrown s1 c1 =>
      rw [hro] at hr h1
      exact ih s1 s' h1 hr
    | aborted s1 c1 => rw [hro] at hr; cases hr
    | check_failed s1 c1 => rw [hro] at hr; cases hr

/-! ### C11 to C13: starting and awaiting a transfer -/

/-- C11.  With `device_current == true`, `async_copy_to_device()` is a no-op: the object is
returned exactly as it was (size, blocks, all four flags) and no CUDA call is made, so no
copy and no fence, whatever the runtime would answer. -/
theorem async_copy_to_device_of_current {α : Type} (rt : cuda_runtime α) (s : gpu_data α)
    (calls : List cuda_call) (h : s.device_current = true) :
    async_copy_to_device rt s calls = .returned s calls := by
  unfold async_copy_to_device
  rw [if_neg (by simp [h])]

/-- C11, at an instance with a pending transfer and at one with the device marked in use,
under a runtime in which every call would fail. -/
theorem async_copy_to_device_of_current_witness :
    async_copy_to_device cuda_failing transfer_pending2 [] = .returned transfer_pending2 [] ∧
    async_copy_to_device cuda_failing { resized2 with device_in_use := true } [] =
      .returned { resized2 with device_in_use := true } [] :=
  ⟨async_copy_to_device_of_current cuda_failing transfer_pending2 [] (by decide),
   async_copy_to_device_of_current cuda_failing { resized2 with device_in_use := true } []
     (by decide)⟩

/-- C12, as amended.  Take a state with `device_current == false` whose byte count
`size()*sizeof(float)` fits `size_t`.  A returning `async_copy_to_device()` has made these
calls and no others: `cudaStreamSynchronize(0)` on the default stream exactly when
`device_in_use` was true, then one `cudaMemcpyAsync` host to device of `size()` floats on
the handle held in `cuda_stream`: the created transfer stream when one is held, the null
stream when none has been created.  No created stream is synchronised.  It ends with
`have_active_transfer`, `device_current` true, `device_in_use` false, and `host_current`
and the size unchanged.  The function returns when the CUDA calls succeed. -/
theorem async_copy_to_device_of_stale {α : Type} (rt : cuda_runtime α) (s : gpu_data α)
    (calls : List cuda_call) (h : s.device_current = false)
    (hb : s.size * sizeof_float < 2 ^ 64) :
    (∀ s' c', async_copy_to_device rt s calls = .returned s' c' →
      (∃ new, c' = calls ++ new ∧
        new = (if s.device_in_use then [cuda_call.cudaStreamSynchronize none] else []) ++
          [.cudaMemcpyAsync (s.size * sizeof_float) .cudaMemcpyHostToDevice
            s.cuda_stream] ∧
        (cuda_call.cudaStreamSynchronize none ∈ new ↔ s.device_in_use = true) ∧
        (∀ q, cuda_call.cudaStreamSynchronize (some q) ∉ new) ∧
        new.filter cuda_call.is_copy =
          [.cudaMemcpyAsync (s.size * sizeof_float) .cudaMemcpyHostToDevice
            s.cuda_stream] ∧
        (∀ q, s.cuda_stream = some q →
          new.filter cuda_call.is_copy =
            [.cudaMemcpyAsync (s.size * sizeof_float) .cudaMemcpyHostToDevice (some q)]) ∧
        (s.cuda_stream = none →
          new.filter cuda_call.is_copy =
            [.cudaMemcpyAsync (s.size * sizeof_float) .cudaMemcpyHostToDevice none])) ∧
      s'.have_active_transfer = true ∧ s'.device_current = true ∧
      s'.device_in_use = false ∧ s'.host_current = s.host_current ∧
      s'.size = s.size) ∧
    (rt.succeeds → ∃ s' c', async_copy_to_device rt s calls = .returned s' c') := by
  refine ⟨?_, fun hrt => async_copy_to_device_succeeds rt hrt s calls⟩
  intro s' c' hr
  have hbc : byte_count s.data_size = s.size * sizeof_float := Nat.mod_eq_of_lt hb
  obtain ⟨rfl, rfl⟩ := async_copy_to_device_returned rt s s' calls c' hr
  simp only [h, Bool.false_eq_true, if_false, and_self, and_true, gpu_data.size]
  have hf : ((if s.device_in_use = true then [cuda_call.cudaStreamSynchronize none]
      else []) ++ [cuda_call.cudaMemcpyAsync (s.data_size * sizeof_float)
        cudaMemcpyKind.cudaMemcpyHostToDevice s.cuda_stream]).filter cuda_call.is_copy =
      [cuda_call.cudaMemcpyAsync (s.data_size * sizeof_float)
        cudaMemcpyKind.cudaMemcpyHostToDevice s.cuda_stream] := by
    by_cases hu : s.device_in_use = true <;> simp [hu, cuda_call.is_copy]
  refine ⟨_, by rw [hbc]; rfl, rfl, ?_, ?_, hf, ?_, ?_⟩
  · by_cases hu : s.device_in_use = true <;> simp [hu]
  · intro q
    by_cases hu : s.device_in_use = true <;> simp [hu]
  · intro q hq
    rw [hf, hq]
  · intro hq
    rw [hf, hq]

/-- C12, as amended, at a host-written instance of two floats whose device block is marked
in use: the default stream is fenced, then the copy of 8 bytes, two floats, is queued on
stream 1. -/
theorem async_copy_to_device_of_stale_witness :
    async_copy_to_device cuda_ok host_written_in_use2 [] =
      .returned transfer_pending2
        [.cudaStreamSynchronize none,
         .cudaMemcpyAsync 8 .cudaMemcpyHostToDevice (some 1)] ∧
    host_written_in_use2.size * sizeof_float = 8 ∧
    transfer_pending2.have_active_transfer = true ∧
    transfer_pending2.device_current = true ∧
    transfer_pending2.device_in_use = false :=
  ⟨by decide, by decide,
   ((async_copy_to_device_of_stale cuda_ok host_written_in_use2 [] (by decide)
      (by decide)).1
      transfer_pending2
      [.cudaStreamSynchronize none, .cudaMemcpyAsync 8 .cudaMemcpyHostToDevice (some 1)]
      (by decide)).2.1,
   by decide, by decide⟩

/-- C12 fails on an instance that holds no created stream.  After a mutable host access on
a fresh instance, `async_copy_to_device()` queues its copy on the null stream, which is the
default stream: no transfer queue exists for it to go onto.  When the device block is also
marked in use, the null stream is both the stream that is fenced and the stream that gets
the copy, so there is no queue `T` that is never fenced and receives the copy. -/
theorem async_copy_to_device_on_null_stream :
    run_ops [(cuda_ok, .host_mut)] gpu_data.new = some empty_host_written ∧
    empty_host_written.device_current = false ∧
    empty_host_written.cuda_stream = none ∧
    (async_copy_to_device cuda_ok empty_host_written []).calls =
      [.cudaMemcpyAsync 0 .cudaMemcpyHostToDevice none] ∧
    empty_host_written_in_use.device_current = false ∧
    (async_copy_to_device cuda_ok empty_host_written_in_use []).calls =
      [.cudaStreamSynchronize none, .cudaMemcpyAsync 0 .cudaMemcpyHostToDevice none] ∧
    ¬ ∃ T, cuda_call.cudaStreamSynchronize T ∉
          (async_copy_to_device cuda_ok empty_host_written_in_use []).calls ∧
        ∃ k, cuda_call.cudaMemcpyAsync k .cudaMemcpyHostToDevice T ∈
          (async_copy_to_device cuda_ok empty_host_written_in_use []).calls := by
  have e : (async_copy_to_device cuda_ok empty_host_written_in_use []).calls =
      [.cudaStreamSynchronize none, .cudaMemcpyAsync 0 .cudaMemcpyHostToDevice none] := by
    decide
  refine ⟨by decide, by decide, by decide, by decide, by decide, e, ?_⟩
  rintro ⟨T, h1, k, h2⟩
  rw [e] at h1 h2
  simp only [List.mem_cons, List.mem_singleton, cuda_call.cudaMemcpyAsync.injEq,
    List.not_mem_nil, or_false, false_or, reduceCtorEq] at h2
  rw [h2.2.2] at h1
  exact h1 (by simp)

/-- C13.  `wait_for_transfer_to_finish()`: with `have_active_transfer` false it returns the
object as it was and makes no call at all, not even the error check.  With
`have_active_transfer` true it synchronises the stream held in `cuda_stream`; if that fails
it leaves with the flag still set; otherwise it clears the flag and only then calls
`cudaGetLastError`, an error found there being fatal for the call, which leaves by an
exception with the flag already cleared.  In every case the size, `host_current`,
`device_current` and `device_in_use` are as before. -/
theorem wait_for_transfer_to_finish_cases {α : Type} (rt : cuda_runtime α) (s : gpu_data α)
    (calls : List cuda_call) :
    (s.have_active_transfer = false →
      wait_for_transfer_to_finish rt s calls = .returned s calls) ∧
    (s.have_active_transfer = true →
      (rt.status (calls ++ [.cudaStreamSynchronize s.cuda_stream]) = false →
        wait_for_transfer_to_finish rt s calls =
          .thrown s (calls ++ [.cudaStreamSynchronize s.cuda_stream])) ∧
      (rt.status (calls ++ [.cudaStreamSynchronize s.cuda_stream]) = true →
        rt.status (calls ++ [.cudaStreamSynchronize s.cuda_stream] ++
          [.cudaGetLastError]) = true →
        wait_for_transfer_to_finish rt s calls =
          .returned { s with have_active_transfer := false }
            (calls ++ [.cudaStreamSynchronize s.cuda_stream] ++ [.cudaGetLastError])) ∧
      (rt.status (calls ++ [.cudaStreamSynchronize s.cuda_stream]) = true →
        rt.status (calls ++ [.cudaStreamSynchronize s.cuda_stream] ++
          [.cudaGetLastError]) = false →
        wait_for_transfer_to_finish rt s calls =
          .thrown { s with have_active_transfer := false }
            (calls ++ [.cudaStreamSynchronize s.cuda_stream] ++ [.cudaGetLastError]))) ∧
    ((wait_for_transfer_to_finish rt s calls).state.data_size = s.data_size ∧
      (wait_for_transfer_to_finish rt s calls).state.host_current = s.host_current ∧
      (wait_for_transfer_to_finish rt s calls).state.device_current = s.device_current ∧
      (wait_for_transfer_to_finish rt s calls).state.device_in_use = s.device_in_use) := by
  refine ⟨?_, ?_, ?_⟩
  · intro ha
    unfold wait_for_transfer_to_finish
    rw [if_neg (by simp [ha])]
  · intro ha
    unfold wait_for_transfer_to_finish CHECK_CUDA
    rw [if_pos ha]
    refine ⟨?_, ?_, ?_⟩
    · intro h1
      simp only [h1, Bool.false_eq_true, if_false, outcome.andThen]
    · intro h1 h2
      simp only [h1, h2, if_true, outcome.andThen]
    · intro h1 h2
      simp only [h1, h2, if_true, Bool.false_eq_true, if_false, outcome.andThen]
  · unfold wait_for_transfer_to_finish
    by_cases ha : s.have_active_transfer = true
    · rw [if_pos ha]
      apply outcome.andThen_state
        (fun t : gpu_data α => t.data_size = s.data_size ∧
          t.host_current = s.host_current ∧ t.device_current = s.device_current ∧
          t.device_in_use = s.device_in_use)
      · rw [CHECK_CUDA_state]; exact ⟨rfl, rfl, rfl, rfl⟩
      · intro s1 c1 h1
        rw [CHECK_CUDA_state]; exact h1
    · rw [if_neg ha]
      exact ⟨rfl, rfl, rfl, rfl⟩

/-- C13, at an instance with a pending transfer: under a runtime whose calls succeed the
stream is fenced and the error check made; under a runtime where an earlier launch has
failed the check raises the exception after the flag is cleared. -/
theorem wait_for_transfer_to_finish_cases_witness :
    wait_for_transfer_to_finish cuda_ok transfer_pending2 [] =
      .returned { transfer_pending2 with have_active_transfer := false }
        ([] ++ [.cudaStreamSynchronize transfer_pending2.cuda_stream] ++
          [.cudaGetLastError]) ∧
    wait_for_transfer_to_finish cuda_async_error transfer_pending2 [] =
      .thrown { transfer_pending2 with have_active_transfer := false }
        ([] ++ [.cudaStreamSynchronize transfer_pending2.cuda_stream] ++
          [.cudaGetLastError]) ∧
    wait_for_transfer_to_finish cuda_failing resized2 [] = .returned resized2 [] :=
  ⟨((wait_for_transfer_to_finish_cases cuda_ok transfer_pending2 []).2.1 (by decide)).2.1
      (by decide) (by decide),
   ((wait_for_transfer_to_finish_cases cuda_async_error transfer_pending2 []).2.1
      (by decide)).2.2 (by decide) (by decide),
   (wait_for_transfer_to_finish_cases cuda_failing resized2 []).1 (by decide)⟩

/-! ### C14 to C19: resizing -/

/-- The fence of the default stream that precedes overwriting or freeing the device block:
what it has done when it returns. -/
theorem fence_returned {α : Type} (rt : cuda_runtime α) (s s' : gpu_data α)
    (calls c' : List cuda_call)
    (h : (if s.device_in_use then
        (CHECK_CUDA rt (.cudaStreamSynchronize none) s calls).andThen fun s calls =>
        .returned { s with device_in_use := false } calls
      else
        outcome.returned s calls) = .returned s' c') :
    s' = { s with device_in_use := false } ∧
    c' = calls ++ (if s.device_in_use then [.cudaStreamSynchronize none] else []) := by
  by_cases hu : s.device_in_use = true
  · rw [if_pos hu] at h
    simp only [outcome.andThen_eq_returned, CHECK_CUDA_eq_returned,
      outcome.returned.injEq] at h
    obtain ⟨s1, c1, ⟨_, rfl, rfl⟩, rfl, rfl⟩ := h
    simp [hu]
  · rw [if_neg hu] at h
    simp only [outcome.returned.injEq] at h
    obtain ⟨rfl, rfl⟩ := h
    simp only [Bool.not_eq_true] at hu
    cases s
    simp_all

theorem fence_succeeds {α : Type} (rt : cuda_runtime α) (hrt : rt.succeeds) (s : gpu_data α)
    (calls : List cuda_call) :
    ∃ s' c', (if s.device_in_use then
        (CHECK_CUDA rt (.cudaStreamSynchronize none) s calls).andThen fun s calls =>
        .returned { s with device_in_use := false } calls
      else
        outcome.returned s calls) = .returned s' c' := by
  split_ifs
  · rw [CHECK_CUDA_succeeds rt hrt]; exact ⟨_, _, rfl⟩
  · exact ⟨_, _, rfl⟩

/-- What `set_size(0)` has done when it returns. -/
theorem set_size_zero_returned {α : Type} (rt : cuda_runtime α) (s s' : gpu_data α)
    (calls c' : List cuda_call) (h : set_size_zero rt s calls = .returned s' c') :
    s' = { s with data_size := 0, host_current := true, device_current := true,
                  have_active_transfer := false, device_in_use := false,
                  data_host := none, data_device := none } ∧
    c' = calls ++ (if s.device_in_use then [.cudaStreamSynchronize none] else []) ++
      (if s.have_active_transfer then
        [.cudaStreamSynchronize s.cuda_stream, .cudaGetLastError] else []) ++
      reset_calls s.data_host .cudaFreeHost ++ reset_calls s.data_device .cudaFree := by
  unfold set_size_zero at h
  simp only [outcome.andThen_eq_returned, outcome.returned.injEq] at h
  obtain ⟨s1, c1, hf, s2, c2, hw, rfl, rfl⟩ := h
  obtain ⟨rfl, rfl⟩ := fence_returned rt s s1 calls c1 hf
  obtain ⟨rfl, rfl⟩ := wait_for_transfer_to_finish_returned rt _ s2 _ c2 hw
  exact ⟨rfl, rfl⟩

theorem set_size_zero_succeeds {α : Type} (rt : cuda_runtime α) (hrt : rt.succeeds)
    (s : gpu_data α) (calls : List cuda_call) :
    ∃ s' c', set_size_zero rt s calls = .returned s' c' := by
  unfold set_size_zero
  obtain ⟨s1, c1, h1⟩ := fence_succeeds rt hrt s calls
  rw [h1, outcome.andThen_returned, wait_for_transfer_to_finish_succeeds rt hrt,
    outcome.andThen_returned]
  exact ⟨_, _, rfl⟩

theorem set_size_try_succeeds {α : Type} (rt : cuda_runtime α) (hrt : rt.succeeds)
    (n : Nat) (s : gpu_data α) (calls : List cuda_call) :
    ∃ s' c', set_size_try rt n s calls = .returned s' c' := by
  unfold set_size_try
  simp only [CHECK_CUDA_succeeds rt hrt, outcome.andThen_returned]
  split_ifs
  · exact ⟨_, _, rfl⟩
  · exact ⟨_, _, rfl⟩

theorem set_size_succeeds {α : Type} (rt : cuda_runtime α) (hrt : rt.succeeds)
    (n : Nat) (s : gpu_data α) (calls : List cuda_call) :
    ∃ s' c', set_size rt n s calls = .returned s' c' := by
  unfold set_size
  by_cases h0 : n = 0
  · rw [if_pos h0]; exact set_size_zero_succeeds rt hrt s calls
  · rw [if_neg h0]
    by_cases hn : n ≠ s.data_size
    · rw [if_pos hn]
      obtain ⟨s1, c1, h1⟩ := fence_succeeds rt hrt s calls
      rw [h1, outcome.andThen_returned, wait_for_transfer_to_finish_succeeds rt hrt,
        outcome.andThen_returned]
      dsimp only
      obtain ⟨s2, c2, h2⟩ := set_size_try_succeeds rt hrt n
        { s1 with have_active_transfer := false, data_size := n, host_current := true,
                  device_current := true, device_in_use := false }
        (c1 ++ if s1.have_active_transfer = true then
          [cuda_call.cudaStreamSynchronize s1.cuda_stream, cuda_call.cudaGetLastError]
        else [])
      rw [h2]
      exact ⟨_, _, rfl⟩
    · rw [if_neg hn]; exact ⟨_, _, rfl⟩

/-- What the `try` block has done when it returns. -/
theorem set_size_try_returned_calls {α : Type} (rt : cuda_runtime α) (n : Nat)
    (s s' : gpu_data α) (calls c' : List cuda_call)
    (h : set_size_try rt n s calls = .returned s' c') :
    s' = { s with the_device_id := rt.device_id,
                  data_host := some (fresh_block rt.host_block (byte_count n)),
                  data_device := some (fresh_block rt.device_block (byte_count n)),
                  cuda_stream :=
                    (if s.cuda_stream.isNone then some rt.stream else s.cuda_stream) } ∧
    c' = calls ++ [.cudaGetDevice, .cudaMallocHost (byte_count n)] ++
      reset_calls s.data_host .cudaFreeHost ++ [.cudaMalloc (byte_count n)] ++
      reset_calls s.data_device .cudaFree ++
      (if s.cuda_stream.isNone then [.cudaStreamCreateWithFlags] else []) := by
  unfold set_size_try at h
  simp only [outcome.andThen_eq_returned, CHECK_CUDA_eq_returned] at h
  by_cases hn : s.cuda_stream.isNone = true
  · obtain ⟨s1, c1, ⟨_, e1, rfl⟩, s2, c2, ⟨_, e2, rfl⟩, s3, c3, ⟨_, e3, rfl⟩, h⟩ := h
    subst e3 e2 e1
    rw [if_pos hn] at h
    simp only [outcome.andThen_eq_returned, CHECK_CUDA_eq_returned,
      outcome.returned.injEq] at h
    obtain ⟨s4, c4, ⟨_, e4, rfl⟩, rfl, rfl⟩ := h
    subst e4
    simp [hn]
  · obtain ⟨s1, c1, ⟨_, e1, rfl⟩, s2, c2, ⟨_, e2, rfl⟩, s3, c3, ⟨_, e3, rfl⟩, h⟩ := h
    subst e3 e2 e1
    rw [if_neg hn] at h
    simp only [outcome.returned.injEq] at h
    obtain ⟨rfl, rfl⟩ := h
    simp [hn]

theorem set_size_catch_returned {α : Type} (rt : cuda_runtime α) (o : outcome (gpu_data α))
    (s' : gpu_data α) (c' : List cuda_call) (h : set_size_catch rt o = .returned s' c') :
    o = .returned s' c' := by
  cases o with
  | thrown s calls =>
    unfold set_size_catch at h
    simp only [outcome.andThen_eq_returned] at h
    obtain ⟨s1, c1, _, h2⟩ := h
    cases h2
  | returned s calls => exact h
  | aborted s calls => cases h
  | check_failed s calls => cases h

/-- What a `set_size(n)` that reallocates (`n != 0`, `n != data_size`) has done when it
returns. -/
theorem set_size_resize_returned {α : Type} (rt : cuda_runtime α) (n : Nat)
    (s s' : gpu_data α) (calls c' : List cuda_call) (h0 : n ≠ 0) (hn : n ≠ s.data_size)
    (h : set_size rt n s calls = .returned s' c') :
    s' = { data_size := n, host_current := true, device_current := true,
           have_active_transfer := false, device_in_use := false,
           the_device_id := rt.device_id,
           data_host := some (fresh_block rt.host_block (byte_count n)),
           data_device := some (fresh_block rt.device_block (byte_count n)),
           cuda_stream :=
             (if s.cuda_stream.isNone then some rt.stream else s.cuda_stream) } ∧
    c' = calls ++ (if s.device_in_use then [.cudaStreamSynchronize none] else []) ++
      (if s.have_active_transfer then
        [.cudaStreamSynchronize s.cuda_stream, .cudaGetLastError] else []) ++
      [.cudaGetDevice, .cudaMallocHost (byte_count n)] ++
      reset_calls s.data_host .cudaFreeHost ++ [.cudaMalloc (byte_count n)] ++
      reset_calls s.data_device .cudaFree ++
      (if s.cuda_stream.isNone then [.cudaStreamCreateWithFlags] else []) := by
  unfold set_size at h
  rw [if_neg h0, if_pos hn] at h
  simp only [outcome.andThen_eq_returned] at h
  obtain ⟨s1, c1, hf, s2, c2, hw, ht⟩ := h
  obtain ⟨rfl, rfl⟩ := fence_returned rt s s1 calls c1 hf
  obtain ⟨rfl, rfl⟩ := wait_for_transfer_to_finish_returned rt _ s2 _ c2 hw
  have ht2 := set_size_catch_returned rt _ s' c' ht
  obtain ⟨rfl, rfl⟩ := set_size_try_returned_calls rt n _ s' _ c' ht2
  exact ⟨rfl, rfl⟩

/-- C14, as amended.  Whatever the state before, a returning `set_size(0)` leaves
`size() == 0`, both blocks released (so `host()` and `device()`, which then synchronise
nothing, hand out null pointers), `host_current` and `device_current` true, `device_in_use`
and `have_active_transfer` false, and the stream held as before.  The calls it made are, in
this order: `cudaStreamSynchronize(0)` exactly when `device_in_use` was true, the fence of
the handle in `cuda_stream` with its error check exactly when a transfer was pending, then
the deleter of each block that was held.  So a created stream was fenced iff it is the one
held and a transfer was pending, and the default stream was fenced iff `device_in_use` was
true or a transfer was pending on an instance that holds no created stream.  When a created
stream is held, the default stream was fenced iff `device_in_use` was true and the held
stream iff a transfer was pending.  The call returns when the CUDA calls succeed. -/
theorem set_size_zero_resets {α : Type} (rt rt1 rt2 : cuda_runtime α) (s : gpu_data α)
    (calls k1 k2 : List cuda_call) :
    (∀ s' c', set_size rt 0 s calls = .returned s' c' →
      s'.size = 0 ∧ s'.data_host = none ∧ s'.data_device = none ∧
      s'.host_current = true ∧ s'.device_current = true ∧
      s'.device_in_use = false ∧ s'.have_active_transfer = false ∧
      s'.cuda_stream = s.cuda_stream ∧
      host rt1 s' k1 = .returned s' k1 ∧ device rt2 s' k2 = .returned s' k2 ∧
      ∃ new, c' = calls ++ new ∧
        new = (if s.device_in_use then [.cudaStreamSynchronize none] else []) ++
          (if s.have_active_transfer then
            [.cudaStreamSynchronize s.cuda_stream, .cudaGetLastError] else []) ++
          reset_calls s.data_host .cudaFreeHost ++ reset_calls s.data_device .cudaFree ∧
        (cuda_call.cudaStreamSynchronize none ∈ new ↔
          s.device_in_use = true ∨
            (s.have_active_transfer = true ∧ s.cuda_stream = none)) ∧
        (∀ q, cuda_call.cudaStreamSynchronize (some q) ∈ new ↔
          s.have_active_transfer = true ∧ s.cuda_stream = some q) ∧
        (∀ q, s.cuda_stream = some q →
          (cuda_call.cudaStreamSynchronize none ∈ new ↔ s.device_in_use = true) ∧
          (cuda_call.cudaStreamSynchronize (some q) ∈ new ↔
            s.have_active_transfer = true))) ∧
    (rt.succeeds → ∃ s' c', set_size rt 0 s calls = .returned s' c') := by
  constructor
  · intro s' c' h
    unfold set_size at h
    rw [if_pos rfl] at h
    obtain ⟨rfl, rfl⟩ := set_size_zero_returned rt s s' calls c' h
    have hr : ∀ (β : Type) (held : Option β) (free x : cuda_call),
        free.releases_block = true → x.releases_block = false →
        x ∉ reset_calls held free := by
      intro β held free x hfree hx hmem
      unfold reset_calls at hmem
      split_ifs at hmem
      · simp only [List.mem_singleton] at hmem
        rw [hmem, hfree] at hx
        cases hx
      · cases hmem
    have h1 : ∀ q, cuda_call.cudaStreamSynchronize q ∈
        (if s.device_in_use then [cuda_call.cudaStreamSynchronize none] else []) ++
          (if s.have_active_transfer then
            [cuda_call.cudaStreamSynchronize s.cuda_stream, cuda_call.cudaGetLastError]
            else []) ++
          reset_calls s.data_host cuda_call.cudaFreeHost ++
          reset_calls s.data_device cuda_call.cudaFree ↔
        (s.device_in_use = true ∧ q = none) ∨
          (s.have_active_transfer = true ∧ s.cuda_stream = q) := by
      intro q
      have r1 := hr _ s.data_host cuda_call.cudaFreeHost (cuda_call.cudaStreamSynchronize q)
        rfl rfl
      have r2 := hr _ s.data_device cuda_call.cudaFree (cuda_call.cudaStreamSynchronize q)
        rfl rfl
      by_cases hu : s.device_in_use = true <;> by_cases ha : s.have_active_transfer = true <;>
        simp [hu, ha, r1, r2, eq_comm]
    refine ⟨rfl, rfl, rfl, rfl, rfl, rfl, rfl, rfl, ?_, ?_, _, ?_, rfl, ?_, ?_, ?_⟩
    · unfold host copy_to_host
      rw [if_neg (by simp)]
    · unfold device copy_to_device async_copy_to_device
      rw [if_neg (by simp), outcome.andThen_returned]
      unfold wait_for_transfer_to_finish
      rw [if_neg (by simp)]
    · simp only [List.append_assoc]
    · rw [h1]
      simp
    · intro q
      rw [h1]
      simp
    · intro q hq
      rw [h1, h1, hq]
      simp
  · intro hrt
    exact set_size_succeeds rt hrt 0 s calls

/-- C14, as amended, at an instance of two floats with the device marked in use and a
transfer pending: both fences are made, then both blocks are freed. -/
theorem set_size_zero_resets_witness :
    set_size cuda_ok 0 busy2 [] =
      .returned { (gpu_data.new : gpu_data Nat) with cuda_stream := some 1 }
        [.cudaStreamSynchronize none, .cudaStreamSynchronize (some 1), .cudaGetLastError,
         .cudaFreeHost, .cudaFree] ∧
    ({ (gpu_data.new : gpu_data Nat) with cuda_stream := some 1 } : gpu_data Nat).size = 0 :=
  ⟨by decide,
   ((set_size_zero_resets cuda_ok cuda_ok cuda_ok busy2 [] [] []).1
      { (gpu_data.new : gpu_data Nat) with cuda_stream := some 1 }
      [.cudaStreamSynchronize none, .cudaStreamSynchronize (some 1), .cudaGetLastError,
       .cudaFreeHost, .cudaFree] (by decide)).1⟩

/-- C14 fails on an instance that holds no created stream.  A fresh instance after a
mutable host access and `async_copy_to_device()` has a transfer pending on the null stream
and `device_in_use == false`; `set_size(0)` then fences that pending transfer with
`cudaStreamSynchronize(0)`: the default stream is fenced although `device_in_use` was
false. -/
theorem set_size_zero_fences_null_stream :
    run_ops [(cuda_ok, .host_mut), (cuda_ok, .async_copy_to_device)] gpu_data.new
      = some empty_transfer_pending ∧
    empty_transfer_pending.device_in_use = false ∧
    set_size cuda_ok 0 empty_transfer_pending [] =
      .returned gpu_data.new [.cudaStreamSynchronize none, .cudaGetLastError] ∧
    ¬ (cuda_call.cudaStreamSynchronize none ∈
        (set_size cuda_ok 0 empty_transfer_pending []).calls ↔
      empty_transfer_pending.device_in_use = true) := by
  refine ⟨by decide, by decide, by decide, by decide⟩

/-- The resize of C15 for the sizes whose byte count fits `size_t`: with `n != 0`,
`n != size()` and `n*sizeof(float) < 2^64`, a returning `set_size(n)` leaves `size() == n`,
a host block and a device block of exactly `n` floats each, both freshness flags true,
`device_in_use` and `have_active_transfer` false, and a stream held. -/
theorem set_size_resize_within_size_t {α : Type} (rt : cuda_runtime α) (n : Nat)
    (s : gpu_data α) (calls : List cuda_call) (h0 : n ≠ 0) (hn : n ≠ s.data_size)
    (hb : n * sizeof_float < 2 ^ 64) :
    (∀ s' c', set_size rt n s calls = .returned s' c' →
      s'.size = n ∧
      (∃ a b, s'.data_host = some a ∧ s'.data_device = some b ∧
        a.length = n ∧ b.length = n) ∧
      s'.host_current = true ∧ s'.device_current = true ∧
      s'.device_in_use = false ∧ s'.have_active_transfer = false ∧
      s'.cuda_stream.isSome = true) ∧
    (rt.succeeds → ∃ s' c', set_size rt n s calls = .returned s' c') := by
  constructor
  · intro s' c' h
    obtain ⟨rfl, _⟩ := set_size_resize_returned rt n s s' calls c' h0 hn h
    have hlen : byte_count n / sizeof_float = n := by
      unfold byte_count
      rw [Nat.mod_eq_of_lt hb]
      exact Nat.mul_div_cancel n (by decide)
    refine ⟨rfl, ⟨_, _, rfl, rfl, ?_, ?_⟩, rfl, rfl, rfl, rfl, ?_⟩
    · rw [fresh_block_length, hlen]
    · rw [fresh_block_length, hlen]
    · cases hs : s.cuda_stream <;> simp
  · intro hrt
    exact set_size_succeeds rt hrt n s calls

/-- C15 fails at `n = 2^62 + 1`.  On a fresh instance every allocation of a
`set_size(2^62 + 1)` succeeds, yet `n*sizeof(float)` wraps to 4 bytes in `size_t`: the call
returns with `size() == 2^62 + 1` and a host block and a device block of one float each. -/
theorem set_size_blocks_shorter_than_size :
    set_size cuda_ok (2 ^ 62 + 1) gpu_data.new [] =
      .returned wrapped_size
        [.cudaGetDevice, .cudaMallocHost 4, .cudaMalloc 4, .cudaStreamCreateWithFlags] ∧
    wrapped_size.size = 2 ^ 62 + 1 ∧
    wrapped_size.data_host = some [7] ∧ wrapped_size.data_device = some [9] := by
  refine ⟨by decide, by decide, rfl, rfl⟩

/-- C16, as amended.  With `n == size()` and `n != 0`, `set_size(n)` is a no-op: the object
is returned as it was (blocks, `host_current`, `device_current`, `device_in_use`,
`have_active_transfer`) and no CUDA call is made, so no fence.  With `n == 0` on an already
empty instance the zero branch runs: it is a no-op exactly when the flags already have their
reset values (`host_current`, `device_current` true, `device_in_use`,
`have_active_transfer` false) and both pointers are null. -/
theorem set_size_same_size {α : Type} (rt : cuda_runtime α) (n : Nat) (s : gpu_data α)
    (calls : List cuda_call) (hn : n = s.data_size) :
    (n ≠ 0 → set_size rt n s calls = .returned s calls) ∧
    (n = 0 →
      (set_size rt n s calls = .returned s calls ↔
        s.host_current = true ∧ s.device_current = true ∧ s.device_in_use = false ∧
        s.have_active_transfer = false ∧ s.data_host = none ∧ s.data_device = none)) := by
  constructor
  · intro h0
    unfold set_size
    rw [if_neg h0, if_neg (by simp [hn])]
  · intro h0
    subst h0
    unfold set_size
    rw [if_pos rfl]
    constructor
    · intro h
      obtain ⟨e, _⟩ := set_size_zero_returned rt s s calls calls h
      refine ⟨?_, ?_, ?_, ?_, ?_, ?_⟩
      · rw [e]
      · rw [e]
      · rw [e]
      · rw [e]
      · rw [e]
      · rw [e]
    · rintro ⟨h1, h2, h3, h4, h5, h6⟩
      rw [set_size_zero_quiet rt s calls h3 h4]
      cases s
      simp_all [reset_calls]

/-- C16 as amended, at an instance of two floats with a pending transfer (resized to its
own size, under a runtime in which every call would fail) and at a fresh instance. -/
theorem set_size_same_size_witness :
    set_size cuda_failing 2 transfer_pending2 [] = .returned transfer_pending2 [] ∧
    set_size cuda_failing 0 (gpu_data.new : gpu_data Nat) [] = .returned gpu_data.new [] :=
  ⟨(set_size_same_size cuda_failing 2 transfer_pending2 [] (by decide)).1 (by decide),
   ((set_size_same_size cuda_failing 0 (gpu_data.new : gpu_data Nat) [] (by decide)).2
      rfl).2 ⟨rfl, rfl, rfl, rfl, rfl, rfl⟩⟩

/-- C16 as stated fails for `n == 0` on an empty instance.  A mutable host access on a fresh
instance leaves it empty with `device_current` false; `set_size(0)`, for which
`n == size()`, then sets `device_current` back to true.  On an empty instance with the
device marked in use it also fences the default stream. -/
theorem set_size_zero_on_empty_not_noop :
    run_ops [(cuda_ok, .host_mut)] gpu_data.new = some empty_host_written ∧
    empty_host_written.size = 0 ∧
    set_size cuda_ok 0 empty_host_written [] = .returned gpu_data.new [] ∧
    empty_host_written.device_current = false ∧
    (gpu_data.new : gpu_data Nat).device_current = true ∧
    (set_size cuda_ok 0 empty_stale []).calls = [.cudaStreamSynchronize none] := by
  refine ⟨by decide, by decide, by decide, by decide, by decide, by decide⟩

/-- C17, as amended.  After a returning `set_size(n)` with `n != 0` and `n != size()` both
`host_current` and `device_current` are true, whatever the state was before; the call
returns when the CUDA calls succeed. -/
theorem set_size_resize_synced {α : Type} (rt : cuda_runtime α) (n : Nat) (s : gpu_data α)
    (calls : List cuda_call) (h0 : n ≠ 0) (hn : n ≠ s.data_size) :
    (∀ s' c', set_size rt n s calls = .returned s' c' →
      s'.host_current = true ∧ s'.device_current = true) ∧
    (rt.succeeds → ∃ s' c', set_size rt n s calls = .returned s' c') := by
  constructor
  · intro s' c' h
    obtain ⟨rfl, _⟩ := set_size_resize_returned rt n s s' calls c' h0 hn h
    exact ⟨rfl, rfl⟩
  · intro hrt
    exact set_size_succeeds rt hrt n s calls

/-- C17 as amended, at the resize of a DeviceAuthoritative instance of two floats to three
floats. -/
theorem set_size_resize_synced_witness :
    ∃ s' c', set_size cuda_ok 3 device_written2 [] = .returned s' c' ∧
      s'.host_current = true ∧ s'.device_current = true := by
  have h := set_size_resize_synced cuda_ok 3 device_written2 [] (by decide) (by decide)
  obtain ⟨s', c', hr⟩ := h.2 (fun _ => rfl)
  exact ⟨s', c', hr, h.1 s' c' hr⟩

/-- C17 as stated fails when `n` is the current size.  A host-written instance of two
floats is HostAuthoritative; `set_size(2)` returns normally and leaves `device_current`
false. -/
theorem set_size_same_size_not_synced :
    run_ops [(cuda_ok, .set_size 2), (cuda_ok, .host_mut)] gpu_data.new
      = some host_written2 ∧
    set_size cuda_ok 2 host_written2 [] = .returned host_written2 [] ∧
    host_written2.device_current = false := by
  refine ⟨by decide, by decide, by decide⟩

theorem stream_wait_for_transfer_to_finish {α : Type} (rt : cuda_runtime α) (s : gpu_data α)
    (calls : List cuda_call) (q : Nat) (h : s.cuda_stream = some q) :
    (wait_for_transfer_to_finish rt s calls).state.cuda_stream = some q := by
  unfold wait_for_transfer_to_finish
  split_ifs
  · apply outcome.andThen_state (fun t : gpu_data α => t.cuda_stream = some q)
    · rw [CHECK_CUDA_state]; exact h
    · intro s1 c1 h1
      rw [CHECK_CUDA_state]; exact h1
  · exact h

theorem stream_fence {α : Type} (rt : cuda_runtime α) (s : gpu_data α)
    (calls : List cuda_call) (q : Nat) (h : s.cuda_stream = some q) :
    (if s.device_in_use then
      (CHECK_CUDA rt (.cudaStreamSynchronize none) s calls).andThen fun s calls =>
      .returned { s with device_in_use := false } calls
    else
      outcome.returned s calls).state.cuda_stream = some q := by
  split_ifs
  · apply outcome.andThen_state (fun t : gpu_data α => t.cuda_stream = some q)
    · rw [CHECK_CUDA_state]; exact h
    · intro s1 c1 h1; exact h1
  · exact h

theorem stream_set_size_zero {α : Type} (rt : cuda_runtime α) (s : gpu_data α)
    (calls : List cuda_call) (q : Nat) (h : s.cuda_stream = some q) :
    (set_size_zero rt s calls).state.cuda_stream = some q := by
  unfold set_size_zero
  apply outcome.andThen_state (fun t : gpu_data α => t.cuda_stream = some q)
  · exact stream_fence rt s calls q h
  · intro s1 c1 h1
    apply outcome.andThen_state (fun t : gpu_data α => t.cuda_stream = some q)
    · exact stream_wait_for_transfer_to_finish rt s1 c1 q h1
    · intro s2 c2 h2; exact h2

theorem stream_set_size_try {α : Type} (rt : cuda_runtime α) (n : Nat) (s : gpu_data α)
    (calls : List cuda_call) (q : Nat) (h : s.cuda_stream = some q) :
    (set_size_try rt n s calls).state.cuda_stream = some q := by
  unfold set_size_try
  apply outcome.andThen_state (fun t : gpu_data α => t.cuda_stream = some q)
  · rw [CHECK_CUDA_state]; exact h
  · intro s1 c1 h1
    apply outcome.andThen_state (fun t : gpu_data α => t.cuda_stream = some q)
    · rw [CHECK_CUDA_state]; exact h1
    · intro s2 c2 h2
      apply outcome.andThen_state (fun t : gpu_data α => t.cuda_stream = some q)
      · rw [CHECK_CUDA_state]; exact h2
      · intro s3 c3 h3
        have hs : s3.cuda_stream.isNone = false := by rw [h3]; rfl
        dsimp only
        rw [if_neg (by simp [hs])]
        exact h3

theorem stream_set_size_catch {α : Type} (rt : cuda_runtime α) (o : outcome (gpu_data α))
    (q : Nat) (h : o.state.cuda_stream = some q) :
    (set_size_catch rt o).state.cuda_stream = some q := by
  cases o with
  | thrown s3 c3 =>
    apply outcome.andThen_state (fun t : gpu_data α => t.cuda_stream = some q)
    · exact stream_set_size_zero rt s3 c3 q h
    · intro s4 c4 h4; exact h4
  | returned s3 c3 => exact h
  | aborted s3 c3 => exact h
  | check_failed s3 c3 => exact h

theorem stream_set_size {α : Type} (rt : cuda_runtime α) (n : Nat) (s : gpu_data α)
    (calls : List cuda_call) (q : Nat) (h : s.cuda_stream = some q) :
    (set_size rt n s calls).state.cuda_stream = some q := by
  unfold set_size
  by_cases h0 : n = 0
  · rw [if_pos h0]
    exact stream_set_size_zero rt s calls q h
  · rw [if_neg h0]
    by_cases hn : n ≠ s.data_size
    · rw [if_pos hn]
      apply outcome.andThen_state (fun t : gpu_data α => t.cuda_stream = some q)
      · exact stream_fence rt s calls q h
      · intro s1 c1 h1
        apply outcome.andThen_state (fun t : gpu_data α => t.cuda_stream = some q)
        · exact stream_wait_for_transfer_to_finish rt s1 c1 q h1
        · intro s2 c2 h2
          exact stream_set_size_catch rt _ q (stream_set_size_try rt n _ c2 q h2)
    · rw [if_neg hn]
      exact h

theorem reset_calls_count_create {β : Type} (held : Option β) (free : cuda_call)
    (hf : free ≠ .cudaStreamCreateWithFlags) :
    (reset_calls held free).count .cudaStreamCreateWithFlags = 0 := by
  unfold reset_calls
  split_ifs
  · simp [List.count_cons, hf]
  · rfl

/-- C18.  The stream is created at most once and survives every resize.  If a stream is
held, then after `set_size(n)`, for every `n` including 0 and however the call leaves, the
same handle is still held.  A returning `set_size(n)` calls `cudaStreamCreateWithFlags`
once when no stream is held and the call reallocates (`n != 0`, `n != size()`), and not at
all otherwise. -/
theorem set_size_keeps_stream {α : Type} (rt : cuda_runtime α) (n : Nat) (s : gpu_data α)
    (calls : List cuda_call) :
    (∀ q, s.cuda_stream = some q → (set_size rt n s calls).state.cuda_stream = some q) ∧
    (∀ s' c', set_size rt n s calls = .returned s' c' →
      ∃ new, c' = calls ++ new ∧
        new.count .cudaStreamCreateWithFlags =
          (if s.cuda_stream = none ∧ n ≠ 0 ∧ n ≠ s.data_size then 1 else 0)) := by
  refine ⟨fun q hq => stream_set_size rt n s calls q hq, ?_⟩
  intro s' c' h
  by_cases h0 : n = 0
  · subst h0
    unfold set_size at h
    rw [if_pos rfl] at h
    obtain ⟨_, rfl⟩ := set_size_zero_returned rt s s' calls c' h
    refine ⟨(if s.device_in_use then [.cudaStreamSynchronize none] else []) ++
      (if s.have_active_transfer then
        [.cudaStreamSynchronize s.cuda_stream, .cudaGetLastError] else []) ++
      reset_calls s.data_host .cudaFreeHost ++ reset_calls s.data_device .cudaFree,
      by simp only [List.append_assoc], ?_⟩
    have r1 := reset_calls_count_create s.data_host .cudaFreeHost (by simp)
    have r2 := reset_calls_count_create s.data_device .cudaFree (by simp)
    by_cases hu : s.device_in_use = true <;> by_cases ha : s.have_active_transfer = true <;>
      simp [List.count_append, r1, r2, hu, ha]
  · by_cases hn : n ≠ s.data_size
    · obtain ⟨_, rfl⟩ := set_size_resize_returned rt n s s' calls c' h0 hn h
      refine ⟨(if s.device_in_use then [.cudaStreamSynchronize none] else []) ++
        (if s.have_active_transfer then
          [.cudaStreamSynchronize s.cuda_stream, .cudaGetLastError] else []) ++
        [.cudaGetDevice, .cudaMallocHost (byte_count n)] ++
        reset_calls s.data_host .cudaFreeHost ++ [.cudaMalloc (byte_count n)] ++
        reset_calls s.data_device .cudaFree ++
        (if s.cuda_stream.isNone then [.cudaStreamCreateWithFlags] else []),
        by simp only [List.append_assoc], ?_⟩
      have r1 := reset_calls_count_create s.data_host .cudaFreeHost (by simp)
      have r2 := reset_calls_count_create s.data_device .cudaFree (by simp)
      cases hs : s.cuda_stream <;>
        by_cases hu : s.device_in_use = true <;>
        by_cases ha : s.have_active_transfer = true <;>
        simp [List.count_append, r1, r2, hu, ha, h0, hn]
    · unfold set_size at h
      rw [if_neg h0, if_neg hn] at h
      simp only [outcome.returned.injEq] at h
      obtain ⟨_, rfl⟩ := h
      exact ⟨[], by simp, by simp [hn]⟩

/-- C18, at the resizes of an instance of two floats, which holds stream 1, to zero and to
three floats, and at the first resize of a fresh instance, which creates the stream. -/
theorem set_size_keeps_stream_witness :
    (set_size cuda_ok 0 resized2 []).state.cuda_stream = some 1 ∧
    (set_size cuda_ok 3 resized2 []).state.cuda_stream = some 1 ∧
    (set_size cuda_failing 3 resized2 []).state.cuda_stream = some 1 ∧
    ∃ new, [cuda_call.cudaGetDevice, .cudaMallocHost 8, .cudaMalloc 8,
        .cudaStreamCreateWithFlags] = [] ++ new ∧
      new.count .cudaStreamCreateWithFlags =
        (if (gpu_data.new : gpu_data Nat).cuda_stream = none ∧ 2 ≠ 0 ∧
          2 ≠ (gpu_data.new : gpu_data Nat).data_size then 1 else 0) :=
  ⟨(set_size_keeps_stream cuda_ok 0 resized2 []).1 1 rfl,
   (set_size_keeps_stream cuda_ok 3 resized2 []).1 1 rfl,
   (set_size_keeps_stream cuda_failing 3 resized2 []).1 1 rfl,
   (set_size_keeps_stream cuda_ok 2 gpu_data.new []).2 resized2
     [.cudaGetDevice, .cudaMallocHost 8, .cudaMalloc 8, .cudaStreamCreateWithFlags]
     (by decide)⟩

/-- The invariant of C19 as far as it holds: in every state reached from a freshly
constructed instance, the host block is held exactly when `size() > 0`, likewise the device
block, and each block that is held has `size()*sizeof(float)` bytes as `size_t` computes
the product, which is `size()` floats when the product fits `size_t`. -/
theorem buffers_in_step {α : Type} (ops : List (cuda_runtime α × gpu_op)) (s : gpu_data α)
    (h : run_ops ops gpu_data.new = some s) :
    (s.data_host.isSome = true ↔ 0 < s.size) ∧
    (s.data_device.isSome = true ↔ 0 < s.size) ∧
    (∀ a, s.data_host = some a → a.length = byte_count s.size / sizeof_float) ∧
    (∀ b, s.data_device = some b → b.length = byte_count s.size / sizeof_float) ∧
    (s.size * sizeof_float < 2 ^ 64 → byte_count s.size / sizeof_float = s.size) := by
  have ha : s.allocated :=
    allocated_run_ops ops gpu_data.new s (by simp [gpu_data.allocated, gpu_data.new]) h
  have hlen : s.size * sizeof_float < 2 ^ 64 →
      byte_count s.size / sizeof_float = s.size := by
    intro hb
    unfold byte_count
    rw [Nat.mod_eq_of_lt hb]
    exact Nat.mul_div_cancel _ (by decide)
  unfold gpu_data.allocated at ha
  unfold gpu_data.size at hlen ⊢
  cases hh : s.data_host with
  | none =>
    cases hd : s.data_device with
    | none =>
      simp only [hh, hd] at ha
      simp [ha, byte_count, sizeof_float]
    | some d => simp [hh, hd] at ha
  | some x =>
    cases hd : s.data_device with
    | none => simp [hh, hd] at ha
    | some d =>
      simp only [hh, hd] at ha
      obtain ⟨h0, h1, h2⟩ := ha
      refine ⟨by simp [Nat.pos_of_ne_zero h0], by simp [Nat.pos_of_ne_zero h0], ?_, ?_, hlen⟩
      · intro a e; cases e; exact h1
      · intro b e; cases e; exact h2

/-- C19 fails after `set_size(2^62 + 1)`.  The call succeeds on a fresh instance, and in
the state it reaches `size()` is `2^62 + 1` while the host block and the device block hold
one float each; `host()` hands out that block of one float. -/
theorem reachable_block_shorter_than_size :
    run_ops [(cuda_ok, .set_size (2 ^ 62 + 1))] gpu_data.new = some wrapped_size ∧
    wrapped_size.size = 2 ^ 62 + 1 ∧
    host cuda_ok wrapped_size [] = .returned wrapped_size [] ∧
    (wrapped_size.data_host.map List.length) = some 1 ∧
    (wrapped_size.data_device.map List.length) = some 1 := by
  refine ⟨by decide, by decide, by decide, rfl, rfl⟩

/-! ### C20: round trip through the device -/

theorem host_write_succeeds {α : Type} (rt : cuda_runtime α) (hrt : rt.succeeds)
    (i : Nat) (v : α) (s : gpu_data α) (calls : List cuda_call) :
    ∃ s' c', host_write rt i v s calls = .returned s' c' := by
  obtain ⟨s1, c1, h1⟩ := copy_to_host_succeeds rt hrt s calls
  exact ⟨_, _, by unfold host_write host_mut; rw [h1]; rfl⟩

/-- The round trip through the device for the instances whose byte count fits `size_t`.
Take a non-empty instance whose blocks hold `size()` floats each (buffers in step with the
size, the byte count within `size_t`), an index `i < size()` and a value `v`.  Write `v` at element `i` through the mutable `host()`,
force a device sync with the mutable `device()`, then force a host sync with the read-only
`host()`: the host block handed out at the end is the host block as it was right after the
write, it has `size()` floats, and its element `i` is `v`.  The three calls return when the
CUDA calls succeed. -/
theorem host_write_round_trip {α : Type} (rt1 rt2 rt3 : cuda_runtime α) (s : gpu_data α)
    (i : Nat) (v : α) (calls : List cuda_call) (ha : s.allocated)
    (hb : s.size * sizeof_float < 2 ^ 64) (hi : i < s.size) :
    (∀ s1 c1 s2 c2 s3 c3, host_write rt1 i v s calls = .returned s1 c1 →
      device_mut rt2 s1 c1 = .returned s2 c2 → host rt3 s2 c2 = .returned s3 c3 →
      ∃ xs, s1.data_host = some xs ∧ s3.data_host = some xs ∧ xs.length = s.size ∧
        xs[i]? = some v ∧ s3.size = s.size) ∧
    (rt1.succeeds → rt2.succeeds → rt3.succeeds →
      ∃ s1 c1 s2 c2 s3 c3, host_write rt1 i v s calls = .returned s1 c1 ∧
        device_mut rt2 s1 c1 = .returned s2 c2 ∧ host rt3 s2 c2 = .returned s3 c3) := by
  constructor
  · intro s1 c1 s2 c2 s3 c3 hw hd hh
    have hne : s.size ≠ 0 := by omega
    obtain ⟨a, b, hah, hbd, la, lb⟩ := allocated_nonempty s ha hne
    have hlen : byte_count s.size / sizeof_float = s.size := by
      unfold byte_count
      rw [Nat.mod_eq_of_lt hb]
      exact Nat.mul_div_cancel _ (by decide)
    unfold host_write host_mut at hw
    simp only [outcome.andThen_eq_returned, outcome.returned.injEq] at hw
    obtain ⟨s0, c0, ⟨t, ct, hc, rfl, rfl⟩, rfl, rfl⟩ := hw
    obtain ⟨rfl, _⟩ := copy_to_host_returned rt1 s t calls _ hc
    unfold device_mut at hd
    simp only [outcome.andThen_eq_returned, outcome.returned.injEq] at hd
    obtain ⟨u, cu, hcd, rfl, rfl⟩ := hd
    obtain ⟨rfl, _⟩ := copy_to_device_returned rt2 _ u _ _ hcd
    have hblock := host_returned_block rt3 _ s3 _ c3 hh
    have hsize := copy_to_host_returned_size rt3 _ s3 _ c3 hh
    unfold gpu_data.size at hlen la lb hi hsize hblock ⊢
    by_cases hhc : s.host_current = true
    · refine ⟨a.set i v, by simp [hhc, hah], ?_, by simp [la, hlen], ?_, ?_⟩
      · rw [hblock]
        simp only [hhc, if_true, Bool.false_eq_true, if_false, hah, hbd, Option.map_some',
          gpu_data.size]
        rw [copy_floats_full _ b (a.set i v) lb (by simp [la]),
          copy_floats_full _ (a.set i v) (a.set i v) (by simp [la]) (by simp [la])]
      · rw [List.getElem?_set_self (by rw [la, hlen]; exact hi)]
      · rw [hsize]; simp [hhc]
    · have hab : copy_floats (byte_count s.data_size) (some a) (some b) = some b :=
        copy_floats_full _ a b la lb
      refine ⟨b.set i v, by simp [hhc, hah, hbd, hab], ?_, by simp [lb, hlen], ?_, ?_⟩
      · rw [hblock]
        simp only [hhc, Bool.false_eq_true, if_false, hah, hbd, hab, Option.map_some',
          gpu_data.size]
        rw [copy_floats_full _ b (b.set i v) lb (by simp [lb]),
          copy_floats_full _ (b.set i v) (b.set i v) (by simp [lb]) (by simp [lb])]
      · rw [List.getElem?_set_self (by rw [lb, hlen]; exact hi)]
      · rw [hsize]; simp [hhc]
  · intro h1 h2 h3
    obtain ⟨s1, c1, e1⟩ := host_write_succeeds rt1 h1 i v s calls
    obtain ⟨s2, c2, e2⟩ := device_mut_succeeds rt2 h2 s1 c1
    obtain ⟨s3, c3, e3⟩ := host_succeeds rt3 h3 s2 c2
    exact ⟨s1, c1, s2, c2, s3, c3, e1, e2, e3⟩

/-- The round trip at an instance of two floats whose device copy is authoritative: `5`
written at element 1 through the mutable `host()` is still there after the device sync and
the host sync. -/
theorem host_write_round_trip_witness :
    host_write cuda_ok 1 5 device_written2 [] =
      .returned { resized2 with device_current := false, data_host := some [7, 5],
                                data_device := some [7, 7] }
        [.cudaMemcpy 8 .cudaMemcpyDeviceToHost, .cudaGetLastError] ∧
    ∃ s1 c1 s2 c2 s3 c3,
      (host_write cuda_ok 1 5 device_written2 [] = .returned s1 c1 ∧
        device_mut cuda_ok s1 c1 = .returned s2 c2 ∧ host cuda_ok s2 c2 = .returned s3 c3) ∧
      ∃ xs, s1.data_host = some xs ∧ s3.data_host = some xs ∧
        xs.length = device_written2.size ∧ xs[1]? = some 5 ∧
        s3.size = device_written2.size := by
  have h := host_write_round_trip cuda_ok cuda_ok cuda_ok device_written2 1 5 []
    (by simp [gpu_data.allocated, device_written2, resized2, byte_count, sizeof_float])
    (by decide) (by decide)
  obtain ⟨s1, c1, s2, c2, s3, c3, e1, e2, e3⟩ := h.2 (fun _ => rfl) (fun _ => rfl) (fun _ => rfl)
  exact ⟨by decide, s1, c1, s2, c2, s3, c3, ⟨e1, e2, e3⟩, h.1 s1 c1 s2 c2 s3 c3 e1 e2 e3⟩

/-- C20 fails after `set_size(2^62 + 1)`.  In the state that call reaches, `size()` is
`2^62 + 1` while the host block and the device block hold one float each, so index 1 is
below `size()` and outside the block `host()` hands out.  Write 5 at element 1 through the
mutable `host()`, force a device sync with the mutable `device()`, then a host sync with
the read-only `host()`: the three calls return, each copy moves 4 bytes, and the host block
handed out at the end holds one float and has no element 1. -/
theorem host_write_lost_beyond_block :
    run_ops [(cuda_ok, .set_size (2 ^ 62 + 1))] gpu_data.new = some wrapped_size ∧
    1 < wrapped_size.size ∧
    ∃ s1 c1 s2 c2 s3 c3,
      host_write cuda_ok 1 5 wrapped_size [] = .returned s1 c1 ∧
      device_mut cuda_ok s1 c1 = .returned s2 c2 ∧
      host cuda_ok s2 c2 = .returned s3 c3 ∧
      c3 = [.cudaMemcpyAsync 4 .cudaMemcpyHostToDevice (some 1),
        .cudaStreamSynchronize (some 1), .cudaGetLastError,
        .cudaMemcpy 4 .cudaMemcpyDeviceToHost, .cudaGetLastError] ∧
      s3.size = 2 ^ 62 + 1 ∧ s3.data_host = some [7] ∧
      s3.data_host.bind (fun xs => xs[1]?) = none :=
  ⟨by decide, by decide,
   { wrapped_size with device_current := false }, [],
   { wrapped_size with host_current := false, data_device := some [7] },
   [.cudaMemcpyAsync 4 .cudaMemcpyHostToDevice (some 1), .cudaStreamSynchronize (some 1),
     .cudaGetLastError],
   { wrapped_size with data_device := some [7] },
   [.cudaMemcpyAsync 4 .cudaMemcpyHostToDevice (some 1), .cudaStreamSynchronize (some 1),
     .cudaGetLastError, .cudaMemcpy 4 .cudaMemcpyDeviceToHost, .cudaGetLastError],
   by decide, by decide, by decide, rfl, by decide, rfl, rfl⟩

/-! ### C22, C23, C25, C29, C30: shape, index and loaders -/

/-- C22.  `have_same_dimensions(a, b)` is true if and only if `num_samples()`, `k()`, `nr()`
and `nc()` of `a` and `b` agree pairwise; so it is true for two empty tensors, and false for
two tensors of different shape even when their `size()` is the same. -/
theorem have_same_dimensions_iff (a b : tensor) :
    (have_same_dimensions a b = true ↔
      a.num_samples = b.num_samples ∧ a.k = b.k ∧ a.nr = b.nr ∧ a.nc = b.nc) ∧
    (a.num_samples = 0 → a.k = 0 → a.nr = 0 → a.nc = 0 →
      b.num_samples = 0 → b.k = 0 → b.nr = 0 → b.nc = 0 →
      have_same_dimensions a b = true) ∧
    (a ≠ b → have_same_dimensions a b = false) := by
  have hiff : have_same_dimensions a b = true ↔
      a.num_samples = b.num_samples ∧ a.k = b.k ∧ a.nr = b.nr ∧ a.nc = b.nc := by
    simp [have_same_dimensions, and_assoc]
  refine ⟨hiff, ?_, ?_⟩
  · intro h1 h2 h3 h4 h5 h6 h7 h8
    exact hiff.2 ⟨by rw [h1, h5], by rw [h2, h6], by rw [h3, h7], by rw [h4, h8]⟩
  · intro hne
    cases hb : have_same_dimensions a b with
    | false => rfl
    | true =>
      obtain ⟨e1, e2, e3, e4⟩ := hiff.1 hb
      exact absurd (by cases a; cases b; simp_all) hne

/-- C22, at two empty tensors and at the shapes (1,2,1,1) and (2,1,1,1), which both have
two elements. -/
theorem have_same_dimensions_iff_witness :
    have_same_dimensions ⟨0, 0, 0, 0⟩ ⟨0, 0, 0, 0⟩ = true ∧
    tensor.size ⟨1, 2, 1, 1⟩ = tensor.size ⟨2, 1, 1, 1⟩ ∧
    have_same_dimensions ⟨1, 2, 1, 1⟩ ⟨2, 1, 1, 1⟩ = false :=
  ⟨(have_same_dimensions_iff ⟨0, 0, 0, 0⟩ ⟨0, 0, 0, 0⟩).2.1 rfl rfl rfl rfl rfl rfl rfl rfl,
   by decide,
   (have_same_dimensions_iff ⟨1, 2, 1, 1⟩ ⟨2, 1, 1, 1⟩).2.2 (by decide)⟩

/-- C23.  `get_numpy_ndarray_shape<dims>` on the buffer of an array: with `ndim <= dims` it
returns a shape of `dims` entries whose entry `i` is the array's extent `i` for `i < ndim`
and 1 for `ndim <= i < dims`; with `ndim > dims` it aborts and yields no shape. -/
theorem get_numpy_ndarray_shape_spec (dims : Nat) (pybuf : Py_buffer) :
    (pybuf.ndim ≤ (dims : Int) →
      ∃ shape, get_numpy_ndarray_shape dims (some pybuf) = some shape ∧
        shape.length = dims ∧
        (∀ i : Nat, i < dims → (i : Int) < pybuf.ndim → shape[i]? = some (pybuf.shape i)) ∧
        (∀ i : Nat, i < dims → pybuf.ndim ≤ (i : Int) → shape[i]? = some 1)) ∧
    (pybuf.ndim > (dims : Int) → get_numpy_ndarray_shape dims (some pybuf) = none) := by
  constructor
  · intro h
    refine ⟨_, by simp only [get_numpy_ndarray_shape]; rw [if_neg (not_lt.2 h)], ?_, ?_, ?_⟩
    · simp
    · intro i hi hlt
      simp [List.getElem?_map, List.getElem?_range hi, hlt]
    · intro i hi hge
      simp [List.getElem?_map, List.getElem?_range hi, not_lt.2 hge]
  · intro h
    simp only [get_numpy_ndarray_shape]
    rw [if_pos h]

/-- C23, at a 2-dimensional array of extents 480 by 640 read with `dims = 3`, and with
`dims = 1`. -/
theorem get_numpy_ndarray_shape_spec_witness :
    get_numpy_ndarray_shape 3 (some ⟨2, fun i => if i = 0 then 480 else 640⟩)
      = some [480, 640, 1] ∧
    (∃ shape, get_numpy_ndarray_shape 3 (some ⟨2, fun i => if i = 0 then 480 else 640⟩)
        = some shape ∧ shape.length = 3) ∧
    get_numpy_ndarray_shape 1 (some ⟨2, fun i => if i = 0 then 480 else 640⟩) = none := by
  refine ⟨by decide, ?_, ?_⟩
  · obtain ⟨shape, h1, h2, _⟩ :=
      (get_numpy_ndarray_shape_spec 3 ⟨2, fun i => if i = 0 then 480 else 640⟩).1
        (by decide)
    exact ⟨shape, h1, h2⟩
  · exact (get_numpy_ndarray_shape_spec 1 ⟨2, fun i => if i = 0 then 480 else 640⟩).2
      (by decide)

theorem to_int_of_fits (v : Int) (h1 : -2147483648 ≤ v) (h2 : v < 2147483648) :
    to_int v = v := by
  unfold to_int
  norm_num
  omega

/-- The clamp applied to each coordinate: below 0 it becomes 0, above `bound - 1` it
becomes `bound - 1`, else it is kept. -/
theorem clamp_range (v bound : Int) (hb : 1 ≤ bound) :
    0 ≤ (if v < 0 then 0 else if v > bound - 1 then bound - 1 else v) ∧
    (if v < 0 then 0 else if v > bound - 1 then bound - 1 else v) ≤ bound - 1 ∧
    (0 ≤ v → v ≤ bound - 1 →
      (if v < 0 then 0 else if v > bound - 1 then bound - 1 else v) = v) := by
  split_ifs <;> refine ⟨by omega, by omega, fun _ _ => by omega⟩

/-- The function `dlibRectangleToOpenCV` clamps each coordinate on its own. -/
theorem dlibRectangleToOpenCV_eq (width height : Int) (r : rectangle) :
    dlibRectangleToOpenCV width height r =
      { left := to_int (if r.left < 0 then 0 else if r.left > width - 1 then width - 1
          else r.left),
        top := to_int (if r.top < 0 then 0 else if r.top > height - 1 then height - 1
          else r.top),
        right := to_int (if r.right < 0 then 0 else if r.right > width - 1 then width - 1
          else r.right),
        bottom := to_int (if r.bottom < 0 then 0
          else if r.bottom > height - 1 then height - 1 else r.bottom) } := by
  unfold dlibRectangleToOpenCV
  by_cases h1 : r.left < 0 <;> by_cases h2 : r.left > width - 1 <;>
  by_cases h3 : r.bottom < 0 <;> by_cases h4 : r.bottom > height - 1 <;>
  by_cases h5 : r.top < 0 <;> by_cases h6 : r.top > height - 1 <;>
  by_cases h7 : r.right < 0 <;> by_cases h8 : r.right > width - 1 <;>
  simp only [h1, h2, h3, h4, h5, h6, h7, h8, if_true, if_false]

/-- C25.  For `int` arguments `width >= 1` and `height >= 1` and every rectangle `r`, the
coordinates `dlibRectangleToOpenCV` hands to `cv::Rect` satisfy: left and right lie in
`[0, width-1]`, top and bottom lie in `[0, height-1]`, and a coordinate of `r` that already
lies in its range is passed on unchanged. -/
theorem dlibRectangleToOpenCV_clamps (width height : Int) (r : rectangle)
    (hw : 1 ≤ width) (hw' : width < 2 ^ 31) (hh : 1 ≤ height) (hh' : height < 2 ^ 31) :
    (0 ≤ (dlibRectangleToOpenCV width height r).left ∧
      (dlibRectangleToOpenCV width height r).left ≤ width - 1) ∧
    (0 ≤ (dlibRectangleToOpenCV width height r).right ∧
      (dlibRectangleToOpenCV width height r).right ≤ width - 1) ∧
    (0 ≤ (dlibRectangleToOpenCV width height r).top ∧
      (dlibRectangleToOpenCV width height r).top ≤ height - 1) ∧
    (0 ≤ (dlibRectangleToOpenCV width height r).bottom ∧
      (dlibRectangleToOpenCV width height r).bottom ≤ height - 1) ∧
    (0 ≤ r.left → r.left ≤ width - 1 →
      (dlibRectangleToOpenCV width height r).left = r.left) ∧
    (0 ≤ r.right → r.right ≤ width - 1 →
      (dlibRectangleToOpenCV width height r).right = r.right) ∧
    (0 ≤ r.top → r.top ≤ height - 1 →
      (dlibRectangleToOpenCV width height r).top = r.top) ∧
    (0 ≤ r.bottom → r.bottom ≤ height - 1 →
      (dlibRectangleToOpenCV width height r).bottom = r.bottom) := by
  obtain ⟨l1, l2, l3⟩ := clamp_range r.left width hw
  obtain ⟨r1, r2, r3⟩ := clamp_range r.right width hw
  obtain ⟨t1, t2, t3⟩ := clamp_range r.top height hh
  obtain ⟨b1, b2, b3⟩ := clamp_range r.bottom height hh
  have hfit : ∀ v bound : Int, 1 ≤ bound → bound < 2 ^ 31 →
      to_int (if v < 0 then 0 else if v > bound - 1 then bound - 1 else v) =
        (if v < 0 then 0 else if v > bound - 1 then bound - 1 else v) := by
    intro v bound hb hb'
    have hb2 : bound < 2147483648 := by
      have e : (2 : Int) ^ 31 = 2147483648 := by norm_num
      rw [e] at hb'
      exact hb'
    obtain ⟨c1, c2, _⟩ := clamp_range v bound hb
    exact to_int_of_fits _ (by omega) (by omega)
  rw [dlibRectangleToOpenCV_eq]
  simp only [hfit r.left width hw hw', hfit r.right width hw hw',
    hfit r.top height hh hh', hfit r.bottom height hh hh']
  exact ⟨⟨l1, l2⟩, ⟨r1, r2⟩, ⟨t1, t2⟩, ⟨b1, b2⟩, l3, r3, t3, b3⟩

/-- C25, at a 640 by 480 frame and a rectangle that sticks out on the left, the right and
the bottom: the three coordinates are pulled onto the border and `top` is kept. -/
theorem dlibRectangleToOpenCV_clamps_witness :
    dlibRectangleToOpenCV 640 480 ⟨-5, 10, 700, 500⟩ = ⟨0, 10, 639, 479⟩ ∧
    (0 ≤ (dlibRectangleToOpenCV 640 480 ⟨-5, 10, 700, 500⟩).left ∧
      (dlibRectangleToOpenCV 640 480 ⟨-5, 10, 700, 500⟩).left ≤ 640 - 1) :=
  ⟨by decide,
   (dlibRectangleToOpenCV_clamps 640 480 ⟨-5, 10, 700, 500⟩ (by decide) (by decide)
      (by decide) (by decide)).1⟩

theorem mixed_radix_lt (a A b B : Nat) (ha : a < A) (hb : b < B) : a * B + b < A * B := by
  calc a * B + b < a * B + B := by omega
    _ = (a + 1) * B := by ring
    _ ≤ A * B := Nat.mul_le_mul_right B ha

theorem mixed_radix_inj (a a' b b' B : Nat) (hb : b < B) (hb' : b' < B)
    (h : a * B + b = a' * B + b') : a = a' ∧ b = b' := by
  have hB : 0 < B := by omega
  have h1 : (a * B + b) / B = a := by
    rw [Nat.add_comm, Nat.add_mul_div_right _ _ hB, Nat.div_eq_of_lt hb, Nat.zero_add]
  have h2 : (a' * B + b') / B = a' := by
    rw [Nat.add_comm, Nat.add_mul_div_right _ _ hB, Nat.div_eq_of_lt hb', Nat.zero_add]
  have e : a = a' := by rw [← h1, ← h2, h]
  subst e
  exact ⟨rfl, by omega⟩

/-- C29.  For a shape `(n, k, nr, nc)` the documented element index
`((sample*k + ch)*nr + r)*nc + c` maps the valid coordinates (`sample < n`, `ch < k`,
`r < nr`, `c < nc`) one to one onto the indices below `n*k*nr*nc`: every valid coordinate
gets an index below `size()`, distinct valid coordinates get distinct indices, and for
positive `k`, `nr`, `nc` every index below `size()` is the index of a valid coordinate. -/
theorem tensor_index_bijection (n k nr nc : Nat) :
    (∀ s ch r c, s < n → ch < k → r < nr → c < nc →
      tensor_index k nr nc s ch r c < n * k * nr * nc) ∧
    (∀ s ch r c s' ch' r' c', ch < k → r < nr → c < nc → ch' < k → r' < nr → c' < nc →
      tensor_index k nr nc s ch r c = tensor_index k nr nc s' ch' r' c' →
      s = s' ∧ ch = ch' ∧ r = r' ∧ c = c') ∧
    (0 < k → 0 < nr → 0 < nc → ∀ i, i < n * k * nr * nc →
      ∃ s ch r c, s < n ∧ ch < k ∧ r < nr ∧ c < nc ∧ tensor_index k nr nc s ch r c = i) := by
  refine ⟨?_, ?_, ?_⟩
  · intro s ch r c hs hch hr hc
    unfold tensor_index
    exact mixed_radix_lt _ _ _ _ (mixed_radix_lt _ _ _ _ (mixed_radix_lt _ _ _ _ hs hch) hr) hc
  · intro s ch r c s' ch' r' c' hch hr hc hch' hr' hc' h
    unfold tensor_index at h
    obtain ⟨h1, e4⟩ := mixed_radix_inj _ _ _ _ _ hc hc' h
    obtain ⟨h2, e3⟩ := mixed_radix_inj _ _ _ _ _ hr hr' h1
    obtain ⟨e1, e2⟩ := mixed_radix_inj _ _ _ _ _ hch hch' h2
    exact ⟨e1, e2, e3, e4⟩
  · intro hk hnr hnc i hi
    refine ⟨i / nc / nr / k, i / nc / nr % k, i / nc % nr, i % nc, ?_, Nat.mod_lt _ hk,
      Nat.mod_lt _ hnr, Nat.mod_lt _ hnc, ?_⟩
    · rw [Nat.div_lt_iff_lt_mul hk, Nat.div_lt_iff_lt_mul hnr, Nat.div_lt_iff_lt_mul hnc]
      exact hi
    · unfold tensor_index
      rw [Nat.div_add_mod' (i / nc / nr) k, Nat.div_add_mod' (i / nc) nr,
        Nat.div_add_mod' i nc]

/-- C29, at the shape (2, 1, 3, 3) of 18 elements: the last coordinate has index 17, and
index 11 is that of sample 1, channel 0, row 0, column 2. -/
theorem tensor_index_bijection_witness :
    tensor_index 1 3 3 1 0 2 2 < 2 * 1 * 3 * 3 ∧
    tensor_index 1 3 3 1 0 2 2 = 17 ∧
    ∃ s ch r c, s < 2 ∧ ch < 1 ∧ r < 3 ∧ c < 3 ∧ tensor_index 1 3 3 s ch r c = 11 :=
  ⟨(tensor_index_bijection 2 1 3 3).1 1 0 2 2 (by decide) (by decide) (by decide)
      (by decide),
   by decide,
   (tensor_index_bijection 2 1 3 3).2.2 (by decide) (by decide) (by decide) 11
      (by decide)⟩

theorem read_le32_take (l : List Nat) (n : Nat) (h : 4 ≤ n) :
    read_le32 ((l.take n).map fun x => x % 256) 0 =
      read_le32 (l.map fun x => x % 256) 0 := by
  unfold read_le32
  have e : ∀ i, i < n → ((l.take n).map fun x => x % 256).getD i 0 =
      (l.map fun x => x % 256).getD i 0 := by
    intro i hi
    simp [List.getD_eq_getElem?_getD, List.getElem?_take, hi]
  rw [e 0 (by omega), e (0 + 1) (by omega), e (0 + 2) (by omega), e (0 + 3) (by omega)]

/-- C30.  `load_bmp` aborts for every input whose field `biSize` differs from 40.  So on
every execution that gets past the header checks `biSize` is 40, the branch guarded by
`biSize > 40` does nothing when control reaches it, `sgetn` has been asked for 2, 12 and 40
bytes and for nothing else, and exactly 54 bytes of the stream have been consumed. -/
theorem load_bmp_header_reads_54 (input : List Nat) :
    (bmp_biSize input ≠ 40 → load_bmp_header input = none) ∧
    (∀ h, load_bmp_header input = some h →
      h.biSize = 40 ∧ bmp_biSize input = 40 ∧ h.bytes_read_so_far = 54 ∧
      h.reads = [2, 12, 40] ∧ h.rest = input.drop 54 ∧ load_bmp_extra h = some h) := by
  have key : ∀ h, load_bmp_header input = some h →
      h.biSize = 40 ∧ bmp_biSize input = 40 ∧ h.bytes_read_so_far = 54 ∧
      h.reads = [2, 12, 40] ∧ h.rest = input.drop 54 ∧ load_bmp_extra h = some h := by
    intro h hh
    unfold load_bmp_header at hh
    simp only [] at hh
    split_ifs at hh with h1 h2 h3 h4 h5 h6
    simp only [not_not] at h6
    unfold load_bmp_extra at hh
    simp only [h6, gt_iff_lt, lt_self_iff_false, if_false, Option.some.injEq] at hh
    subst hh
    refine ⟨rfl, ?_, rfl, rfl, ?_, ?_⟩
    · unfold bmp_biSize
      rw [← h6]
      simp only [sgetn, List.drop_drop]
      exact (read_le32_take _ 40 (by omega)).symm
    · simp [sgetn, List.drop_drop]
    · unfold load_bmp_extra
      simp only [h6, gt_iff_lt, lt_self_iff_false, if_false]
  refine ⟨?_, key⟩
  intro hne
  cases hr : load_bmp_header input with
  | none => rfl
  | some h => exact absurd (key h hr).2.1 hne

/-- C30, at a file that starts with a 40-byte info header, of which 54 bytes are consumed
and the pixel bytes left, and at a file that announces a 124-byte header, which aborts. -/
theorem load_bmp_header_reads_54_witness :
    (∃ h, load_bmp_header bmp_example = some h ∧ h.bytes_read_so_far = 54 ∧
      h.reads = [2, 12, 40] ∧ h.rest = [1, 2, 3] ∧ h.biWidth = 2 ∧ h.biHeight = 3 ∧
      h.biBitCount = 24) ∧
    bmp_biSize bmp_v5_example = 124 ∧
    load_bmp_header bmp_v5_example = none := by
  refine ⟨?_, by decide, (load_bmp_header_reads_54 bmp_v5_example).1 (by decide)⟩
  cases hr : load_bmp_header bmp_example with
  | none => exact absurd hr (by decide)
  | some h =>
    obtain ⟨_, _, e1, e2, e3, _⟩ := (load_bmp_header_reads_54 bmp_example).2 h hr
    have hv : load_bmp_header bmp_example = some
        { bytes_read_so_far := 54, bfSize := 70, bfOffBits := 54, bfReserved := 0,
          biSize := 40, biWidth := 2, biHeight := 3, biBitCount := 24, biCompression := 0,
          rest := [1, 2, 3], reads := [2, 12, 40] } := by decide
    rw [hr] at hv
    cases hv
    exact ⟨_, rfl, rfl, rfl, rfl, rfl, rfl, rfl⟩

/-! ### C26 to C28: invariants of the transfer flags and the stream -/

theorem outcome.andThen_state_imp {σ : Type} (P Q : σ → Prop) (o : outcome σ)
    (f : σ → List cuda_call → outcome σ) (h1 : P o.state) (hPQ : ∀ s, P s → Q s)
    (h2 : ∀ s calls, P s → Q (f s calls).state) : Q (o.andThen f).state := by
  cases o with
  | returned s calls => exact h2 s calls h1
  | thrown s calls => exact hPQ _ h1
  | aborted s calls => exact hPQ _ h1
  | check_failed s calls => exact hPQ _ h1

/-- The frame of `wait_for_transfer_to_finish`: it changes `have_active_transfer` only. -/
theorem wait_for_transfer_to_finish_frame {α : Type} (rt : cuda_runtime α) (s : gpu_data α)
    (calls : List cuda_call) :
    ∃ a, (wait_for_transfer_to_finish rt s calls).state =
      { s with have_active_transfer := a } ∧ (a = true → s.have_active_transfer = true) := by
  unfold wait_for_transfer_to_finish
  by_cases ha : s.have_active_transfer = true
  · rw [if_pos ha]
    apply outcome.andThen_state
      (fun t : gpu_data α => ∃ a, t = { s with have_active_transfer := a } ∧
        (a = true → s.have_active_transfer = true))
    · rw [CHECK_CUDA_state]; exact ⟨s.have_active_transfer, rfl, fun _ => ha⟩
    · intro s1 c1 h1
      rw [CHECK_CUDA_state]
      obtain ⟨a, rfl, _⟩ := h1
      exact ⟨false, rfl, fun h => by cases h⟩
  · rw [if_neg ha]
    exact ⟨s.have_active_transfer, rfl, fun h => h⟩

/-- C28.  Read-only synchronisation never invalidates the other side.  However it leaves,
`copy_to_host()` leaves `device_current`, the size and the device block as they were, and
`copy_to_device()` leaves `host_current`, the size and the host block as they were. -/
theorem read_sync_keeps_other_side {α : Type} (rt : cuda_runtime α) (s : gpu_data α)
    (calls : List cuda_call) :
    ((copy_to_host rt s calls).state.device_current = s.device_current ∧
      (copy_to_host rt s calls).state.data_size = s.data_size ∧
      (copy_to_host rt s calls).state.data_device = s.data_device) ∧
    ((copy_to_device rt s calls).state.host_current = s.host_current ∧
      (copy_to_device rt s calls).state.data_size = s.data_size ∧
      (copy_to_device rt s calls).state.data_host = s.data_host) := by
  have hw : ∀ (t : gpu_data α) (c : List cuda_call),
      (wait_for_transfer_to_finish rt t c).state.device_current = t.device_current ∧
      (wait_for_transfer_to_finish rt t c).state.data_size = t.data_size ∧
      (wait_for_transfer_to_finish rt t c).state.data_device = t.data_device ∧
      (wait_for_transfer_to_finish rt t c).state.host_current = t.host_current ∧
      (wait_for_transfer_to_finish rt t c).state.data_host = t.data_host := by
    intro t c
    obtain ⟨a, e, _⟩ := wait_for_transfer_to_finish_frame rt t c
    rw [e]
    exact ⟨rfl, rfl, rfl, rfl, rfl⟩
  constructor
  · unfold copy_to_host
    by_cases hc : (!s.host_current) = true
    · rw [if_pos hc]
      apply outcome.andThen_state
        (fun t : gpu_data α => t.device_current = s.device_current ∧
          t.data_size = s.data_size ∧ t.data_device = s.data_device)
      · exact ⟨(hw s calls).1, (hw s calls).2.1, (hw s calls).2.2.1⟩
      · intro s1 c1 h1
        apply outcome.andThen_state
          (fun t : gpu_data α => t.device_current = s.device_current ∧
            t.data_size = s.data_size ∧ t.data_device = s.data_device)
        · rw [CHECK_CUDA_state]; exact h1
        · intro s2 c2 h2
          rw [CHECK_CUDA_state]; exact h2
    · rw [if_neg hc]
      exact ⟨rfl, rfl, rfl⟩
  · unfold copy_to_device
    apply outcome.andThen_state
      (fun t : gpu_data α => t.host_current = s.host_current ∧
        t.data_size = s.data_size ∧ t.data_host = s.data_host)
    · unfold async_copy_to_device
      by_cases hc : (!s.device_current) = true
      · rw [if_pos hc]
        apply outcome.andThen_state
          (fun t : gpu_data α => t.host_current = s.host_current ∧
            t.data_size = s.data_size ∧ t.data_host = s.data_host)
        · by_cases hu : s.device_in_use = true
          · rw [if_pos hu]
            apply outcome.andThen_state
              (fun t : gpu_data α => t.host_current = s.host_current ∧
                t.data_size = s.data_size ∧ t.data_host = s.data_host)
            · rw [CHECK_CUDA_state]; exact ⟨rfl, rfl, rfl⟩
            · intro s1 c1 h1; exact h1
          · rw [if_neg hu]; exact ⟨rfl, rfl, rfl⟩
        · intro s1 c1 h1
          apply outcome.andThen_state
            (fun t : gpu_data α => t.host_current = s.host_current ∧
              t.data_size = s.data_size ∧ t.data_host = s.data_host)
          · rw [CHECK_CUDA_state]; exact h1
          · intro s2 c2 h2; exact h2
      · rw [if_neg hc]; exact ⟨rfl, rfl, rfl⟩
    · intro s1 c1 h1
      obtain ⟨_, e2, _, e4, e5⟩ := hw s1 c1
      exact ⟨e4.trans h1.1, e2.trans h1.2.1, e5.trans h1.2.2⟩

theorem transfer_safe_congr {α : Type} (s t : gpu_data α) (h : s.transfer_safe)
    (e1 : t.host_current = s.host_current) (e2 : t.device_current = s.device_current)
    (e3 : t.have_active_transfer = s.have_active_transfer) : t.transfer_safe := by
  unfold gpu_data.transfer_safe at h ⊢
  rw [e1, e2, e3]
  exact h

theorem transfer_safe_of_host_current {α : Type} (t : gpu_data α)
    (h : t.host_current = true) : t.transfer_safe :=
  ⟨Or.inl h, fun _ => h⟩

theorem safe_wait_for_transfer_to_finish {α : Type} (rt : cuda_runtime α) (s : gpu_data α)
    (calls : List cuda_call) (h : s.transfer_safe) :
    (wait_for_transfer_to_finish rt s calls).state.transfer_safe := by
  obtain ⟨a, e, ha⟩ := wait_for_transfer_to_finish_frame rt s calls
  rw [e]
  exact ⟨h.1, fun h2 => h.2 (ha h2)⟩

theorem safe_fence {α : Type} (rt : cuda_runtime α) (s : gpu_data α)
    (calls : List cuda_call) (P : gpu_data α → Prop) (h : P s)
    (hP : ∀ u, P { s with device_in_use := u }) :
    P (if s.device_in_use then
      (CHECK_CUDA rt (.cudaStreamSynchronize none) s calls).andThen fun s calls =>
      .returned { s with device_in_use := false } calls
    else
      outcome.returned s calls).state := by
  split_ifs
  · apply outcome.andThen_state_of_returned
    · rw [CHECK_CUDA_state]; exact h
    · intro s1 c1 h1
      rw [CHECK_CUDA_eq_returned] at h1
      obtain ⟨_, rfl, _⟩ := h1
      exact hP false
  · exact h

theorem safe_copy_to_host {α : Type} (rt : cuda_runtime α) (s : gpu_data α)
    (calls : List cuda_call) (h : s.transfer_safe) :
    (copy_to_host rt s calls).state.transfer_safe := by
  unfold copy_to_host
  split_ifs
  · apply outcome.andThen_state
    · exact safe_wait_for_transfer_to_finish rt s calls h
    · intro s1 c1 h1
      apply outcome.andThen_state
      · rw [CHECK_CUDA_state]; exact h1
      · intro s2 c2 _
        rw [CHECK_CUDA_state]
        exact transfer_safe_of_host_current _ rfl
  · exact h

theorem safe_async_copy_to_device {α : Type} (rt : cuda_runtime α) (s : gpu_data α)
    (calls : List cuda_call) (h : s.transfer_safe) :
    (async_copy_to_device rt s calls).state.transfer_safe := by
  unfold async_copy_to_device
  by_cases hc : (!s.device_current) = true
  · rw [if_pos hc]
    have hh : s.host_current = true := by
      rcases h.1 with h1 | h1
      · exact h1
      · rw [h1] at hc; cases hc
    apply outcome.andThen_state_imp
      (fun t : gpu_data α => t.transfer_safe ∧ t.host_current = true)
      gpu_data.transfer_safe
    · exact safe_fence rt s calls
        (fun t : gpu_data α => t.transfer_safe ∧ t.host_current = true) ⟨h, hh⟩
        (fun u => ⟨transfer_safe_congr s _ h rfl rfl rfl, hh⟩)
    · intro t ht; exact ht.1
    · intro s1 c1 h1
      apply outcome.andThen_state_imp
        (fun t : gpu_data α => t.transfer_safe ∧ t.host_current = true)
        gpu_data.transfer_safe
      · rw [CHECK_CUDA_state]; exact h1
      · intro t ht; exact ht.1
      · intro s2 c2 h2
        exact transfer_safe_of_host_current _ h2.2
  · rw [if_neg hc]; exact h

theorem safe_copy_to_device {α : Type} (rt : cuda_runtime α) (s : gpu_data α)
    (calls : List cuda_call) (h : s.transfer_safe) :
    (copy_to_device rt s calls).state.transfer_safe := by
  unfold copy_to_device
  apply outcome.andThen_state
  · exact safe_async_copy_to_device rt s calls h
  · intro s1 c1 h1
    exact safe_wait_for_transfer_to_finish rt s1 c1 h1

theorem safe_set_size_zero {α : Type} (rt : cuda_runtime α) (s : gpu_data α)
    (calls : List cuda_call) (h : s.transfer_safe) :
    (set_size_zero rt s calls).state.transfer_safe := by
  unfold set_size_zero
  apply outcome.andThen_state
  · exact safe_fence rt s calls _ h (fun u => transfer_safe_congr s _ h rfl rfl rfl)
  · intro s1 c1 h1
    apply outcome.andThen_state
    · exact safe_wait_for_transfer_to_finish rt s1 c1 h1
    · intro s2 c2 _
      exact transfer_safe_of_host_current _ rfl

theorem safe_set_size_try {α : Type} (rt : cuda_runtime α) (n : Nat) (s : gpu_data α)
    (calls : List cuda_call) (h : s.transfer_safe) :
    (set_size_try rt n s calls).state.transfer_safe := by
  unfold set_size_try
  apply outcome.andThen_state
  · rw [CHECK_CUDA_state]; exact h
  · intro s1 c1 h1
    apply outcome.andThen_state
    · rw [CHECK_CUDA_state]; exact transfer_safe_congr s1 _ h1 rfl rfl rfl
    · intro s2 c2 h2
      apply outcome.andThen_state
      · rw [CHECK_CUDA_state]; exact transfer_safe_congr s2 _ h2 rfl rfl rfl
      · intro s3 c3 h3
        dsimp only
        split_ifs
        · apply outcome.andThen_state
          · rw [CHECK_CUDA_state]; exact transfer_safe_congr s3 _ h3 rfl rfl rfl
          · intro s4 c4 h4; exact transfer_safe_congr s4 _ h4 rfl rfl rfl
        · exact transfer_safe_congr s3 _ h3 rfl rfl rfl

theorem safe_set_size_catch {α : Type} (rt : cuda_runtime α) (o : outcome (gpu_data α))
    (h : o.state.transfer_safe) : (set_size_catch rt o).state.transfer_safe := by
  cases o with
  | thrown s3 c3 =>
    apply outcome.andThen_state
    · exact safe_set_size_zero rt s3 c3 h
    · intro s4 c4 h4; exact h4
  | returned s3 c3 => exact h
  | aborted s3 c3 => exact h
  | check_failed s3 c3 => exact h

theorem safe_set_size {α : Type} (rt : cuda_runtime α) (n : Nat) (s : gpu_data α)
    (calls : List cuda_call) (h : s.transfer_safe) :
    (set_size rt n s calls).state.transfer_safe := by
  unfold set_size
  by_cases h0 : n = 0
  · rw [if_pos h0]
    exact safe_set_size_zero rt s calls h
  · rw [if_neg h0]
    by_cases hn : n ≠ s.data_size
    · rw [if_pos hn]
      apply outcome.andThen_state
      · exact safe_fence rt s calls _ h (fun u => transfer_safe_congr s _ h rfl rfl rfl)
      · intro s1 c1 h1
        apply outcome.andThen_state
        · exact safe_wait_for_transfer_to_finish rt s1 c1 h1
        · intro s2 c2 _
          exact safe_set_size_catch rt _
            (safe_set_size_try rt n _ c2 (transfer_safe_of_host_current _ rfl))
    · rw [if_neg hn]
      exact h

theorem safe_run_op {α : Type} (rt : cuda_runtime α) (o : gpu_op) (s : gpu_data α)
    (h : s.transfer_safe) : (run_op rt o s).state.transfer_safe := by
  cases o with
  | host => exact safe_copy_to_host rt s [] h
  | host_mut =>
    apply outcome.andThen_state_of_returned
    · exact safe_copy_to_host rt s [] h
    · intro s1 c1 h1
      exact transfer_safe_of_host_current _
        (copy_to_host_returned_host_current rt s s1 [] c1 h1)
  | device => exact safe_copy_to_device rt s [] h
  | device_mut =>
    apply outcome.andThen_state_of_returned
    · exact safe_copy_to_device rt s [] h
    · intro s1 c1 h1
      obtain ⟨e1, e2, _⟩ := copy_to_device_returned_flags rt s s1 [] c1 h1
      exact ⟨Or.inr e1, fun h2 => by rw [show _ = s1.have_active_transfer from rfl, e2] at h2; cases h2⟩
  | async_copy_to_device => exact safe_async_copy_to_device rt s [] h
  | wait_for_transfer_to_finish => exact safe_wait_for_transfer_to_finish rt s [] h
  | copy_to_device => exact safe_copy_to_device rt s [] h
  | set_size n => exact safe_set_size rt n s [] h

theorem safe_run_ops {α : Type} (ops : List (cuda_runtime α × gpu_op)) :
    ∀ s s' : gpu_data α, s.transfer_safe → run_ops ops s = some s' → s'.transfer_safe := by
  induction ops with
  | nil =>
    intro s s' h hr
    simp only [run_ops, Option.some.injEq] at hr
    exact hr ▸ h
  | cons x rest ih =>
    intro s s' h hr
    obtain ⟨rt, o⟩ := x
    have h1 := safe_run_op rt o s h
    simp only [run_ops] at hr
    cases hro : run_op rt o s with
    | returned s1 c1 =>
      rw [hro] at hr h1
      exact ih s1 s' h1 hr
    | thrown s1 c1 =>
      rw [hro] at hr h1
      exact ih s1 s' h1 hr
    | aborted s1 c1 => rw [hro] at hr; cases hr
    | check_failed s1 c1 => rw [hro] at hr; cases hr

/-- C26.  In every state reached from a freshly constructed instance by a finite sequence
of the operations of `gpu_data.cpp` and the four accessors (`device()` being
`copy_to_device`, which always waits), whatever the CUDA runtime answers along the way,
`have_active_transfer == true` implies `host_current == true`: the host copy is never stale
while a host-to-device transfer is pending. -/
theorem pending_transfer_host_current {α : Type} (ops : List (cuda_runtime α × gpu_op))
    (s : gpu_data α) (h : run_ops ops gpu_data.new = some s)
    (ha : s.have_active_transfer = true) : s.host_current = true :=
  (safe_run_ops ops gpu_data.new s (transfer_safe_of_host_current _ rfl) h).2 ha

/-- C26, at the state with a pending transfer reached by a resize, a mutable host access
and `async_copy_to_device`. -/
theorem pending_transfer_host_current_witness :
    run_ops [(cuda_ok, .set_size 2), (cuda_ok, .host_mut), (cuda_ok, .async_copy_to_device)]
        gpu_data.new = some transfer_pending2 ∧
    transfer_pending2.have_active_transfer = true ∧
    transfer_pending2.host_current = true :=
  ⟨by decide, by decide,
   pending_transfer_host_current
     [(cuda_ok, .set_size 2), (cuda_ok, .host_mut), (cuda_ok, .async_copy_to_device)]
     transfer_pending2 (by decide) (by decide)⟩

/-- A property of the state and of the record of calls that holds for an outcome and is
kept by the continuation holds for the sequenced outcome. -/
theorem outcome.andThen_run {σ : Type} (P : σ → List cuda_call → Prop) (o : outcome σ)
    (f : σ → List cuda_call → outcome σ) (h1 : P o.state o.calls)
    (h2 : ∀ s calls, o = .returned s calls → P s calls →
      P (f s calls).state (f s calls).calls) :
    P (o.andThen f).state (o.andThen f).calls := by
  cases o with
  | returned s calls => exact h2 s calls rfl h1
  | thrown s calls => exact h1
  | aborted s calls => exact h1
  | check_failed s calls => exact h1

theorem CHECK_CUDA_calls {α σ : Type} (rt : cuda_runtime α) (c : cuda_call) (s : σ)
    (calls : List cuda_call) : (CHECK_CUDA rt c s calls).calls = calls ++ [c] := by
  unfold CHECK_CUDA
  split_ifs <;> rfl

/-- The operations other than `set_size` leave the size and the stream alone. -/
theorem shape_wait_for_transfer_to_finish {α : Type} (rt : cuda_runtime α) (s : gpu_data α)
    (calls : List cuda_call) :
    (wait_for_transfer_to_finish rt s calls).state.data_size = s.data_size ∧
    (wait_for_transfer_to_finish rt s calls).state.cuda_stream = s.cuda_stream := by
  obtain ⟨a, e, _⟩ := wait_for_transfer_to_finish_frame rt s calls
  rw [e]
  exact ⟨rfl, rfl⟩

theorem shape_copy_to_host {α : Type} (rt : cuda_runtime α) (s : gpu_data α)
    (calls : List cuda_call) :
    (copy_to_host rt s calls).state.data_size = s.data_size ∧
    (copy_to_host rt s calls).state.cuda_stream = s.cuda_stream := by
  unfold copy_to_host
  split_ifs
  · apply outcome.andThen_state
      (fun t : gpu_data α => t.data_size = s.data_size ∧ t.cuda_stream = s.cuda_stream)
    · exact shape_wait_for_transfer_to_finish rt s calls
    · intro s1 c1 h1
      apply outcome.andThen_state
        (fun t : gpu_data α => t.data_size = s.data_size ∧ t.cuda_stream = s.cuda_stream)
      · rw [CHECK_CUDA_state]; exact h1
      · intro s2 c2 h2
        rw [CHECK_CUDA_state]; exact h2
  · exact ⟨rfl, rfl⟩

theorem shape_async_copy_to_device {α : Type} (rt : cuda_runtime α) (s : gpu_data α)
    (calls : List cuda_call) :
    (async_copy_to_device rt s calls).state.data_size = s.data_size ∧
    (async_copy_to_device rt s calls).state.cuda_stream = s.cuda_stream := by
  unfold async_copy_to_device
  by_cases hc : (!s.device_current) = true
  · rw [if_pos hc]
    apply outcome.andThen_state
      (fun t : gpu_data α => t.data_size = s.data_size ∧ t.cuda_stream = s.cuda_stream)
    · exact safe_fence rt s calls
        (fun t : gpu_data α => t.data_size = s.data_size ∧ t.cuda_stream = s.cuda_stream)
        ⟨rfl, rfl⟩ (fun _ => ⟨rfl, rfl⟩)
    · intro s1 c1 h1
      apply outcome.andThen_state
        (fun t : gpu_data α => t.data_size = s.data_size ∧ t.cuda_stream = s.cuda_stream)
      · rw [CHECK_CUDA_state]; exact h1
      · intro s2 c2 h2; exact h2
  · rw [if_neg hc]; exact ⟨rfl, rfl⟩

theorem shape_copy_to_device {α : Type} (rt : cuda_runtime α) (s : gpu_data α)
    (calls : List cuda_call) :
    (copy_to_device rt s calls).state.data_size = s.data_size ∧
    (copy_to_device rt s calls).state.cuda_stream = s.cuda_stream := by
  unfold copy_to_device
  apply outcome.andThen_state
    (fun t : gpu_data α => t.data_size = s.data_size ∧ t.cuda_stream = s.cuda_stream)
  · exact shape_async_copy_to_device rt s calls
  · intro s1 c1 h1
    obtain ⟨e1, e2⟩ := shape_wait_for_transfer_to_finish rt s1 c1
    exact ⟨e1.trans h1.1, e2.trans h1.2⟩

theorem has_stream_of_shape {α : Type} (s t : gpu_data α) (h : s.has_stream)
    (e : t.data_size = s.data_size ∧ t.cuda_stream = s.cuda_stream) : t.has_stream := by
  unfold gpu_data.has_stream at h ⊢
  rw [e.1, e.2]
  exact h

theorem has_stream_set_size_zero {α : Type} (rt : cuda_runtime α) (s : gpu_data α)
    (calls : List cuda_call) (h : s.has_stream) :
    (set_size_zero rt s calls).state.has_stream := by
  unfold set_size_zero
  apply outcome.andThen_state
  · exact safe_fence rt s calls _ h (fun u => has_stream_of_shape s _ h ⟨rfl, rfl⟩)
  · intro s1 c1 h1
    apply outcome.andThen_state
    · exact has_stream_of_shape s1 _ h1 (shape_wait_for_transfer_to_finish rt s1 c1)
    · intro s2 c2 _
      intro hne
      exact absurd rfl hne

theorem has_stream_set_size_catch {α : Type} (rt : cuda_runtime α)
    (o : outcome (gpu_data α))
    (hq : o.state.device_in_use = false ∧ o.state.have_active_transfer = false)
    (hr : ∀ s' c', o = .returned s' c' → s'.has_stream) :
    (set_size_catch rt o).alive gpu_data.has_stream := by
  cases o with
  | thrown s3 c3 =>
    unfold set_size_catch
    simp only
    rw [set_size_zero_quiet rt s3 c3 hq.1 hq.2]
    trivial
  | returned s3 c3 => exact hr s3 c3 rfl
  | aborted s3 c3 => trivial
  | check_failed s3 c3 => trivial

theorem has_stream_set_size {α : Type} (rt : cuda_runtime α) (n : Nat) (s : gpu_data α)
    (calls : List cuda_call) (h : s.has_stream) :
    (set_size rt n s calls).alive gpu_data.has_stream := by
  unfold set_size
  by_cases h0 : n = 0
  · rw [if_pos h0]
    exact outcome.alive_of_state _ _ (has_stream_set_size_zero rt s calls h)
  · rw [if_neg h0]
    by_cases hn : n ≠ s.data_size
    · rw [if_pos hn]
      apply outcome.andThen_alive
      · exact outcome.alive_of_state _ _
          (safe_fence rt s calls _ h (fun u => has_stream_of_shape s _ h ⟨rfl, rfl⟩))
      · intro s1 c1 _ h1
        apply outcome.andThen_alive
        · exact outcome.alive_of_state _ _
            (has_stream_of_shape s1 _ h1 (shape_wait_for_transfer_to_finish rt s1 c1))
        · intro s2 c2 hw _
          obtain ⟨e2, _⟩ := wait_for_transfer_to_finish_returned rt s1 s2 c1 c2 hw
          apply has_stream_set_size_catch
          · exact set_size_try_quiet rt n _ c2 rfl (by rw [e2])
          · intro s' c' hr
            obtain ⟨_, _, _, _, _, e6⟩ := set_size_try_returned rt n _ s' c2 c' hr
            intro _
            rw [e6]
            split_ifs with hs
            · rfl
            · rw [Option.isSome_iff_ne_none]
              simpa using hs
    · rw [if_neg hn]
      exact h

theorem has_stream_run_op {α : Type} (rt : cuda_runtime α) (o : gpu_op) (s : gpu_data α)
    (h : s.has_stream) : (run_op rt o s).alive gpu_data.has_stream := by
  cases o with
  | host =>
    exact outcome.alive_of_state _ _ (has_stream_of_shape s _ h (shape_copy_to_host rt s []))
  | host_mut =>
    apply outcome.andThen_alive
    · exact outcome.alive_of_state _ _
        (has_stream_of_shape s _ h (shape_copy_to_host rt s []))
    · intro s1 c1 _ h1; exact has_stream_of_shape s1 _ h1 ⟨rfl, rfl⟩
  | device =>
    exact outcome.alive_of_state _ _
      (has_stream_of_shape s _ h (shape_copy_to_device rt s []))
  | device_mut =>
    apply outcome.andThen_alive
    · exact outcome.alive_of_state _ _
        (has_stream_of_shape s _ h (shape_copy_to_device rt s []))
    · intro s1 c1 _ h1; exact has_stream_of_shape s1 _ h1 ⟨rfl, rfl⟩
  | async_copy_to_device =>
    exact outcome.alive_of_state _ _
      (has_stream_of_shape s _ h (shape_async_copy_to_device rt s []))
  | wait_for_transfer_to_finish =>
    exact outcome.alive_of_state _ _
      (has_stream_of_shape s _ h (shape_wait_for_transfer_to_finish rt s []))
  | copy_to_device =>
    exact outcome.alive_of_state _ _
      (has_stream_of_shape s _ h (shape_copy_to_device rt s []))
  | set_size n => exact has_stream_set_size rt n s [] h

theorem has_stream_run_ops {α : Type} (ops : List (cuda_runtime α × gpu_op)) :
    ∀ s s' : gpu_data α, s.has_stream → run_ops ops s = some s' → s'.has_stream := by
  induction ops with
  | nil =>
    intro s s' h hr
    simp only [run_ops, Option.some.injEq] at hr
    exact hr ▸ h
  | cons x rest ih =>
    intro s s' h hr
    obtain ⟨rt, o⟩ := x
    have h1 := has_stream_run_op rt o s h
    simp only [run_ops] at hr
    cases hro : run_op rt o s with
    | returned s1 c1 =>
      rw [hro] at hr h1
      exact ih s1 s' h1 hr
    | thrown s1 c1 =>
      rw [hro] at hr h1
      exact ih s1 s' h1 hr
    | aborted s1 c1 => rw [hro] at hr; cases hr
    | check_failed s1 c1 => rw [hro] at hr; cases hr

/-- Every copy `async_copy_to_device` queues goes onto the stream held in `cuda_stream`,
however the call leaves. -/
theorem async_copy_to_device_stream {α : Type} (rt : cuda_runtime α) (s : gpu_data α)
    (calls : List cuda_call) :
    ∃ new, (async_copy_to_device rt s calls).calls = calls ++ new ∧
      ∀ n k st, cuda_call.cudaMemcpyAsync n k st ∈ new → st = s.cuda_stream := by
  unfold async_copy_to_device
  by_cases hc : (!s.device_current) = true
  · rw [if_pos hc]
    apply outcome.andThen_run
      (fun (t : gpu_data α) (log : List cuda_call) => ∃ new, log = calls ++ new ∧
        ∀ n k st, cuda_call.cudaMemcpyAsync n k st ∈ new → st = s.cuda_stream)
    · by_cases hu : s.device_in_use = true
      · rw [if_pos hu]
        apply outcome.andThen_run
          (fun (t : gpu_data α) (log : List cuda_call) => ∃ new, log = calls ++ new ∧
            ∀ n k st, cuda_call.cudaMemcpyAsync n k st ∈ new → st = s.cuda_stream)
        · rw [CHECK_CUDA_calls]
          exact ⟨_, rfl, by simp⟩
        · intro s1 c1 _ h1; exact h1
      · rw [if_neg hu]
        exact ⟨[], by simp [outcome.calls], by simp⟩
    · intro s1 c1 hf h1
      obtain ⟨e1, _⟩ := fence_returned rt s s1 calls c1 hf
      obtain ⟨new, rfl, hnew⟩ := h1
      apply outcome.andThen_run
        (fun (t : gpu_data α) (log : List cuda_call) => ∃ new, log = calls ++ new ∧
          ∀ n k st, cuda_call.cudaMemcpyAsync n k st ∈ new → st = s.cuda_stream)
      · rw [CHECK_CUDA_calls]
        refine ⟨new ++ [.cudaMemcpyAsync (byte_count s1.data_size) .cudaMemcpyHostToDevice
          s1.cuda_stream], by simp, ?_⟩
        intro n k st hmem
        rcases List.mem_append.1 hmem with hm | hm
        · exact hnew n k st hm
        · simp only [List.mem_singleton, cuda_call.cudaMemcpyAsync.injEq] at hm
          rw [hm.2.2, e1]
      · intro s2 c2 _ h2; exact h2
  · rw [if_neg hc]
    exact ⟨[], by simp [outcome.calls], by simp⟩

/-- C27.  In every state reached from a freshly constructed instance, `size() > 0` implies
that a created stream is held; so the copy `async_copy_to_device` queues for a non-empty
instance goes onto that stream and never onto the null (default) stream. -/
theorem nonempty_has_stream {α : Type} (ops : List (cuda_runtime α × gpu_op))
    (s : gpu_data α) (h : run_ops ops gpu_data.new = some s) (hs : 0 < s.size) :
    (∃ q, s.cuda_stream = some q) ∧
    ∀ (rt : cuda_runtime α) (calls : List cuda_call),
      ∃ new, (async_copy_to_device rt s calls).calls = calls ++ new ∧
        ∀ n k st, cuda_call.cudaMemcpyAsync n k st ∈ new →
          st = s.cuda_stream ∧ st ≠ none := by
  have hstream : s.cuda_stream.isSome = true :=
    has_stream_run_ops ops gpu_data.new s (fun hne => absurd rfl hne) h
      (by unfold gpu_data.size at hs; omega)
  obtain ⟨q, hq⟩ := Option.isSome_iff_exists.1 hstream
  refine ⟨⟨q, hq⟩, ?_⟩
  intro rt calls
  obtain ⟨new, e, hnew⟩ := async_copy_to_device_stream rt s calls
  refine ⟨new, e, ?_⟩
  intro n k st hmem
  have := hnew n k st hmem
  exact ⟨this, by rw [this, hq]; simp⟩

/-- C27, at a host-written instance of two floats reached by a resize and a mutable host
access: it holds stream 1, and the copy is queued on stream 1. -/
theorem nonempty_has_stream_witness :
    run_ops [(cuda_ok, .set_size 2), (cuda_ok, .host_mut)] gpu_data.new
      = some host_written2 ∧
    (∃ q, host_written2.cuda_stream = some q) ∧
    (async_copy_to_device cuda_ok host_written2 []).calls =
      [.cudaMemcpyAsync 8 .cudaMemcpyHostToDevice (some 1)] :=
  ⟨by decide,
   (nonempty_has_stream [(cuda_ok, .set_size 2), (cuda_ok, .host_mut)] host_written2
      (by decide) (by decide)).1,
   by decide⟩

/-! ### C21 and C24: failure in the allocation block, and the fence of the default stream -/

theorem succeeded_of_no_allocation_call {α : Type} (rt : cuda_runtime α) :
    ∀ (a base : List cuda_call), (∀ x ∈ a, x.in_allocation_block = false) →
      allocation_calls_succeeded rt base a = true := by
  intro a
  induction a with
  | nil => intro base _; rfl
  | cons x rest ih =>
    intro base h
    simp only [allocation_calls_succeeded, Bool.and_eq_true, Bool.or_eq_true,
      Bool.not_eq_true']
    exact ⟨Or.inl (h x (List.mem_cons_self _ _)),
      ih _ (fun y hy => h y (List.mem_cons_of_mem _ hy))⟩

theorem succeeded_append {α : Type} (rt : cuda_runtime α) :
    ∀ (a b base : List cuda_call),
      allocation_calls_succeeded rt base (a ++ b) =
        (allocation_calls_succeeded rt base a &&
          allocation_calls_succeeded rt (base ++ a) b) := by
  intro a
  induction a with
  | nil => intro b base; simp [allocation_calls_succeeded]
  | cons x rest ih =>
    intro b base
    show ((!x.in_allocation_block || rt.status (base ++ [x])) &&
        allocation_calls_succeeded rt (base ++ [x]) (rest ++ b)) = _
    rw [ih]
    simp [allocation_calls_succeeded, Bool.and_assoc]

/-- A call of the allocation block that sits in a record all of whose allocation calls
succeeded has succeeded. -/
theorem succeeded_at {α : Type} (rt : cuda_runtime α) (base pre post : List cuda_call)
    (c : cuda_call) (h : allocation_calls_succeeded rt base (pre ++ c :: post) = true)
    (hc : c.in_allocation_block = true) : rt.status (base ++ pre ++ [c]) = true := by
  rw [succeeded_append] at h
  simp only [allocation_calls_succeeded, Bool.and_eq_true, Bool.or_eq_true,
    Bool.not_eq_true', hc] at h
  rcases h.2.1 with h1 | h1
  · cases h1
  · exact h1

/-- The first failed call of the allocation block is at one place only. -/
theorem first_failure_unique {α : Type} (rt : cuda_runtime α) :
    ∀ (a base b pre post : List cuda_call) (cf c : cuda_call),
      allocation_calls_succeeded rt base a = true →
      (∀ x ∈ b, x.in_allocation_block = false) →
      a ++ cf :: b = pre ++ c :: post → c.in_allocation_block = true →
      rt.status (base ++ pre ++ [c]) = false → pre = a ∧ c = cf ∧ post = b := by
  intro a
  induction a with
  | nil =>
    intro base b pre post cf c _ hb he hc _
    cases pre with
    | nil =>
      simp only [List.nil_append, List.cons.injEq] at he
      exact ⟨rfl, he.1.symm, he.2.symm⟩
    | cons p pre1 =>
      simp only [List.nil_append, List.cons_append, List.cons.injEq] at he
      have hm : c ∈ b := by rw [he.2]; simp
      rw [hb c hm] at hc
      cases hc
  | cons x rest ih =>
    intro base b pre post cf c ha hb he hc hf
    simp only [allocation_calls_succeeded, Bool.and_eq_true, Bool.or_eq_true,
      Bool.not_eq_true'] at ha
    cases pre with
    | nil =>
      simp only [List.nil_append, List.cons_append, List.cons.injEq] at he
      rw [List.append_nil] at hf
      rw [he.1, hf, hc] at ha
      rcases ha.1 with h1 | h1 <;> cases h1
    | cons p pre1 =>
      simp only [List.cons_append, List.cons.injEq] at he
      obtain ⟨rfl, he2⟩ := he
      have hf2 : rt.status (base ++ [x] ++ pre1 ++ [c]) = false := by
        rw [← hf]; simp
      obtain ⟨e1, e2, e3⟩ := ih (base ++ [x]) b pre1 post cf c ha.2 hb he2 hc hf2
      exact ⟨by rw [e1], e2, e3⟩

/-- The fence of the default stream: it fails and throws, or it returns with
`device_in_use` cleared. -/
theorem fence_cases {α : Type} (rt : cuda_runtime α) (s : gpu_data α)
    (calls : List cuda_call) :
    (s.device_in_use = true ∧ rt.status (calls ++ [.cudaStreamSynchronize none]) = false ∧
      (if s.device_in_use then
        (CHECK_CUDA rt (.cudaStreamSynchronize none) s calls).andThen fun s calls =>
        .returned { s with device_in_use := false } calls
      else
        outcome.returned s calls) = .thrown s (calls ++ [.cudaStreamSynchronize none])) ∨
    ((s.device_in_use = true → rt.status (calls ++ [.cudaStreamSynchronize none]) = true) ∧
      (if s.device_in_use then
        (CHECK_CUDA rt (.cudaStreamSynchronize none) s calls).andThen fun s calls =>
        .returned { s with device_in_use := false } calls
      else
        outcome.returned s calls) = .returned { s with device_in_use := false }
          (calls ++ (if s.device_in_use then [.cudaStreamSynchronize none] else []))) := by
  by_cases hu : s.device_in_use = true
  · by_cases hs : rt.status (calls ++ [.cudaStreamSynchronize none]) = true
    · right
      simp [CHECK_CUDA, hs, hu, outcome.andThen]
    · left
      simp only [Bool.not_eq_true] at hs
      simp [CHECK_CUDA, hs, hu, outcome.andThen]
  · right
    simp only [Bool.not_eq_true] at hu
    cases s
    simp_all

/-- How `wait_for_transfer_to_finish` leaves, with the calls it made. -/
theorem wait_for_transfer_to_finish_log {α : Type} (rt : cuda_runtime α) (s : gpu_data α)
    (calls : List cuda_call) :
    ∃ a wm, (∀ x ∈ wm, x = .cudaStreamSynchronize s.cuda_stream ∨ x = .cudaGetLastError) ∧
      (wait_for_transfer_to_finish rt s calls =
          .returned { s with have_active_transfer := false } (calls ++ wm) ∨
       wait_for_transfer_to_finish rt s calls =
          .thrown { s with have_active_transfer := a } (calls ++ wm)) := by
  unfold wait_for_transfer_to_finish
  by_cases ha : s.have_active_transfer = true
  · by_cases h1 : rt.status (calls ++ [.cudaStreamSynchronize s.cuda_stream]) = true
    · by_cases h2 : rt.status
          (calls ++ [.cudaStreamSynchronize s.cuda_stream] ++ [.cudaGetLastError]) = true
      · refine ⟨false, [.cudaStreamSynchronize s.cuda_stream, .cudaGetLastError], ?_, ?_⟩
        · intro x hx; simpa using hx
        · left
          simp only [List.append_assoc, List.singleton_append] at h2
          simp [CHECK_CUDA, ha, h1, h2, outcome.andThen]
      · refine ⟨false, [.cudaStreamSynchronize s.cuda_stream, .cudaGetLastError], ?_, ?_⟩
        · intro x hx; simpa using hx
        · right
          simp only [Bool.not_eq_true, List.append_assoc, List.singleton_append] at h2
          simp [CHECK_CUDA, ha, h1, h2, outcome.andThen]
    · refine ⟨true, [.cudaStreamSynchronize s.cuda_stream], ?_, ?_⟩
      · intro x hx; left; simpa using hx
      · right
        simp only [Bool.not_eq_true] at h1
        simp only [CHECK_CUDA, ha, h1, outcome.andThen, if_true]
        cases s
        simp_all
  · refine ⟨false, [], ?_, ?_⟩
    · intro x hx; cases hx
    · left
      simp only [Bool.not_eq_true] at ha
      cases s
      simp_all

theorem CHECK_CUDA_of_true {α σ : Type} (rt : cuda_runtime α) (c : cuda_call) (s : σ)
    (calls : List cuda_call) (h : rt.status (calls ++ [c]) = true) :
    CHECK_CUDA rt c s calls = .returned s (calls ++ [c]) := by
  simp [CHECK_CUDA, h]

theorem CHECK_CUDA_of_false {α σ : Type} (rt : cuda_runtime α) (c : cuda_call) (s : σ)
    (calls : List cuda_call) (h : rt.status (calls ++ [c]) = false) :
    CHECK_CUDA rt c s calls = .thrown s (calls ++ [c]) := by
  simp [CHECK_CUDA, h]

theorem reset_calls_mem {β : Type} (held : Option β) (free x : cuda_call)
    (h : x ∈ reset_calls held free) : x = free := by
  unfold reset_calls at h
  split_ifs at h
  · simpa using h
  · cases h

theorem succeeded_snoc {α : Type} (rt : cuda_runtime α) (base m : List cuda_call)
    (c : cuda_call) (h : allocation_calls_succeeded rt base m = true)
    (hc : rt.status (base ++ m ++ [c]) = true) :
    allocation_calls_succeeded rt base (m ++ [c]) = true := by
  rw [succeeded_append, h]
  simp only [allocation_calls_succeeded, Bool.true_and, Bool.and_true, Bool.or_eq_true]
  right
  exact hc

theorem succeeded_reset {α β : Type} (rt : cuda_runtime α) (base m : List cuda_call)
    (held : Option β) (free : cuda_call) (hfree : free.in_allocation_block = false)
    (h : allocation_calls_succeeded rt base m = true) :
    allocation_calls_succeeded rt base (m ++ reset_calls held free) = true := by
  rw [succeeded_append, h]
  simp only [Bool.true_and]
  apply succeeded_of_no_allocation_call
  intro x hx
  rw [reset_calls_mem held free x hx]
  exact hfree

/-- How the `try` block leaves: it returns, every call of the block having succeeded, or a
call of the block fails and the exception leaves the block at that call.  The block does
not touch `device_in_use` and `have_active_transfer`. -/
theorem set_size_try_cases {α : Type} (rt : cuda_runtime α) (n : Nat) (e : gpu_data α)
    (c2 : List cuda_call) :
    ∃ t m, allocation_calls_succeeded rt c2 m = true ∧
      t.device_in_use = e.device_in_use ∧
      t.have_active_transfer = e.have_active_transfer ∧
      (set_size_try rt n e c2 = .returned t (c2 ++ m) ∨
       ∃ cf, cf.in_allocation_block = true ∧ rt.status (c2 ++ m ++ [cf]) = false ∧
         set_size_try rt n e c2 = .thrown t (c2 ++ m ++ [cf])) := by
  unfold set_size_try
  by_cases h1 : rt.status (c2 ++ [.cudaGetDevice]) = true
  swap
  · simp only [Bool.not_eq_true] at h1
    refine ⟨e, [], rfl, rfl, rfl, Or.inr ⟨.cudaGetDevice, rfl, ?_, ?_⟩⟩
    · rw [List.append_nil]; exact h1
    · rw [CHECK_CUDA_of_false rt _ _ _ h1, List.append_nil]
      rfl
  rw [CHECK_CUDA_of_true rt _ _ _ h1]
  simp only [outcome.andThen_returned]
  have g1 : allocation_calls_succeeded rt c2 [.cudaGetDevice] = true :=
    succeeded_snoc rt c2 [] _ rfl (by rw [List.append_nil]; exact h1)
  by_cases h2 : rt.status (c2 ++ [.cudaGetDevice] ++ [.cudaMallocHost (byte_count n)]) = true
  swap
  · simp only [Bool.not_eq_true] at h2
    refine ⟨{ e with the_device_id := rt.device_id }, [.cudaGetDevice], g1, rfl, rfl,
      Or.inr ⟨.cudaMallocHost (byte_count n), rfl, h2, ?_⟩⟩
    rw [CHECK_CUDA_of_false rt _ _ _ h2]
    rfl
  rw [CHECK_CUDA_of_true rt _ _ _ h2]
  simp only [outcome.andThen_returned]
  have g2 : allocation_calls_succeeded rt c2
      ([.cudaGetDevice] ++ [.cudaMallocHost (byte_count n)] ++
        reset_calls e.data_host .cudaFreeHost) = true :=
    succeeded_reset rt c2 _ _ _ rfl
      (succeeded_snoc rt c2 _ _ g1 h2)
  by_cases h3 : rt.status (c2 ++ [.cudaGetDevice] ++ [.cudaMallocHost (byte_count n)] ++
      reset_calls e.data_host .cudaFreeHost ++ [.cudaMalloc (byte_count n)]) = true
  swap
  · simp only [Bool.not_eq_true] at h3
    refine ⟨{ e with the_device_id := rt.device_id,
                     data_host := some (fresh_block rt.host_block (byte_count n)) },
      [.cudaGetDevice] ++ [.cudaMallocHost (byte_count n)] ++
        reset_calls e.data_host .cudaFreeHost, g2, rfl, rfl,
      Or.inr ⟨.cudaMalloc (byte_count n), rfl, ?_, ?_⟩⟩
    · simp only [← List.append_assoc]; exact h3
    · rw [CHECK_CUDA_of_false rt _ _ _ h3]
      simp only [← List.append_assoc]
      rfl
  rw [CHECK_CUDA_of_true rt _ _ _ h3]
  simp only [outcome.andThen_returned]
  have g3 : allocation_calls_succeeded rt c2
      ([.cudaGetDevice] ++ [.cudaMallocHost (byte_count n)] ++
        reset_calls e.data_host .cudaFreeHost ++ [.cudaMalloc (byte_count n)] ++
        reset_calls e.data_device .cudaFree) = true :=
    succeeded_reset rt c2 _ _ _ rfl
      (succeeded_snoc rt c2 _ _ g2 (by simp only [← List.append_assoc]; exact h3))
  by_cases hn : e.cuda_stream.isNone = true
  · rw [if_pos hn]
    by_cases h4 : rt.status (c2 ++ [.cudaGetDevice] ++ [.cudaMallocHost (byte_count n)] ++
        reset_calls e.data_host .cudaFreeHost ++ [.cudaMalloc (byte_count n)] ++
        reset_calls e.data_device .cudaFree ++ [.cudaStreamCreateWithFlags]) = true
    · refine ⟨{ e with the_device_id := rt.device_id,
                       data_host := some (fresh_block rt.host_block (byte_count n)),
                       data_device := some (fresh_block rt.device_block (byte_count n)),
                       cuda_stream := some rt.stream },
        [.cudaGetDevice] ++ [.cudaMallocHost (byte_count n)] ++
          reset_calls e.data_host .cudaFreeHost ++ [.cudaMalloc (byte_count n)] ++
          reset_calls e.data_device .cudaFree ++ [.cudaStreamCreateWithFlags],
        succeeded_snoc rt c2 _ _ g3 (by simp only [← List.append_assoc]; exact h4),
        rfl, rfl, Or.inl ?_⟩
      rw [CHECK_CUDA_of_true rt _ _ _ h4]
      simp only [← List.append_assoc]
      rfl
    · simp only [Bool.not_eq_true] at h4
      refine ⟨{ e with the_device_id := rt.device_id,
                       data_host := some (fresh_block rt.host_block (byte_count n)),
                       data_device := some (fresh_block rt.device_block (byte_count n)) },
        [.cudaGetDevice] ++ [.cudaMallocHost (byte_count n)] ++
          reset_calls e.data_host .cudaFreeHost ++ [.cudaMalloc (byte_count n)] ++
          reset_calls e.data_device .cudaFree, g3, rfl, rfl,
        Or.inr ⟨.cudaStreamCreateWithFlags, rfl, ?_, ?_⟩⟩
      · simp only [← List.append_assoc]; exact h4
      · rw [CHECK_CUDA_of_false rt _ _ _ h4]
        simp only [← List.append_assoc]
        rfl
  · rw [if_neg hn]
    refine ⟨{ e with the_device_id := rt.device_id,
                     data_host := some (fresh_block rt.host_block (byte_count n)),
                     data_device := some (fresh_block rt.device_block (byte_count n)) },
      [.cudaGetDevice] ++ [.cudaMallocHost (byte_count n)] ++
        reset_calls e.data_host .cudaFreeHost ++ [.cudaMalloc (byte_count n)] ++
        reset_calls e.data_device .cudaFree, g3, rfl, rfl, Or.inl ?_⟩
    simp only [← List.append_assoc]

theorem fence_calls_quiet (u : Bool) (x : cuda_call)
    (h : x ∈ (if u = true then [cuda_call.cudaStreamSynchronize none] else [])) :
    x.in_allocation_block = false ∧ x.releases_block = false := by
  split_ifs at h
  · simp only [List.mem_singleton] at h
    rw [h]
    exact ⟨rfl, rfl⟩
  · cases h

theorem wait_calls_quiet (q : Option Nat) (x : cuda_call)
    (h : x = .cudaStreamSynchronize q ∨ x = .cudaGetLastError) :
    x.in_allocation_block = false ∧ x.releases_block = false := by
  rcases h with h | h <;> rw [h] <;> exact ⟨rfl, rfl⟩

/-- How `set_size(0)` leaves.  The calls `p` are the fences: an exception leaves from them,
or they are followed by the release of the blocks held. -/
theorem set_size_zero_cases {α : Type} (rt : cuda_runtime α) (s : gpu_data α)
    (calls : List cuda_call) :
    ∃ p, (∀ x ∈ p, x.in_allocation_block = false ∧ x.releases_block = false) ∧
      (s.device_in_use = true → ∃ p1, p = .cudaStreamSynchronize none :: p1) ∧
      ((∃ t, set_size_zero rt s calls = .thrown t (calls ++ p)) ∨
       ((s.device_in_use = true →
          rt.status (calls ++ [.cudaStreamSynchronize none]) = true) ∧
        set_size_zero rt s calls =
          .returned { s with data_size := 0, host_current := true, device_current := true,
                             have_active_transfer := false, device_in_use := false,
                             data_host := none, data_device := none }
            (calls ++ p ++ reset_calls s.data_host .cudaFreeHost ++
              reset_calls s.data_device .cudaFree))) := by
  rcases fence_cases rt s calls with ⟨hu, _, hf⟩ | ⟨hok, hf⟩
  · refine ⟨[.cudaStreamSynchronize none], ?_, fun _ => ⟨[], rfl⟩, Or.inl ⟨s, ?_⟩⟩
    · intro x hx
      simp only [List.mem_singleton] at hx
      rw [hx]
      exact ⟨rfl, rfl⟩
    · unfold set_size_zero
      rw [hf]
      rfl
  · obtain ⟨a, wm, hwm, hw⟩ := wait_for_transfer_to_finish_log rt
      { s with device_in_use := false }
      (calls ++ (if s.device_in_use then [.cudaStreamSynchronize none] else []))
    refine ⟨(if s.device_in_use then [.cudaStreamSynchronize none] else []) ++ wm, ?_, ?_, ?_⟩
    · intro x hx
      rcases List.mem_append.1 hx with h1 | h1
      · exact fence_calls_quiet _ x h1
      · exact wait_calls_quiet _ x (hwm x h1)
    · intro hu
      exact ⟨wm, by rw [if_pos hu]; rfl⟩
    · rcases hw with hw | hw
      · right
        refine ⟨hok, ?_⟩
        unfold set_size_zero
        rw [hf]
        simp only [outcome.andThen_returned]
        rw [hw]
        simp only [outcome.andThen_returned, List.append_assoc]
      · left
        refine ⟨{ s with device_in_use := false, have_active_transfer := a }, ?_⟩
        unfold set_size_zero
        rw [hf]
        simp only [outcome.andThen_returned]
        rw [hw, List.append_assoc]
        rfl

/-- How a `set_size(n)` that reallocates (`n != 0`, `n != data_size`) leaves.  The calls `p`
are the fences.  An exception leaves from them; or the `try` block returns, every call of
it having succeeded; or a call `cf` of the block fails, `set_size(0)` runs from there and
returns, and the process is aborted. -/
theorem set_size_resize_cases {α : Type} (rt : cuda_runtime α) (n : Nat) (s : gpu_data α)
    (calls : List cuda_call) (h0 : n ≠ 0) (hn : n ≠ s.data_size) :
    ∃ p, (∀ x ∈ p, x.in_allocation_block = false ∧ x.releases_block = false) ∧
      (s.device_in_use = true → ∃ p1, p = .cudaStreamSynchronize none :: p1) ∧
      ((∃ t, set_size rt n s calls = .thrown t (calls ++ p)) ∨
       ((s.device_in_use = true →
          rt.status (calls ++ [.cudaStreamSynchronize none]) = true) ∧
        ∃ m, allocation_calls_succeeded rt (calls ++ p) m = true ∧
          ((∃ t, t.device_in_use = false ∧
              set_size rt n s calls = .returned t (calls ++ p ++ m)) ∨
           (∃ t3 cf, cf.in_allocation_block = true ∧
              rt.status (calls ++ p ++ m ++ [cf]) = false ∧
              set_size rt n s calls =
                (set_size_zero rt t3 (calls ++ p ++ m ++ [cf])).andThen
                  (fun s calls => .aborted s calls) ∧
              set_size_zero rt t3 (calls ++ p ++ m ++ [cf]) =
                .returned { t3 with data_size := 0, host_current := true,
                                    device_current := true, device_in_use := false,
                                    data_host := none, data_device := none }
                  (calls ++ p ++ m ++ [cf] ++ reset_calls t3.data_host .cudaFreeHost ++
                    reset_calls t3.data_device .cudaFree))))) := by
  rcases fence_cases rt s calls with ⟨hu, _, hf⟩ | ⟨hok, hf⟩
  · refine ⟨[.cudaStreamSynchronize none], ?_, fun _ => ⟨[], rfl⟩, Or.inl ⟨s, ?_⟩⟩
    · intro x hx
      simp only [List.mem_singleton] at hx
      rw [hx]
      exact ⟨rfl, rfl⟩
    · unfold set_size
      rw [if_neg h0, if_pos hn, hf]
      rfl
  · obtain ⟨a, wm, hwm, hw⟩ := wait_for_transfer_to_finish_log rt
      { s with device_in_use := false }
      (calls ++ (if s.device_in_use then [.cudaStreamSynchronize none] else []))
    refine ⟨(if s.device_in_use then [.cudaStreamSynchronize none] else []) ++ wm, ?_, ?_, ?_⟩
    · intro x hx
      rcases List.mem_append.1 hx with h1 | h1
      · exact fence_calls_quiet _ x h1
      · exact wait_calls_quiet _ x (hwm x h1)
    · intro hu
      exact ⟨wm, by rw [if_pos hu]; rfl⟩
    · rcases hw with hw | hw
      · right
        refine ⟨hok, ?_⟩
        obtain ⟨t, m, hm, hq1, hq2, ht⟩ := set_size_try_cases rt n
          { s with data_size := n, host_current := true, device_current := true,
                   have_active_transfer := false, device_in_use := false }
          (calls ++ (if s.device_in_use then [.cudaStreamSynchronize none] else []) ++ wm)
        refine ⟨m, by rw [← List.append_assoc]; exact hm, ?_⟩
        rcases ht with ht | ⟨cf, hcf, hst, ht⟩
        · left
          refine ⟨t, hq1, ?_⟩
          unfold set_size
          rw [if_neg h0, if_pos hn, hf]
          simp only [outcome.andThen_returned]
          rw [hw]
          simp only [outcome.andThen_returned]
          rw [ht, ← List.append_assoc]
          rfl
        · right
          refine ⟨t, cf, hcf, by rw [← List.append_assoc]; exact hst, ?_, ?_⟩
          · unfold set_size
            rw [if_neg h0, if_pos hn, hf]
            simp only [outcome.andThen_returned]
            rw [hw]
            simp only [outcome.andThen_returned]
            rw [ht, ← List.append_assoc]
            rfl
          · rw [set_size_zero_quiet rt t _ hq1 hq2]
      · left
        refine ⟨{ s with device_in_use := false, have_active_transfer := a }, ?_⟩
        unfold set_size
        rw [if_neg h0, if_pos hn, hf]
        simp only [outcome.andThen_returned]
        rw [hw, List.append_assoc]
        rfl

theorem log_cancel (calls a pre post : List cuda_call) (c : cuda_call)
    (h : calls ++ a = calls ++ pre ++ c :: post) : a = pre ++ c :: post := by
  rw [List.append_assoc] at h
  exact List.append_cancel_left h

theorem set_size_zero_eq {α : Type} (rt : cuda_runtime α) (s : gpu_data α)
    (calls : List cuda_call) : set_size rt 0 s calls = set_size_zero rt s calls := by
  unfold set_size
  rw [if_pos rfl]

/-- C21.  For every state and every `n` with `n != 0` and `n != size()`: when a call of the
allocation block of `set_size(n)` (`cudaGetDevice`, `cudaMallocHost`, `cudaMalloc`,
`cudaStreamCreateWithFlags`) is made and fails, the call does not return.  From the state
`t3` at the failed call it runs `set_size(0)`, which returns and makes only the calls
`post` that release blocks, and then the process is aborted; the state at that point has
size 0, no blocks, `host_current` and `device_current` true and `device_in_use` false. -/
theorem set_size_allocation_failure_aborts {α : Type} (rt : cuda_runtime α) (n : Nat)
    (s : gpu_data α) (calls pre post : List cuda_call) (c : cuda_call)
    (h0 : n ≠ 0) (hn : n ≠ s.size) (hc : c.in_allocation_block = true)
    (hlog : (set_size rt n s calls).calls = calls ++ pre ++ c :: post)
    (hfail : rt.status (calls ++ pre ++ [c]) = false) :
    ∃ t3 t,
      set_size rt n s calls =
        (set_size rt 0 t3 (calls ++ pre ++ [c])).andThen (fun s calls => .aborted s calls) ∧
      set_size rt 0 t3 (calls ++ pre ++ [c]) = .returned t (calls ++ pre ++ c :: post) ∧
      set_size rt n s calls = .aborted t (calls ++ pre ++ c :: post) ∧
      (∀ x ∈ post, x.releases_block = true) ∧
      t.size = 0 ∧ t.data_host = none ∧ t.data_device = none ∧
      t.host_current = true ∧ t.device_current = true ∧ t.device_in_use = false := by
  obtain ⟨p, hp, _, hcases⟩ := set_size_resize_cases rt n s calls h0 hn
  rcases hcases with ⟨t, ht⟩ | ⟨_, m, hm, ⟨t, _, ht⟩ | ⟨t3, cf, hcf, hst, hz, hr⟩⟩
  · exfalso
    rw [ht] at hlog
    have e := log_cancel calls p pre post c hlog
    have h1 := (hp c (by rw [e]; simp)).1
    rw [h1] at hc
    cases hc
  · exfalso
    rw [ht] at hlog
    have e : p ++ m = pre ++ c :: post :=
      log_cancel calls (p ++ m) pre post c (by rw [← List.append_assoc]; exact hlog)
    have h1 : allocation_calls_succeeded rt calls (pre ++ c :: post) = true := by
      rw [← e, succeeded_append, hm,
        succeeded_of_no_allocation_call rt p calls (fun x hx => (hp x hx).1)]
      rfl
    rw [succeeded_at rt calls pre post c h1 hc] at hfail
    cases hfail
  · have hl : (set_size rt n s calls).calls =
        calls ++ p ++ m ++ [cf] ++ reset_calls t3.data_host cuda_call.cudaFreeHost ++
          reset_calls t3.data_device cuda_call.cudaFree := by
      rw [hz, hr]
      rfl
    rw [hl] at hlog
    have hb : ∀ x ∈ reset_calls t3.data_host cuda_call.cudaFreeHost ++
        reset_calls t3.data_device cuda_call.cudaFree,
        x = cuda_call.cudaFreeHost ∨ x = cuda_call.cudaFree := by
      intro x hx
      rcases List.mem_append.1 hx with h1 | h1
      · exact Or.inl (reset_calls_mem _ _ x h1)
      · exact Or.inr (reset_calls_mem _ _ x h1)
    have e : (p ++ m) ++ cf :: (reset_calls t3.data_host cuda_call.cudaFreeHost ++
        reset_calls t3.data_device cuda_call.cudaFree) = pre ++ c :: post :=
      log_cancel calls _ pre post c (by
        rw [← hlog]
        simp)
    have hs : allocation_calls_succeeded rt calls (p ++ m) = true := by
      rw [succeeded_append, hm,
        succeeded_of_no_allocation_call rt p calls (fun x hx => (hp x hx).1)]
      rfl
    obtain ⟨e1, e2, e3⟩ := first_failure_unique rt (p ++ m) calls _ pre post cf c hs
      (fun x hx => by rcases hb x hx with h1 | h1 <;> rw [h1] <;> rfl) e hc hfail
    have el : calls ++ p ++ m ++ [cf] = calls ++ pre ++ [c] := by
      rw [e1, e2]
      simp only [List.append_assoc]
    have el2 : calls ++ p ++ m ++ [cf] ++ reset_calls t3.data_host cuda_call.cudaFreeHost ++
        reset_calls t3.data_device cuda_call.cudaFree = calls ++ pre ++ c :: post := by
      rw [e1, e2, e3]
      simp
    rw [el] at hz
    rw [el2, el] at hr
    refine ⟨t3, { t3 with data_size := 0, host_current := true, device_current := true,
                          device_in_use := false, data_host := none, data_device := none },
      ?_, ?_, ?_, ?_, rfl, rfl, rfl, rfl, rfl, rfl⟩
    · rw [set_size_zero_eq]; exact hz
    · rw [set_size_zero_eq]; exact hr
    · rw [hz, hr]; rfl
    · intro x hx
      rw [e3] at hx
      rcases hb x hx with h1 | h1 <;> rw [h1] <;> rfl

/-- C21, when device memory is exhausted: `set_size(2)` on a fresh instance queries the
device and obtains the pinned host block, `cudaMalloc` fails, the rollback releases the
host block, and the process is aborted in the empty state. -/
theorem set_size_allocation_failure_aborts_witness :
    (set_size cuda_out_of_device_memory 2 gpu_data.new []).calls =
      [.cudaGetDevice, .cudaMallocHost 8, .cudaMalloc 8, .cudaFreeHost] ∧
    cuda_out_of_device_memory.status [.cudaGetDevice, .cudaMallocHost 8, .cudaMalloc 8]
      = false ∧
    set_size cuda_out_of_device_memory 2 gpu_data.new [] =
      .aborted gpu_data.new [.cudaGetDevice, .cudaMallocHost 8, .cudaMalloc 8, .cudaFreeHost] ∧
    ∃ t3 t,
      set_size cuda_out_of_device_memory 2 gpu_data.new [] =
        (set_size cuda_out_of_device_memory 0 t3
          ([] ++ [.cudaGetDevice, .cudaMallocHost 8] ++ [.cudaMalloc 8])).andThen
          (fun s calls => .aborted s calls) ∧
      set_size cuda_out_of_device_memory 0 t3
          ([] ++ [.cudaGetDevice, .cudaMallocHost 8] ++ [.cudaMalloc 8]) =
        .returned t ([] ++ [.cudaGetDevice, .cudaMallocHost 8] ++
          .cudaMalloc 8 :: [.cudaFreeHost]) ∧
      set_size cuda_out_of_device_memory 2 gpu_data.new [] =
        .aborted t ([] ++ [.cudaGetDevice, .cudaMallocHost 8] ++
          .cudaMalloc 8 :: [.cudaFreeHost]) ∧
      (∀ x ∈ [cuda_call.cudaFreeHost], x.releases_block = true) ∧
      t.size = 0 ∧ t.data_host = none ∧ t.data_device = none ∧
      t.host_current = true ∧ t.device_current = true ∧ t.device_in_use = false :=
  ⟨by decide, by decide, by decide,
   set_size_allocation_failure_aborts cuda_out_of_device_memory 2 gpu_data.new []
     [.cudaGetDevice, .cudaMallocHost 8] [.cudaFreeHost] (.cudaMalloc 8)
     (by decide) (by decide) rfl (by decide) (by decide)⟩

theorem release_after_fence (p1 rest pre post : List cuda_call) (c : cuda_call)
    (e : cuda_call.cudaStreamSynchronize none :: p1 ++ rest = pre ++ c :: post)
    (hc : c.releases_block = true) : ∃ pre1, pre = .cudaStreamSynchronize none :: pre1 := by
  cases pre with
  | nil =>
    simp only [List.cons_append, List.nil_append, List.cons.injEq] at e
    rw [← e.1] at hc
    cases hc
  | cons x pre1 =>
    simp only [List.cons_append, List.cons.injEq] at e
    exact ⟨pre1, by rw [e.1]⟩

/-- C24.  The device block is not overwritten by a queued copy and not released while
`device_in_use` is true, for every state and every runtime.

`async_copy_to_device` on a stale device copy: the fence `cudaStreamSynchronize(0)` fails
and nothing is queued, or the copy is queued in the state with `device_in_use == false`,
and when `device_in_use` was true on entry the fence precedes it in the record of calls and
has succeeded.

`set_size(n)`, any `n`: wherever a release (`cudaFreeHost`, `cudaFree`) stands in the calls
it made, the call ends with `device_in_use == false` (it assigns `false` before the blocks
are touched and never assigns the flag afterwards), and when `device_in_use` was true on
entry the calls before the release start with the fence `cudaStreamSynchronize(0)`, which
has succeeded. -/
theorem buffer_fenced_before_overwrite_or_release {α : Type} (rt : cuda_runtime α)
    (s : gpu_data α) (calls : List cuda_call) (n : Nat) :
    (s.device_current = false →
      (s.device_in_use = true ∧
        async_copy_to_device rt s calls =
          .thrown s (calls ++ [.cudaStreamSynchronize none])) ∨
      ((s.device_in_use = true →
          rt.status (calls ++ [.cudaStreamSynchronize none]) = true) ∧
        async_copy_to_device rt s calls =
          (CHECK_CUDA rt (.cudaMemcpyAsync (byte_count s.data_size) .cudaMemcpyHostToDevice
            s.cuda_stream) { s with device_in_use := false }
            (calls ++ (if s.device_in_use then [.cudaStreamSynchronize none] else []))).andThen
            fun s calls =>
              .returned { s with
                data_device := copy_floats (byte_count s.data_size) s.data_device s.data_host,
                have_active_transfer := true, device_current := true } calls)) ∧
    (∀ pre c post, (set_size rt n s calls).calls = calls ++ pre ++ c :: post →
      c.releases_block = true →
      (set_size rt n s calls).state.device_in_use = false ∧
      (s.device_in_use = true →
        rt.status (calls ++ [.cudaStreamSynchronize none]) = true ∧
        ∃ pre1, pre = .cudaStreamSynchronize none :: pre1)) := by
  constructor
  · intro hc
    rcases fence_cases rt s calls with ⟨hu, _, hf⟩ | ⟨hok, hf⟩
    · left
      refine ⟨hu, ?_⟩
      unfold async_copy_to_device
      rw [if_pos (by simp [hc]), hf]
      rfl
    · right
      refine ⟨hok, ?_⟩
      unfold async_copy_to_device
      rw [if_pos (by simp [hc]), hf]
      rfl
  · intro pre c post hlog hc
    by_cases h0 : n = 0
    · subst h0
      rw [set_size_zero_eq] at hlog ⊢
      obtain ⟨p, hp, hhead, hcases⟩ := set_size_zero_cases rt s calls
      rcases hcases with ⟨t, ht⟩ | ⟨hok, hr⟩
      · exfalso
        rw [ht] at hlog
        have e := log_cancel calls p pre post c hlog
        have h1 := (hp c (by rw [e]; simp)).2
        rw [h1] at hc
        cases hc
      · rw [hr] at hlog ⊢
        refine ⟨rfl, fun hu => ⟨hok hu, ?_⟩⟩
        obtain ⟨p1, rfl⟩ := hhead hu
        have e := log_cancel calls _ pre post c
          (show calls ++ (cuda_call.cudaStreamSynchronize none :: p1 ++
            (reset_calls s.data_host cuda_call.cudaFreeHost ++
              reset_calls s.data_device cuda_call.cudaFree)) = _ by
            rw [← hlog]; simp [outcome.calls])
        exact release_after_fence p1 _ pre post c e hc
    · by_cases hn : n ≠ s.data_size
      · obtain ⟨p, hp, hhead, hcases⟩ := set_size_resize_cases rt n s calls h0 hn
        rcases hcases with ⟨t, ht⟩ | ⟨hok, m, _, ⟨t, hq, ht⟩ | ⟨t3, cf, _, _, hz, hr⟩⟩
        · exfalso
          rw [ht] at hlog
          have e := log_cancel calls p pre post c hlog
          have h1 := (hp c (by rw [e]; simp)).2
          rw [h1] at hc
          cases hc
        · rw [ht] at hlog ⊢
          refine ⟨hq, fun hu => ⟨hok hu, ?_⟩⟩
          obtain ⟨p1, rfl⟩ := hhead hu
          have e := log_cancel calls _ pre post c
            (show calls ++ (cuda_call.cudaStreamSynchronize none :: p1 ++ m) = _ by
              rw [← hlog]; simp [outcome.calls])
          exact release_after_fence p1 _ pre post c e hc
        · rw [hz, hr] at hlog ⊢
          refine ⟨rfl, fun hu => ⟨hok hu, ?_⟩⟩
          obtain ⟨p1, rfl⟩ := hhead hu
          have e := log_cancel calls _ pre post c
            (show calls ++ (cuda_call.cudaStreamSynchronize none :: p1 ++
              (m ++ [cf] ++ reset_calls t3.data_host cuda_call.cudaFreeHost ++
                reset_calls t3.data_device cuda_call.cudaFree)) = _ by
              rw [← hlog]; simp [outcome.calls, outcome.andThen])
          exact release_after_fence p1 _ pre post c e hc
      · exfalso
        have hr : set_size rt n s calls = .returned s calls := by
          unfold set_size
          rw [if_neg h0, if_neg hn]
        rw [hr] at hlog
        have e : calls ++ [] = calls ++ pre ++ c :: post := by
          rw [List.append_nil]; exact hlog
        have e2 := log_cancel calls [] pre post c e
        cases pre <;> cases e2

/-- C24, at the instance `busy2` (a transfer pending and the device block marked in use):
`set_size(0)` fences the default stream first and releases the two blocks last, and ends
with `device_in_use == false`. -/
theorem buffer_fenced_before_overwrite_or_release_witness :
    (set_size cuda_ok 0 busy2 []).calls =
      [] ++ [.cudaStreamSynchronize none, .cudaStreamSynchronize (some 1),
        .cudaGetLastError] ++ .cudaFreeHost :: [.cudaFree] ∧
    busy2.device_in_use = true ∧
    (set_size cuda_ok 0 busy2 []).state.device_in_use = false ∧
    (busy2.device_in_use = true →
      cuda_ok.status ([] ++ [.cudaStreamSynchronize none]) = true ∧
      ∃ pre1, [cuda_call.cudaStreamSynchronize none, .cudaStreamSynchronize (some 1),
        .cudaGetLastError] = .cudaStreamSynchronize none :: pre1) :=
  ⟨by decide, by decide,
   (buffer_fenced_before_overwrite_or_release cuda_ok busy2 [] 0).2
     [.cudaStreamSynchronize none, .cudaStreamSynchronize (some 1), .cudaGetLastError]
     .cudaFreeHost [.cudaFree] (by decide) rfl⟩

end dlib
